import Mathlib

/-!
# Tutorial21_RayTracing: scene composition and TLAS life cycle

A shallow embedding of `Tutorial21_RayTracing.cpp`.

* The class members touched by the code are the fields of `State`; every
  member function is a function `Config → State → Option State`.
* Calls into the rendering engine are recorded, in call order, in
  `State.ctx`; engine objects are represented by the descriptions they were
  created from.  Object creation by the device is taken to succeed.
* `none` is a fault of the sample itself: an out-of-range `std::vector`
  access or the dereference of a null member handle.
* C++ `int` values are mathematical integers, without overflow.
* C++ `float` values are rationals (`ℚ`).  A literal such as `0.3f` is the
  nearest `float`, `roundFloat (3 / 10)`, the conversion of an `int` is
  `roundFloat`, and every `float` operation is the exact operation followed
  by `roundFloat` (IEEE 754 single precision, round to nearest, ties to
  even); a product and a sum are rounded one after the other, not fused.
  Where operands and result are small integers or halves (the fixed
  translations, the grid positions of the cubes) the rounding is the identity
  and is not written.  Products with `cos`/`sin` are kept symbolic
  (`FloatVal.mulCos`, `FloatVal.mulSin`).
* Names declared in headers that are not part of the sources (`a`, `b`, `c`,
  `d`, `OPAQUE_GEOM_MASK`, ...) and the properties reported by the device
  are the fields of `Config`.
-/

namespace Tutorial21

/-! ## Single precision -/

/-- Rounding of a rational to an integer: to nearest, ties to even. -/
def roundEven (m : ℚ) : Int :=
  let f := ⌊m⌋
  let r := m - f
  if r < 1 / 2 then f else if 1 / 2 < r then f + 1 else if f % 2 = 0 then f else f + 1

/-- Position of the leading bit of `n`, found in at most `fuel` halvings. -/
def leadingBit : Nat → Nat → Nat
  | 0, _ => 0
  | fuel + 1, n => if 2 ≤ n then leadingBit fuel (n / 2) + 1 else 0

/-- Binary exponent of a non-zero rational: the `e` with `2^e ≤ |q| < 2^(e+1)`. -/
def binade (q : ℚ) : Int :=
  let p := leadingBit q.num.natAbs q.num.natAbs
  let r := leadingBit q.den q.den
  if q.num.natAbs * 2 ^ r < q.den * 2 ^ p then (p : Int) - r - 1 else (p : Int) - r

/-- The `float` nearest to `q` (IEEE 754 binary32, round to nearest, ties to
even): 24 significant bits, and multiples of `2^-149` below `2^-126`.  The
values of this program stay far below the largest `float`, so the overflow to
infinity is left out. -/
def roundFloat (q : ℚ) : ℚ :=
  if q = 0 then 0
  else
    let quantum : ℚ := 2 ^ (max (binade q) (-126) - 23)
    (roundEven (q / quantum) : ℚ) * quantum

/-! ## Values -/

/-- Value of a C++ `float` variable: a rational, or the result of
`radio * cos(angulo)` / `radio * sin(angulo)` of the spiral placement for the
`float` values `radio` and `angulo`, which is kept symbolic. -/
inductive FloatVal where
  | rat (q : ℚ)
  | mulCos (radio angulo : ℚ)
  | mulSin (radio angulo : ℚ)
  deriving DecidableEq

/-- Engine type `float3`. -/
structure float3 where
  x : FloatVal
  y : FloatVal
  z : FloatVal
  deriving DecidableEq

/-- The 3x3 part of an `InstanceMatrix`, described by the engine expression
that produced it: the identity of a default-constructed matrix,
`float3x3::Scale(x, y, z)`, or
`float3x3::RotationY(angleY) * float3x3::RotationX(angleX)`. -/
inductive float3x3 where
  | Identity
  | Scale (x y z : ℚ)
  | RotationYX (angleY angleX : ℚ)
  deriving DecidableEq

/-- Engine type `InstanceMatrix` (3x4): rotation part and translation column.
The default-constructed matrix is the identity. -/
structure InstanceMatrix where
  rotation : float3x3 := float3x3.Identity
  translation : float3 := ⟨FloatVal.rat 0, FloatVal.rat 0, FloatVal.rat 0⟩
  deriving DecidableEq

/-- `InstanceMatrix::SetTranslation(x, y, z)`: overwrites the translation column. -/
def InstanceMatrix.SetTranslation (m : InstanceMatrix) (x y z : FloatVal) : InstanceMatrix :=
  { m with translation := ⟨x, y, z⟩ }

/-- `InstanceMatrix::SetRotation(r)`: overwrites the 3x3 part. -/
def InstanceMatrix.SetRotation (m : InstanceMatrix) (r : float3x3) : InstanceMatrix :=
  { m with rotation := r }

/-! ## Vectors -/

/-- `std::vector::resize(n)`: keeps the first `n` elements and pads with
value-initialised elements. -/
def resize {α : Type} (xs : List α) (n : Nat) (dflt : α) : List α :=
  xs.take n ++ List.replicate (n - xs.length) dflt

/-- `v[i] = x` on a `std::vector`; `none` when `i` is out of range. -/
def vecSet {α : Type} (xs : List α) (i : Nat) (x : α) : Option (List α) :=
  if i < xs.length then some (xs.set i x) else none

/-- `v[i]` on a `std::vector`; `none` when `i` is out of range. -/
def vecGet {α : Type} (xs : List α) (i : Nat) : Option α :=
  xs[i]?

/-! ## Loops -/

/-- `for (x : xs; cond(state); ...) body`: runs `body` over `xs` in order and
leaves the loop as soon as the loop condition `cond` fails. -/
def forWhile {α σ : Type} (cond : σ → Bool) (body : α → σ → Option σ) :
    List α → σ → Option σ
  | [], s => some s
  | x :: xs, s => if cond s then (body x s).bind (forWhile cond body xs) else some s

/-- `for (int i = 0; i < n; ++i) body`. -/
def forRange {σ : Type} (n : Nat) (body : Nat → σ → Option σ) (s : σ) : Option σ :=
  forWhile (fun _ => true) body (List.range n) s

/-- The values `lo, lo + 1, ..., hi` taken by `for (int i = lo; i <= hi; i++)`. -/
def intRange (lo hi : Int) : List Int :=
  (List.range (hi + 1 - lo).toNat).map (fun (k : Nat) => lo + (k : Int))

/-! ## Engine objects -/

/-- Shader type `HLSL::BoxAttribs`: an axis-aligned box. -/
structure BoxAttribs where
  minX : ℚ
  minY : ℚ
  minZ : ℚ
  maxX : ℚ
  maxY : ℚ
  maxZ : ℚ
  deriving DecidableEq

/-- Geometry description of a `BottomLevelASDesc`: one `BLASTriangleDesc`
or one `BLASBoundingBoxDesc`. -/
inductive BLASGeometry where
  | Triangles (GeometryName : String) (MaxVertexCount MaxPrimitiveCount : Nat)
  | Boxes (GeometryName : String) (MaxBoxCount : Nat)
  deriving DecidableEq

/-- Bottom-level acceleration structure: the description it was created with. -/
structure IBottomLevelAS where
  Name : String
  Geometry : BLASGeometry
  deriving DecidableEq

/-- Engine type `BuildBLASAttribs`: the structure built and the geometry
data handed over (`TriangleDataCount` triangle sets with `PrimitiveCount`
triangles, `BoxDataCount` box sets with `BoxCount` boxes). -/
structure BuildBLASAttribs where
  pBLAS : Option IBottomLevelAS
  TriangleDataCount : Nat := 0
  PrimitiveCount : Nat := 0
  BoxDataCount : Nat := 0
  BoxCount : Nat := 0
  deriving DecidableEq

/-- Engine type `TLASBuildInstanceData`, with the defaults of the engine. -/
structure TLASBuildInstanceData where
  InstanceName : Option String := none
  pBLAS : Option IBottomLevelAS := none
  Transform : InstanceMatrix := {}
  CustomId : Nat := 0
  Mask : Nat := 0xFF
  deriving DecidableEq

/-- Engine type `TopLevelASDesc` (the flags are constant and left out). -/
structure TopLevelASDesc where
  Name : String
  MaxInstanceCount : Nat
  deriving DecidableEq

/-- Top-level acceleration structure: its description and the instances of
the last build or update. -/
structure ITopLevelAS where
  Desc : TopLevelASDesc
  Instances : List TLASBuildInstanceData := []
  deriving DecidableEq

/-- Engine type `BufferDesc`. -/
structure BufferDesc where
  Name : String
  Size : Nat
  deriving DecidableEq

/-- Engine type `BuildTLASAttribs` (transition modes are constant and left out). -/
structure BuildTLASAttribs where
  Update : Bool
  pInstances : List TLASBuildInstanceData
  InstanceCount : Nat
  HitGroupStride : Nat
  deriving DecidableEq

/-- Engine type `TextureDesc` of the colour image. -/
structure TextureDesc where
  Name : String
  Width : Nat
  Height : Nat
  deriving DecidableEq

/-- Shader resource binding object: the variables set so far, as pairs of
shader stage and variable name, in call order. -/
structure ShaderResourceBinding where
  vars : List (String × String) := []
  deriving DecidableEq

/-- Ray type of a hit-group binding.
Modelled from the spec: the header declaring `PRIMARY_RAY_INDEX` and
`SHADOW_RAY_INDEX` is not part of the sources; the spec names exactly two
ray types, primary and shadow. -/
inductive RayIndex where
  | PRIMARY_RAY_INDEX
  | SHADOW_RAY_INDEX
  deriving DecidableEq

/-- One binding call on the shader binding table; a hit group of `none` is
the `nullptr` group. -/
inductive SBTBinding where
  | BindRayGenShader (shader : String)
  | BindMissShader (shader : String) (ray : RayIndex)
  | BindHitGroupForInstance (InstanceName : String) (ray : RayIndex) (group : Option String)
  | BindHitGroupForTLAS (ray : RayIndex) (group : Option String)
  deriving DecidableEq

/-- Shader binding table: the binding calls made on it, in call order. -/
structure IShaderBindingTable where
  Name : String
  bindings : List SBTBinding := []
  deriving DecidableEq

/-- Ray-tracing pipeline state: the declared recursion depth and the names
of its shader groups. -/
structure RayTracingPSO where
  MaxRecursionDepth : Nat
  groups : List String
  deriving DecidableEq

/-- Calls into the device and the immediate context that the sample makes. -/
inductive Cmd where
  | Unsupported (msg : String)
  | CreateShader (name file : String)
  | CreateBuffer (desc : BufferDesc) (boxData : List BoxAttribs)
  | CreateGraphicsPipelineState (name : String)
  | CreateRayTracingPipelineState (pso : RayTracingPSO)
  | CreateTextureFromFile (file : String)
  | CreateTexture (desc : TextureDesc)
  | CreateBLAS (blas : IBottomLevelAS)
  | BuildBLAS (attribs : BuildBLASAttribs)
  | CreateTLAS (desc : TopLevelASDesc)
  | BuildTLAS (attribs : BuildTLASAttribs)
  | CreateSBT (name : String)
  | UpdateSBT
  | UpdateBuffer (buffer : Option BufferDesc) (camera : Nat)
  | SetPipelineState (pso : String)
  | TraceRays (DimensionX DimensionY : Nat) (pSBT : Option String)
  | SetRenderTargets
  | Draw (NumVertices : Nat)
  deriving DecidableEq

/-! ## Configuration and state -/

/-- What the sample takes from outside `Tutorial21_RayTracing.cpp`: the
members `a`, `b`, `c`, `d` and the constants of headers that are not part of
the sources, and the properties the device reports. -/
structure Config where
  a : Nat
  b : Nat
  c : Nat
  d : Nat
  OPAQUE_GEOM_MASK : Nat
  HIT_GROUP_STRIDE : Nat
  TLAS_INSTANCE_DATA_SIZE : Nat
  NumTextures : Nat
  /-- `GetAdapterInfo().RayTracing.CapFlags & RAY_TRACING_CAP_FLAG_STANDALONE_SHADERS`. -/
  StandaloneShaders : Bool
  /-- `GetAdapterInfo().RayTracing.MaxRecursionDepth`. -/
  DeviceMaxRecursionDepth : Nat
  /-- `m_pTLAS->GetScratchBufferSizes().Build`. -/
  ScratchBuild : Nat
  /-- `m_pTLAS->GetScratchBufferSizes().Update`. -/
  ScratchUpdate : Nat
  /-- `GetScratchBufferSizes().Build` of a bottom-level structure. -/
  BLASScratchBuild : Nat
  /-- `sizeof(m_Constants)`. -/
  SizeofConstants : Nat
  /-- `sizeof(HLSL::CubeAttribs)`. -/
  SizeofCubeAttribs : Nat
  /-- `sizeof(HLSL::BoxAttribs)`. -/
  SizeofBoxAttribs : Nat
  /-- `CubeGeoInfo.NumVertices` as returned by `CreateGeometryPrimitive`. -/
  CubeNumVertices : Nat
  /-- `CubeGeoInfo.NumIndices` as returned by `CreateGeometryPrimitive`. -/
  CubeNumIndices : Nat

/-- The members of `Tutorial21_RayTracing` and the calls issued so far. -/
structure State where
  m_ConstantsCB : Option BufferDesc
  m_pImageBlitPSO : Option String
  m_pImageBlitSRB : Option ShaderResourceBinding
  m_pRayTracingPSO : Option RayTracingPSO
  m_pRayTracingSRB : Option ShaderResourceBinding
  m_CubeAttribsCB : Option BufferDesc
  m_BoxAttribsCB : Option BufferDesc
  m_pCubeBLAS : Option IBottomLevelAS
  m_pSmallCubeBLAS : Option IBottomLevelAS
  m_pProceduralBLAS : Option IBottomLevelAS
  m_pTLAS : Option ITopLevelAS
  m_ScratchBuffer : Option BufferDesc
  m_InstanceBuffer : Option BufferDesc
  m_pSBT : Option IShaderBindingTable
  m_pColorRT : Option TextureDesc
  m_SmallSphereTransforms : List InstanceMatrix
  m_SmallCubeTransforms : List InstanceMatrix
  m_cubesCustomIds : List Nat
  m_SphereInstanceNames : List String
  m_CubeInstanceNames : List String
  m_MaxSmallSpheres : Int
  m_NumActiveSmallSpheres : Int
  m_MaxSmallCubes : Int
  m_NumActiveSmallCubes : Int
  m_MaxRecursionDepth : Nat
  /-- `m_Constants.MaxRecursion`. -/
  MaxRecursion : Int
  /-- `m_Constants.ShadowPCF`. -/
  ShadowPCF : Int
  /-- The values that successive calls `dist(rng)` return. -/
  rng : Nat → ℚ
  /-- Number of values drawn from `rng` so far. -/
  rngDrawn : Nat
  /-- Aspect ratio of the last `m_Camera.SetProjAttribs`. -/
  AspectRatio : Option ℚ
  /-- Pose of `m_Camera` (position and view-projection), as an identifier. -/
  m_Camera : Nat
  /-- Calls into the engine, oldest first. -/
  ctx : List Cmd

/-- Appends one engine call to the record. -/
def State.emit (s : State) (c : Cmd) : State :=
  { s with ctx := s.ctx ++ [c] }

/-- `pSRB->GetVariableByName(stage, name)->Set(...)` on `m_pRayTracingSRB`;
`none` when the binding object is null. -/
def State.setRayTracingVar (s : State) (stage name : String) : Option State :=
  match s.m_pRayTracingSRB with
  | none => none
  | some srb => some { s with m_pRayTracingSRB := some { srb with vars := srb.vars ++ [(stage, name)] } }

/-! ## UpdateTLAS: placement (first run only) -/

def radio_inicial : ℚ := 5
def incremento_radio : ℚ := roundFloat (3 / 10)
def incremento_angulo : ℚ := 1 / 2
def altura_base : ℚ := -55 / 10
def capas : Int := 5

/-- The variable `radio` of round `i` of the spiral loop (line 647). -/
def spiralRadio (i : Nat) : ℚ :=
  roundFloat (radio_inicial + roundFloat (incremento_radio * roundFloat (i : ℚ)))

/-- The variable `angulo` of round `i` of the spiral loop (line 648). -/
def spiralAngulo (i : Nat) : ℚ :=
  roundFloat (incremento_angulo * roundFloat (i : ℚ))

/-- The variable `y` of round `i` of the spiral loop (line 652). -/
def spiralY (i : Nat) : ℚ :=
  roundFloat (altura_base + roundFloat (roundFloat (i : ℚ) * roundFloat (5 / 100)))

/-- Transform of sphere `i` as computed in the spiral loop (lines 647-659). -/
def spiralTransform (i : Nat) : InstanceMatrix :=
  let radio : ℚ := spiralRadio i
  let angulo : ℚ := spiralAngulo i
  let x := FloatVal.mulCos radio angulo
  let z := FloatVal.mulSin radio angulo
  let y := FloatVal.rat (spiralY i)
  let p : float3 := ⟨x, y, z⟩
  ({} : InstanceMatrix).SetTranslation p.x p.y p.z

/-- Body of the spiral loop (lines 645-661). -/
def spiralBody (i : Nat) (ts : List InstanceMatrix) : Option (List InstanceMatrix) :=
  vecSet ts i (spiralTransform i)

/-- Loop state of the cube placement: the running `index` and the two
member vectors being filled. -/
structure CubeGen where
  index : Nat
  ids : List Nat
  xfs : List InstanceMatrix
  /-- The indices at which a material id and a transform were stored, in
  order (a record of the writes; not a variable of the source). -/
  written : List Nat := []
  deriving DecidableEq

/-- Material choice of a pyramid cube (lines 692-706). -/
def pyramidMaterial (index NumSmallCubes : Nat) : Nat :=
  let mat_selector : ℚ := roundFloat (roundFloat (index : ℚ) / roundFloat (NumSmallCubes : ℚ))
  if mat_selector < roundFloat (6 / 10) then 0
  else if mat_selector < roundFloat (85 / 100) then 1
  else 2

/-- Transform of the cube placed as number `index` at grid cell `(i, j)` of
layer `capa` (lines 673, 685-687, 711-715). -/
def pyramidTransform (index : Nat) (capa i j : Int) : InstanceMatrix :=
  let nivel_y : ℚ := altura_base + (capa : ℚ) * (15 / 10)
  let x : ℚ := (i : ℚ) * 2
  let z : ℚ := (j : ℚ) * 2
  let p : float3 := ⟨FloatVal.rat x, FloatVal.rat nivel_y, FloatVal.rat z⟩
  let xf : InstanceMatrix := ({} : InstanceMatrix).SetTranslation p.x p.y p.z
  let rot := float3x3.RotationYX (roundFloat (roundFloat (index : ℚ) * roundFloat (2 / 10)))
    (roundFloat (roundFloat (capa : ℚ) * roundFloat (15 / 100)))
  xf.SetRotation rot

/-- Body of the `if` of the innermost pyramid loop (lines 684-718): places
cube `index` at grid cell `(i, j)` of layer `capa`. -/
def pyramidPlace (NumSmallCubes : Nat) (capa i j : Int) (st : CubeGen) : Option CubeGen :=
  let instanceId := pyramidMaterial st.index NumSmallCubes
  (vecSet st.ids st.index instanceId).bind fun ids =>
    (vecSet st.xfs st.index (pyramidTransform st.index capa i j)).bind fun xfs =>
      some { index := st.index + 1, ids := ids, xfs := xfs, written := st.written ++ [st.index] }

/-- The test of line 681: cell `(i, j)` lies on the border of the square of
layer `capa`. -/
def onBorder (capa i j : Int) : Bool :=
  let cubos_por_lado : Int := capas - capa
  decide (i = Int.tdiv (-cubos_por_lado) 2 ∨ i = Int.tdiv cubos_por_lado 2 ∨
    j = Int.tdiv (-cubos_por_lado) 2 ∨ j = Int.tdiv cubos_por_lado 2)

/-- Body of the innermost pyramid loop (lines 680-719) at grid cell `(i, j)`
of layer `capa`. -/
def pyramidCell (NumSmallCubes : Nat) (capa i j : Int) (st : CubeGen) : Option CubeGen :=
  if onBorder capa i j then pyramidPlace NumSmallCubes capa i j st else some st

/-- The loop over `j` (line 678). -/
def pyramidRow (NumSmallCubes : Nat) (capa i : Int) (st : CubeGen) : Option CubeGen :=
  let cubos_por_lado : Int := capas - capa
  forWhile (fun st => decide (st.index < NumSmallCubes)) (pyramidCell NumSmallCubes capa i)
    (intRange (Int.tdiv (-cubos_por_lado) 2) (Int.tdiv cubos_por_lado 2)) st

/-- The loop over `i` (line 676). -/
def pyramidLayer (NumSmallCubes : Nat) (capa : Int) (st : CubeGen) : Option CubeGen :=
  let cubos_por_lado : Int := capas - capa
  forWhile (fun st => decide (st.index < NumSmallCubes)) (pyramidRow NumSmallCubes capa)
    (intRange (Int.tdiv (-cubos_por_lado) 2) (Int.tdiv cubos_por_lado 2)) st

/-- The loop over `capa` (line 670). -/
def pyramidLoop (NumSmallCubes : Nat) (st : CubeGen) : Option CubeGen :=
  forWhile (fun st => decide (st.index < NumSmallCubes)) (pyramidLayer NumSmallCubes)
    (intRange 0 (capas - 1)) st

/-- The grid cells `(capa, i, j)` that the three pyramid loops visit, in
visiting order. -/
def pyramidGrid : List (Int × Int × Int) :=
  (intRange 0 (capas - 1)).flatMap fun capa =>
    let cubos_por_lado : Int := capas - capa
    (intRange (Int.tdiv (-cubos_por_lado) 2) (Int.tdiv cubos_por_lado 2)).flatMap fun i =>
      (intRange (Int.tdiv (-cubos_por_lado) 2) (Int.tdiv cubos_por_lado 2)).map fun j =>
        (capa, i, j)

/-- The visited cells that pass the test of line 681, in visiting order. -/
def pyramidCells : List (Int × Int × Int) :=
  pyramidGrid.filter fun cell => onBorder cell.1 cell.2.1 cell.2.2

/-- Transform of fallback cube `index` (lines 727-739). -/
def fallbackTransform (index : Nat) : InstanceMatrix :=
  let x : ℚ := ((index % 10 : Nat) : ℚ) * 2 - 10
  let z : ℚ := ((index / 10 : Nat) : ℚ) * 2 - 10
  let y : ℚ := altura_base - 2
  let p : float3 := ⟨FloatVal.rat x, FloatVal.rat y, FloatVal.rat z⟩
  ({} : InstanceMatrix).SetTranslation p.x p.y p.z

/-- Body of the fallback loop (lines 727-742). -/
def fallbackBody (st : CubeGen) : Option CubeGen :=
  (vecSet st.ids st.index (st.index % 3)).bind fun ids =>
    (vecSet st.xfs st.index (fallbackTransform st.index)).bind fun xfs =>
      some { index := st.index + 1, ids := ids, xfs := xfs, written := st.written ++ [st.index] }

/-- `while (index < NumSmallCubes) ...` (line 725), with a bound on the
number of iterations; `none` when the bound is reached with the loop
condition still true. -/
def fallbackLoop (NumSmallCubes : Nat) : Nat → CubeGen → Option CubeGen
  | 0, st => if st.index < NumSmallCubes then none else some st
  | fuel + 1, st =>
    if st.index < NumSmallCubes then (fallbackBody st).bind (fallbackLoop NumSmallCubes fuel)
    else some st

/-- The block `if (!m_pTLAS) ...` (lines 602-748): creates the TLAS and
computes the placement of the small spheres and cubes. -/
def createTLAS (cfg : Config) (s : State) : Option State :=
  let NumSmallSpheres := (2 * cfg.a) * (2 * cfg.b)
  let NumSmallCubes := (2 * cfg.c) * (2 * cfg.d)
  let NumInstances := 4 + NumSmallSpheres + NumSmallCubes
  let TLASDesc : TopLevelASDesc := { Name := "TLAS", MaxInstanceCount := NumInstances }
  let s := { s.emit (Cmd.CreateTLAS TLASDesc) with m_pTLAS := some { Desc := TLASDesc } }
  (s.setRayTracingVar "SHADER_TYPE_RAY_GEN" "g_TLAS").bind fun s =>
  (s.setRayTracingVar "SHADER_TYPE_RAY_CLOSEST_HIT" "g_TLAS").bind fun s =>
  let s := { s with
    m_SmallSphereTransforms := resize s.m_SmallSphereTransforms NumSmallSpheres {}
    m_SmallCubeTransforms := resize s.m_SmallCubeTransforms NumSmallCubes {}
    m_cubesCustomIds := resize s.m_cubesCustomIds NumSmallCubes 0 }
  let s := if s.m_MaxSmallSpheres = 0 then
      { s with m_MaxSmallSpheres := NumSmallSpheres, m_NumActiveSmallSpheres := NumSmallSpheres }
    else s
  let s := if s.m_MaxSmallCubes = 0 then
      { s with m_MaxSmallCubes := NumSmallCubes, m_NumActiveSmallCubes := NumSmallCubes }
    else s
  (forRange NumSmallSpheres spiralBody s.m_SmallSphereTransforms).bind fun ts =>
  let s := { s with m_SmallSphereTransforms := ts }
  (pyramidLoop NumSmallCubes
    { index := 0, ids := s.m_cubesCustomIds, xfs := s.m_SmallCubeTransforms }).bind fun st =>
  (fallbackLoop NumSmallCubes (NumSmallCubes - st.index) st).bind fun st =>
  some { s with
    m_cubesCustomIds := st.ids
    m_SmallCubeTransforms := st.xfs
    m_SphereInstanceNames := resize s.m_SphereInstanceNames NumSmallSpheres ""
    m_CubeInstanceNames := resize s.m_CubeInstanceNames NumSmallCubes "" }

/-! ## UpdateTLAS: buffers, instances, build -/

/-- Scratch and instance buffers (lines 751-775), created when absent. -/
def createBuffers (cfg : Config) (NumInstances : Nat) (s : State) : Option State :=
  (match s.m_ScratchBuffer with
    | some _ => some s
    | none =>
      match s.m_pTLAS with
      | none => none
      | some _ =>
        let BuffDesc : BufferDesc :=
          { Name := "TLAS Scratch Buffer", Size := max cfg.ScratchBuild cfg.ScratchUpdate }
        some { s.emit (Cmd.CreateBuffer BuffDesc []) with m_ScratchBuffer := some BuffDesc }).bind
  fun s =>
    match s.m_InstanceBuffer with
    | some _ => some s
    | none =>
      let BuffDesc : BufferDesc :=
        { Name := "TLAS Instance Buffer", Size := cfg.TLAS_INSTANCE_DATA_SIZE * NumInstances }
      some { s.emit (Cmd.CreateBuffer BuffDesc []) with m_InstanceBuffer := some BuffDesc }

/-- Assignment to the fields of `v[i]`; `none` when `i` is out of range. -/
def vecModify {α : Type} (xs : List α) (i : Nat) (f : α → α) : Option (List α) :=
  match xs[i]? with
  | none => none
  | some x => some (xs.set i (f x))

/-- Loop state of the instance set-up: the running `idx`, the local array
`Instances` and the name vector being written. -/
structure InstGen where
  idx : Nat
  Instances : List TLASBuildInstanceData
  names : List String
  deriving DecidableEq

/-- Body of the small-sphere loop (lines 807-820). -/
def sphereInstance (cfg : Config) (s : State) (i : Nat) (g : InstGen) : Option InstGen :=
  let name := "Sphere Instance " ++ toString g.idx
  (vecSet g.names i name).bind fun names =>
  (vecGet s.m_SmallSphereTransforms i).bind fun xf =>
  (vecModify g.Instances g.idx fun Inst =>
    { Inst with
      InstanceName := some name
      CustomId := 1
      pBLAS := s.m_pProceduralBLAS
      Mask := if (i : Int) < s.m_NumActiveSmallSpheres then cfg.OPAQUE_GEOM_MASK else 0
      Transform := xf }).bind fun Instances =>
  some { idx := g.idx + 1, Instances := Instances, names := names }

/-- Body of the small-cube loop (lines 824-838). -/
def cubeInstance (cfg : Config) (s : State) (i : Nat) (g : InstGen) : Option InstGen :=
  let name := "Cube Instance " ++ toString g.idx
  (vecSet g.names i name).bind fun names =>
  (vecGet s.m_cubesCustomIds i).bind fun id =>
  (vecGet s.m_SmallCubeTransforms i).bind fun xf =>
  (vecModify g.Instances g.idx fun Inst =>
    { Inst with
      InstanceName := some name
      CustomId := id
      pBLAS := s.m_pSmallCubeBLAS
      Mask := if (i : Int) < s.m_NumActiveSmallCubes then cfg.OPAQUE_GEOM_MASK else 0
      Transform := xf }).bind fun Instances =>
  some { idx := g.idx + 1, Instances := Instances, names := names }

/-- The four fixed instances (lines 781-803). -/
def mainInstances (cfg : Config) (s : State) (Instances : List TLASBuildInstanceData) :
    Option (List TLASBuildInstanceData) :=
  (vecModify Instances 0 fun Inst =>
    { Inst with
      InstanceName := some "Ground Instance"
      pBLAS := s.m_pCubeBLAS
      Mask := cfg.OPAQUE_GEOM_MASK
      Transform := (Inst.Transform.SetRotation (float3x3.Scale 100 (roundFloat (1 / 10)) 100)).SetTranslation
        (FloatVal.rat 0) (FloatVal.rat (-6)) (FloatVal.rat 0) }).bind fun Instances =>
  (vecModify Instances 1 fun Inst =>
    { Inst with
      InstanceName := some "Cube Instance 1"
      CustomId := 0
      pBLAS := s.m_pCubeBLAS
      Mask := cfg.OPAQUE_GEOM_MASK
      Transform := Inst.Transform.SetTranslation
        (FloatVal.rat (-4)) (FloatVal.rat (-45 / 10)) (FloatVal.rat 0) }).bind fun Instances =>
  (vecModify Instances 2 fun Inst =>
    { Inst with
      InstanceName := some "Cube Instance 2"
      CustomId := 1
      pBLAS := s.m_pCubeBLAS
      Mask := cfg.OPAQUE_GEOM_MASK
      Transform := Inst.Transform.SetTranslation
        (FloatVal.rat 0) (FloatVal.rat (-45 / 10)) (FloatVal.rat (-3)) }).bind fun Instances =>
  vecModify Instances 3 fun Inst =>
    { Inst with
      InstanceName := some "Cube Instance 3"
      CustomId := 2
      pBLAS := s.m_pCubeBLAS
      Mask := cfg.OPAQUE_GEOM_MASK
      Transform := Inst.Transform.SetTranslation
        (FloatVal.rat 4) (FloatVal.rat (-45 / 10)) (FloatVal.rat (-6)) }

/-- Instance set-up (lines 777-838): returns the local array `Instances`
and the state with the instance names stored. -/
def setupInstances (cfg : Config) (NumInstances : Nat) (s : State) :
    Option (List TLASBuildInstanceData × State) :=
  let Instances : List TLASBuildInstanceData := List.replicate NumInstances {}
  (mainInstances cfg s Instances).bind fun Instances =>
  (forRange ((2 * cfg.a) * (2 * cfg.b)) (sphereInstance cfg s)
    { idx := 4, Instances := Instances, names := s.m_SphereInstanceNames }).bind fun g =>
  (forRange ((2 * cfg.c) * (2 * cfg.d)) (cubeInstance cfg s)
    { idx := g.idx, Instances := g.Instances, names := s.m_CubeInstanceNames }).bind fun g2 =>
  some (g2.Instances,
    { s with m_SphereInstanceNames := g.names, m_CubeInstanceNames := g2.names })

/-- `Tutorial21_RayTracing::UpdateTLAS` (lines 593-856). -/
def UpdateTLAS (cfg : Config) (s : State) : Option State :=
  let NumSmallSpheres := (2 * cfg.a) * (2 * cfg.b)
  let NumSmallCubes := (2 * cfg.c) * (2 * cfg.d)
  let NumInstances := 4 + NumSmallSpheres + NumSmallCubes
  let NeedUpdate := true
  (match s.m_pTLAS with
    | none => (createTLAS cfg s).map fun s => (s, false)
    | some _ => some (s, NeedUpdate)).bind fun r =>
  let NeedUpdate := r.2
  (createBuffers cfg NumInstances r.1).bind fun s =>
  (setupInstances cfg NumInstances s).bind fun r =>
  let Instances := r.1
  let s := r.2
  match s.m_pTLAS with
  | none => none
  | some tlas =>
    let Attribs : BuildTLASAttribs :=
      { Update := NeedUpdate
        pInstances := Instances
        InstanceCount := NumInstances
        HitGroupStride := cfg.HIT_GROUP_STRIDE }
    some { s.emit (Cmd.BuildTLAS Attribs) with
      m_pTLAS := some { tlas with Instances := Attribs.pInstances.take Attribs.InstanceCount } }

/-! ## User interface -/

/-- What the user does to the window during one `UpdateUI`: whether the
window is shown (`ImGui::Begin` returns true) and, per slider, the position
it is dragged to, if it is dragged at all. -/
structure UIInput where
  Begin : Bool := true
  ActiveSpheres : Option Int := none
  ActiveCubes : Option Int := none
  RecursionDepth : Option Int := none
  ShadowQuality : Option Int := none

/-- `ImGui::SliderInt(label, &v, v_min, v_max)`: a dragged slider stores a
value of the range `[v_min, v_max]`; an untouched slider leaves `v` alone. -/
def SliderInt (v v_min v_max : Int) (drag : Option Int) : Int :=
  match drag with
  | none => v
  | some x => if x < v_min then v_min else if v_max < x then v_max else x

/-- `Tutorial21_RayTracing::UpdateUI` (lines 1071-1096). -/
def UpdateUI (inp : UIInput) (s : State) : State :=
  if inp.Begin then
    let spheres := SliderInt s.m_NumActiveSmallSpheres 0 s.m_MaxSmallSpheres inp.ActiveSpheres
    let s := { s with m_NumActiveSmallSpheres := spheres }
    let cubes := SliderInt s.m_NumActiveSmallCubes 0 s.m_MaxSmallCubes inp.ActiveCubes
    let s := { s with m_NumActiveSmallCubes := cubes }
    let depth := SliderInt s.MaxRecursion 1 (s.m_MaxRecursionDepth : Int) inp.RecursionDepth
    let s := { s with MaxRecursion := depth }
    { s with ShadowPCF := SliderInt s.ShadowPCF 0 4 inp.ShadowQuality }
  else s

/-! ## Shader binding table -/

/-- Hit group of a sphere for the draw `materialSelector` (lines 1033-1044);
the thresholds are the `float` literals `0.7f` and `0.9f`. -/
def sphereHitGroup (materialSelector : ℚ) : String :=
  if materialSelector < roundFloat (7 / 10) then "SpherePrimaryHit"
  else if materialSelector < roundFloat (9 / 10) then "SpherePrimaryDiffuseHit"
  else "SphereGlassHit"

/-- Hit group of a small cube with material id `id` (lines 1053-1064). -/
def cubeHitGroup (id : Nat) : String :=
  if id = 0 then "GlassPrimaryHit"
  else if id = 1 then "CubePrimaryHit"
  else "GlassPrimaryHit"

/-- Loop state of `CreateSBT`: the table and the generator position. -/
structure SBTGen where
  sbt : IShaderBindingTable
  rngDrawn : Nat

/-- One binding call on the table. -/
def SBTGen.bind (g : SBTGen) (b : SBTBinding) : SBTGen :=
  { g with sbt := { g.sbt with bindings := g.sbt.bindings ++ [b] } }

/-- Body of the sphere loop of `CreateSBT` (lines 1028-1047). -/
def sphereBinding (s : State) (i : Nat) (g : SBTGen) : Option SBTGen :=
  let materialSelector := s.rng g.rngDrawn
  let g := { g with rngDrawn := g.rngDrawn + 1 }
  (vecGet s.m_SphereInstanceNames i).bind fun name =>
  let g := g.bind (SBTBinding.BindHitGroupForInstance name RayIndex.PRIMARY_RAY_INDEX
    (some (sphereHitGroup materialSelector)))
  some (g.bind (SBTBinding.BindHitGroupForInstance name RayIndex.SHADOW_RAY_INDEX
    (some "SphereShadowHit")))

/-- Body of the cube loop of `CreateSBT` (lines 1050-1065). -/
def cubeBinding (s : State) (i : Nat) (g : SBTGen) : Option SBTGen :=
  (vecGet s.m_cubesCustomIds i).bind fun id =>
  (vecGet s.m_CubeInstanceNames i).bind fun name =>
  some (g.bind (SBTBinding.BindHitGroupForInstance name RayIndex.PRIMARY_RAY_INDEX
    (some (cubeHitGroup id))))

/-- `Tutorial21_RayTracing::CreateSBT` (lines 1001-1069). -/
def CreateSBT (s : State) : Option State :=
  let s := s.emit (Cmd.CreateSBT "SBT")
  let g : SBTGen := { sbt := { Name := "SBT" }, rngDrawn := s.rngDrawn }
  let g := g.bind (SBTBinding.BindRayGenShader "Main")
  let g := g.bind (SBTBinding.BindMissShader "PrimaryMiss" RayIndex.PRIMARY_RAY_INDEX)
  let g := g.bind (SBTBinding.BindMissShader "ShadowMiss" RayIndex.SHADOW_RAY_INDEX)
  let g := g.bind (SBTBinding.BindHitGroupForInstance "Cube Instance 1"
    RayIndex.PRIMARY_RAY_INDEX (some "GlassPrimaryHit"))
  let g := g.bind (SBTBinding.BindHitGroupForInstance "Cube Instance 2"
    RayIndex.PRIMARY_RAY_INDEX (some "GlassPrimaryHit"))
  let g := g.bind (SBTBinding.BindHitGroupForInstance "Cube Instance 3"
    RayIndex.PRIMARY_RAY_INDEX (some "GlassPrimaryHit"))
  let g := g.bind (SBTBinding.BindHitGroupForInstance "Ground Instance"
    RayIndex.PRIMARY_RAY_INDEX (some "GroundHit"))
  let g := g.bind (SBTBinding.BindHitGroupForTLAS RayIndex.SHADOW_RAY_INDEX none)
  (forRange s.m_SphereInstanceNames.length (sphereBinding s) g).bind fun g =>
  (forRange s.m_CubeInstanceNames.length (cubeBinding s) g).bind fun g =>
  some ({ s with m_pSBT := some g.sbt, rngDrawn := g.rngDrawn }.emit Cmd.UpdateSBT)

/-! ## Pipelines and geometry -/

/-- `Tutorial21_RayTracing::CreateGraphicsPSO` (lines 106-161). -/
def CreateGraphicsPSO (s : State) : State :=
  let s := s.emit (Cmd.CreateShader "Image blit VS" "ImageBlit.vsh")
  let s := s.emit (Cmd.CreateShader "Image blit PS" "ImageBlit.psh")
  let s := s.emit (Cmd.CreateGraphicsPipelineState "Image blit PSO")
  { s with m_pImageBlitPSO := some "Image blit PSO", m_pImageBlitSRB := some {} }

/-- The shaders that `CreateRayTracingPSO` compiles: name and file. -/
def rayTracingShaders : List (String × String) :=
  [("Ray tracing RG", "RayTrace.rgen"),
   ("Primary ray miss shader", "PrimaryMiss.rmiss"),
   ("Shadow ray miss shader", "ShadowMiss.rmiss"),
   ("Cube primary ray closest hit shader", "CubePrimaryHit.rchit"),
   ("Ground primary ray closest hit shader", "Ground.rchit"),
   ("Glass primary ray closest hit shader", "GlassPrimaryHit.rchit"),
   ("Sphere primary ray closest hit shader", "SpherePrimaryHit.rchit"),
   ("Sphere primary ray closest hit diffuse shader", "SphereDiffuseHit.rchit"),
   ("Sphere primary ray closest hit glass shader", "SphereGlassHit.rchit"),
   ("Sphere intersection shader", "SphereIntersection.rint")]

/-- The shader groups that `CreateRayTracingPSO` adds, in order. -/
def rayTracingGroups : List String :=
  ["Main", "PrimaryMiss", "ShadowMiss", "CubePrimaryHit", "GroundHit", "GlassPrimaryHit",
   "SpherePrimaryHit", "SpherePrimaryDiffuseHit", "SphereGlassHit", "SphereShadowHit"]

/-- `Tutorial21_RayTracing::CreateRayTracingPSO` (lines 163-348).  The cast
`static_cast<Uint8>` keeps the low 8 bits. -/
def CreateRayTracingPSO (cfg : Config) (s : State) : State :=
  let s := { s with m_MaxRecursionDepth := min s.m_MaxRecursionDepth cfg.DeviceMaxRecursionDepth }
  let s := rayTracingShaders.foldl (fun s sh => s.emit (Cmd.CreateShader sh.1 sh.2)) s
  let pso : RayTracingPSO :=
    { MaxRecursionDepth := s.m_MaxRecursionDepth % 256, groups := rayTracingGroups }
  let s := s.emit (Cmd.CreateRayTracingPipelineState pso)
  { s with m_pRayTracingPSO := some pso, m_pRayTracingSRB := some {} }

/-- `Tutorial21_RayTracing::LoadTextures` (lines 350-382). -/
def LoadTextures (cfg : Config) (s : State) : Option State :=
  let s := (List.range cfg.NumTextures).foldl
    (fun s tex => s.emit (Cmd.CreateTextureFromFile ("DGLogo" ++ toString tex ++ ".png"))) s
  (s.setRayTracingVar "SHADER_TYPE_RAY_CLOSEST_HIT" "g_CubeTextures").bind fun s =>
  let s := s.emit (Cmd.CreateTextureFromFile "Ground.jpg")
  s.setRayTracingVar "SHADER_TYPE_RAY_CLOSEST_HIT" "g_GroundTexture"

/-- `Tutorial21_RayTracing::CreateCubeBLAS` (lines 384-503): returns the
state and the structure stored through `OutBLAS`. -/
def CreateCubeBLAS (cfg : Config) (cubeSize : ℚ) (s : State) : Option (State × IBottomLevelAS) :=
  (match s.m_CubeAttribsCB with
    | some _ => some s
    | none =>
      let BuffDesc : BufferDesc := { Name := "Cube Attribs size", Size := cfg.SizeofCubeAttribs }
      let s := { s.emit (Cmd.CreateBuffer BuffDesc []) with m_CubeAttribsCB := some BuffDesc }
      s.setRayTracingVar "SHADER_TYPE_RAY_CLOSEST_HIT" "g_CubeAttribsCB").bind fun s =>
  let Triangles := BLASGeometry.Triangles "Cube" cfg.CubeNumVertices (cfg.CubeNumIndices / 3)
  let OutBLAS : IBottomLevelAS :=
    { Name := if cubeSize = 2 then "Cube BLAS" else "SmallCube BLAS", Geometry := Triangles }
  let s := s.emit (Cmd.CreateBLAS OutBLAS)
  let s := s.emit (Cmd.CreateBuffer { Name := "BLAS Scratch Buffer", Size := cfg.BLASScratchBuild } [])
  let BuildAttrs : BuildBLASAttribs :=
    { pBLAS := some OutBLAS, TriangleDataCount := 1, PrimitiveCount := cfg.CubeNumIndices / 3 }
  some (s.emit (Cmd.BuildBLAS BuildAttrs), OutBLAS)

/-- The array `Boxes` of `CreateProceduralBLAS` (line 510). -/
def Boxes : List BoxAttribs :=
  [⟨-15 / 10, -15 / 10, -15 / 10, 15 / 10, 15 / 10, 15 / 10⟩,
   ⟨-5 / 10, -5 / 10, -5 / 10, 5 / 10, 5 / 10, 5 / 10⟩]

/-- `Tutorial21_RayTracing::CreateProceduralBLAS` (lines 506-583). -/
def CreateProceduralBLAS (cfg : Config) (s : State) : Option State :=
  let BuffDesc : BufferDesc := { Name := "AABB Buffer", Size := Boxes.length * cfg.SizeofBoxAttribs }
  let s := { s.emit (Cmd.CreateBuffer BuffDesc Boxes) with m_BoxAttribsCB := some BuffDesc }
  (s.setRayTracingVar "SHADER_TYPE_RAY_INTERSECTION" "g_BoxAttribs").bind fun s =>
  let BoxInfo := BLASGeometry.Boxes "Box" 1
  let blas : IBottomLevelAS := { Name := "Procedural BLAS", Geometry := BoxInfo }
  let s := { s.emit (Cmd.CreateBLAS blas) with m_pProceduralBLAS := some blas }
  let s := s.emit (Cmd.CreateBuffer { Name := "BLAS Scratch Buffer", Size := cfg.BLASScratchBuild } [])
  let Attribs : BuildBLASAttribs := { pBLAS := s.m_pProceduralBLAS, BoxDataCount := 1, BoxCount := 1 }
  some (s.emit (Cmd.BuildBLAS Attribs))

/-! ## Life cycle -/

/-- Pose given to the camera by `Initialize` (lines 940-944). -/
def initialCamera : Nat := 0

/-- Creation of the buffer with shared constants (lines 920-928). -/
def createConstantsCB (cfg : Config) (s : State) : State :=
  let BuffDesc : BufferDesc := { Name := "Constant buffer", Size := cfg.SizeofConstants }
  { s.emit (Cmd.CreateBuffer BuffDesc []) with m_ConstantsCB := some BuffDesc }

/-- `Tutorial21_RayTracing::Initialize` (lines 910-1000). -/
def Initialize (cfg : Config) (s : State) : Option State :=
  if cfg.StandaloneShaders = false then
    some (s.emit (Cmd.Unsupported "Ray tracing shaders are not supported by device"))
  else
    let s := createConstantsCB cfg s
    let s := CreateGraphicsPSO s
    let s := CreateRayTracingPSO cfg s
    (LoadTextures cfg s).bind fun s =>
    (CreateCubeBLAS cfg 2 s).bind fun r =>
    let s := { r.1 with m_pCubeBLAS := some r.2 }
    (CreateCubeBLAS cfg (1 / 2) s).bind fun r =>
    let s := { r.1 with m_pSmallCubeBLAS := some r.2 }
    (CreateProceduralBLAS cfg s).bind fun s =>
    (UpdateTLAS cfg s).bind fun s =>
    (CreateSBT s).bind fun s =>
    some { s with
      m_Camera := initialCamera
      ShadowPCF := 1
      MaxRecursion := ((min 6 s.m_MaxRecursionDepth : Nat) : Int) }

/-- `Tutorial21_RayTracing::Render` (lines 62-104). -/
def Render (cfg : Config) (s : State) : Option State :=
  (UpdateTLAS cfg s).bind fun s =>
  let s := s.emit (Cmd.UpdateBuffer s.m_ConstantsCB s.m_Camera)
  match s.m_pColorRT with
  | none => none
  | some ColorRT =>
    (s.setRayTracingVar "SHADER_TYPE_RAY_GEN" "g_ColorBuffer").bind fun s =>
    let s := s.emit (Cmd.SetPipelineState "Ray tracing PSO")
    let s := s.emit (Cmd.TraceRays ColorRT.Width ColorRT.Height (s.m_pSBT.map fun t => t.Name))
    match s.m_pImageBlitSRB with
    | none => none
    | some srb =>
      let s := { s with m_pImageBlitSRB := some { srb with vars := srb.vars ++ [("SHADER_TYPE_PIXEL", "g_Texture")] } }
      let s := s.emit Cmd.SetRenderTargets
      let s := s.emit (Cmd.SetPipelineState "Image blit PSO")
      some (s.emit (Cmd.Draw 3))

/-- `Tutorial21_RayTracing::WindowResize` (lines 880-909). -/
def WindowResize (Width Height : Nat) (s : State) : State :=
  if Width = 0 ∨ Height = 0 then s
  else
    let AspectRatio : ℚ := roundFloat (roundFloat (Width : ℚ) / roundFloat (Height : ℚ))
    let s := { s with AspectRatio := some AspectRatio }
    if s.m_pColorRT.any (fun t => t.Width = Width ∧ t.Height = Height) then s
    else
      let s := { s with m_pColorRT := none }
      let RTDesc : TextureDesc := { Name := "Color buffer", Width := Width, Height := Height }
      { s.emit (Cmd.CreateTexture RTDesc) with m_pColorRT := some RTDesc }

/-- The calls that the application framework makes on the sample, and the
direct invocation of `UpdateTLAS`. -/
inductive Op where
  | Initialize
  | WindowResize (Width Height : Nat)
  | UpdateUI (inp : UIInput)
  | Render
  | UpdateTLAS

/-- Effect of one call. -/
def Op.run (cfg : Config) : Op → State → Option State
  | Op.Initialize, s => Tutorial21.Initialize cfg s
  | Op.WindowResize w h, s => some (Tutorial21.WindowResize w h s)
  | Op.UpdateUI inp, s => some (Tutorial21.UpdateUI inp s)
  | Op.Render, s => Tutorial21.Render cfg s
  | Op.UpdateTLAS, s => Tutorial21.UpdateTLAS cfg s

/-- Effect of a sequence of calls, oldest first. -/
def runOps (cfg : Config) : List Op → State → Option State
  | [], s => some s
  | op :: ops, s => (op.run cfg s).bind (runOps cfg ops)

/-- A sample object right after construction: the handles are null, the
vectors are empty and nothing was issued yet.  The initial values of the
other members come from the header and are left open. -/
def Fresh (s : State) : Prop :=
  s.m_ConstantsCB = none ∧ s.m_pImageBlitPSO = none ∧ s.m_pImageBlitSRB = none ∧
  s.m_pRayTracingPSO = none ∧ s.m_pRayTracingSRB = none ∧ s.m_CubeAttribsCB = none ∧
  s.m_BoxAttribsCB = none ∧ s.m_pCubeBLAS = none ∧ s.m_pSmallCubeBLAS = none ∧
  s.m_pProceduralBLAS = none ∧ s.m_pTLAS = none ∧ s.m_ScratchBuffer = none ∧
  s.m_InstanceBuffer = none ∧ s.m_pSBT = none ∧ s.m_pColorRT = none ∧
  s.m_SmallSphereTransforms = [] ∧ s.m_SmallCubeTransforms = [] ∧ s.m_cubesCustomIds = [] ∧
  s.m_SphereInstanceNames = [] ∧ s.m_CubeInstanceNames = [] ∧ s.ctx = []

/-! ## Closed forms of the placement

Read off the loop bodies above; the lemmas below prove that the loops store
exactly these values. -/

/-- Material id that the first `UpdateTLAS` stores for cube `index`: the
pyramid rule for the cubes of the pyramid, the fallback rule for the rest. -/
def cubeMaterial (NumSmallCubes index : Nat) : Nat :=
  if index < pyramidCells.length then pyramidMaterial index NumSmallCubes else index % 3

/-- Transform that the first `UpdateTLAS` stores for cube `index`. -/
def cubeTransform (index : Nat) : InstanceMatrix :=
  match pyramidCells[index]? with
  | some cell => pyramidTransform index cell.1 cell.2.1 cell.2.2
  | none => fallbackTransform index


/-- Invariant of the cube loops: the first `index` slots hold the final
values and were written once each, in order. -/
structure CubeInv (N : Nat) (st : CubeGen) : Prop where
  index_le : st.index ≤ N
  ids_len : st.ids.length = N
  xfs_len : st.xfs.length = N
  ids_get : ∀ m, m < st.index → st.ids[m]? = some (cubeMaterial N m)
  xfs_get : ∀ m, m < st.index → st.xfs[m]? = some (cubeTransform m)
  written_eq : st.written = List.range st.index

/-! ## Closed forms of the instance set-up -/

/-- The element that the small-sphere loop stores in slot `base + i`. -/
def sphereInstanceOf (cfg : Config) (s : State) (base i : Nat) : TLASBuildInstanceData :=
  { InstanceName := some ("Sphere Instance " ++ toString (base + i))
    CustomId := 1
    pBLAS := s.m_pProceduralBLAS
    Mask := if (i : Int) < s.m_NumActiveSmallSpheres then cfg.OPAQUE_GEOM_MASK else 0
    Transform := (s.m_SmallSphereTransforms[i]?).getD {} }

/-- The element that the small-cube loop stores in slot `base + i`. -/
def cubeInstanceOf (cfg : Config) (s : State) (base i : Nat) : TLASBuildInstanceData :=
  { InstanceName := some ("Cube Instance " ++ toString (base + i))
    CustomId := (s.m_cubesCustomIds[i]?).getD 0
    pBLAS := s.m_pSmallCubeBLAS
    Mask := if (i : Int) < s.m_NumActiveSmallCubes then cfg.OPAQUE_GEOM_MASK else 0
    Transform := (s.m_SmallCubeTransforms[i]?).getD {} }

/-- The four fixed elements of slots 0 to 3. -/
def mainInstanceList (cfg : Config) (s : State) : List TLASBuildInstanceData :=
  [ { InstanceName := some "Ground Instance"
      pBLAS := s.m_pCubeBLAS
      Mask := cfg.OPAQUE_GEOM_MASK
      Transform := { rotation := float3x3.Scale 100 (roundFloat (1 / 10)) 100
                     translation := ⟨FloatVal.rat 0, FloatVal.rat (-6), FloatVal.rat 0⟩ } },
    { InstanceName := some "Cube Instance 1"
      CustomId := 0
      pBLAS := s.m_pCubeBLAS
      Mask := cfg.OPAQUE_GEOM_MASK
      Transform := { translation := ⟨FloatVal.rat (-4), FloatVal.rat (-45 / 10), FloatVal.rat 0⟩ } },
    { InstanceName := some "Cube Instance 2"
      CustomId := 1
      pBLAS := s.m_pCubeBLAS
      Mask := cfg.OPAQUE_GEOM_MASK
      Transform := { translation := ⟨FloatVal.rat 0, FloatVal.rat (-45 / 10), FloatVal.rat (-3)⟩ } },
    { InstanceName := some "Cube Instance 3"
      CustomId := 2
      pBLAS := s.m_pCubeBLAS
      Mask := cfg.OPAQUE_GEOM_MASK
      Transform := { translation := ⟨FloatVal.rat 4, FloatVal.rat (-45 / 10), FloatVal.rat (-6)⟩ } } ]

/-- `NumSmallSpheres` of `UpdateTLAS`. -/
def Config.NumSmallSpheres (cfg : Config) : Nat := (2 * cfg.a) * (2 * cfg.b)

/-- `NumSmallCubes` of `UpdateTLAS`. -/
def Config.NumSmallCubes (cfg : Config) : Nat := (2 * cfg.c) * (2 * cfg.d)

/-- `NumInstances` of `UpdateTLAS`. -/
def Config.NumInstances (cfg : Config) : Nat := 4 + cfg.NumSmallSpheres + cfg.NumSmallCubes

/-- The array `Instances` that the set-up produces from the members of `s`. -/
def instanceList (cfg : Config) (s : State) : List TLASBuildInstanceData :=
  mainInstanceList cfg s ++
    (List.range cfg.NumSmallSpheres).map (sphereInstanceOf cfg s 4) ++
    (List.range cfg.NumSmallCubes).map (cubeInstanceOf cfg s (4 + cfg.NumSmallSpheres))

/-- The names that the set-up stores in `m_SphereInstanceNames`. -/
def sphereNames (cfg : Config) : List String :=
  (List.range cfg.NumSmallSpheres).map fun i => "Sphere Instance " ++ toString (4 + i)

/-- The names that the set-up stores in `m_CubeInstanceNames`. -/
def cubeNames (cfg : Config) : List String :=
  (List.range cfg.NumSmallCubes).map fun i =>
    "Cube Instance " ++ toString (4 + cfg.NumSmallSpheres + i)

/-- The member vectors have the sizes that the first `UpdateTLAS` gives them. -/
structure Placed (cfg : Config) (s : State) : Prop where
  sphereTransforms : s.m_SmallSphereTransforms.length = cfg.NumSmallSpheres
  cubeTransforms : s.m_SmallCubeTransforms.length = cfg.NumSmallCubes
  cubeIds : s.m_cubesCustomIds.length = cfg.NumSmallCubes
  sphereNames : s.m_SphereInstanceNames.length = cfg.NumSmallSpheres
  cubeNames : s.m_CubeInstanceNames.length = cfg.NumSmallCubes

/-! ## Closed forms of `UpdateTLAS` -/

/-- The state that the block `if (!m_pTLAS)` leaves when it starts in `s`,
with `srb` the ray-tracing binding object. -/
def createTLASResult (cfg : Config) (s : State) (srb : ShaderResourceBinding) : State :=
  { s with
    ctx := s.ctx ++ [Cmd.CreateTLAS { Name := "TLAS", MaxInstanceCount := cfg.NumInstances }]
    m_pTLAS := some { Desc := { Name := "TLAS", MaxInstanceCount := cfg.NumInstances } }
    m_pRayTracingSRB := some { srb with
      vars := srb.vars ++ [("SHADER_TYPE_RAY_GEN", "g_TLAS")] ++
        [("SHADER_TYPE_RAY_CLOSEST_HIT", "g_TLAS")] }
    m_SmallSphereTransforms := (List.range cfg.NumSmallSpheres).map spiralTransform
    m_SmallCubeTransforms := (List.range cfg.NumSmallCubes).map cubeTransform
    m_cubesCustomIds := (List.range cfg.NumSmallCubes).map (cubeMaterial cfg.NumSmallCubes)
    m_SphereInstanceNames := resize s.m_SphereInstanceNames cfg.NumSmallSpheres ""
    m_CubeInstanceNames := resize s.m_CubeInstanceNames cfg.NumSmallCubes ""
    m_MaxSmallSpheres :=
      if s.m_MaxSmallSpheres = 0 then (cfg.NumSmallSpheres : Int) else s.m_MaxSmallSpheres
    m_NumActiveSmallSpheres :=
      if s.m_MaxSmallSpheres = 0 then (cfg.NumSmallSpheres : Int) else s.m_NumActiveSmallSpheres
    m_MaxSmallCubes :=
      if s.m_MaxSmallCubes = 0 then (cfg.NumSmallCubes : Int) else s.m_MaxSmallCubes
    m_NumActiveSmallCubes :=
      if s.m_MaxSmallCubes = 0 then (cfg.NumSmallCubes : Int) else s.m_NumActiveSmallCubes }

/-- Description of the TLAS scratch buffer (lines 754-758). -/
def scratchBufferDesc (cfg : Config) : BufferDesc :=
  { Name := "TLAS Scratch Buffer", Size := max cfg.ScratchBuild cfg.ScratchUpdate }

/-- Description of the TLAS instance buffer (lines 767-771). -/
def instanceBufferDesc (cfg : Config) : BufferDesc :=
  { Name := "TLAS Instance Buffer", Size := cfg.TLAS_INSTANCE_DATA_SIZE * cfg.NumInstances }

/-- The state that the buffer creation (lines 751-775) leaves. -/
def createBuffersResult (cfg : Config) (s : State) : State :=
  { s with
    ctx := s.ctx ++
      (if s.m_ScratchBuffer = none then [Cmd.CreateBuffer (scratchBufferDesc cfg) []] else []) ++
      (if s.m_InstanceBuffer = none then [Cmd.CreateBuffer (instanceBufferDesc cfg) []] else [])
    m_ScratchBuffer := some (s.m_ScratchBuffer.getD (scratchBufferDesc cfg))
    m_InstanceBuffer := some (s.m_InstanceBuffer.getD (instanceBufferDesc cfg)) }

/-- The attributes that `UpdateTLAS` passes to `BuildTLAS` when the set-up
ran in state `s`. -/
def buildAttribs (cfg : Config) (NeedUpdate : Bool) (s : State) : BuildTLASAttribs :=
  { Update := NeedUpdate
    pInstances := instanceList cfg s
    InstanceCount := cfg.NumInstances
    HitGroupStride := cfg.HIT_GROUP_STRIDE }

/-- The state that the set-up and `BuildTLAS` (lines 777-855) leave. -/
def buildTLASResult (cfg : Config) (NeedUpdate : Bool) (s : State) (tlas : ITopLevelAS) : State :=
  { s with
    ctx := s.ctx ++ [Cmd.BuildTLAS (buildAttribs cfg NeedUpdate s)]
    m_pTLAS := some { tlas with Instances := instanceList cfg s }
    m_SphereInstanceNames := sphereNames cfg
    m_CubeInstanceNames := cubeNames cfg }

/-! ## The record of TLAS builds -/

/-- The `BuildTLAS` calls of a record, oldest first. -/
def builds (ctx : List Cmd) : List BuildTLASAttribs :=
  ctx.filterMap fun c => match c with
    | Cmd.BuildTLAS a => some a
    | _ => none

/-- The `CreateTLAS` calls of a record, oldest first. -/
def tlasDescs (ctx : List Cmd) : List TopLevelASDesc :=
  ctx.filterMap fun c => match c with
    | Cmd.CreateTLAS desc => some desc
    | _ => none

/-- Per `BuildTLAS` call of a record: the `Update` flag and `InstanceCount`. -/
def buildLog (ctx : List Cmd) : List (Bool × Nat) :=
  (builds ctx).map fun a => (a.Update, a.InstanceCount)

/-- What every state of a run satisfies: the TLAS, once created, has the
fixed size and the member vectors are sized for it; every build passed that
size; the first build was a full build and all later ones were updates. -/
structure TLASInv (cfg : Config) (s : State) : Prop where
  created : ∀ tlas, s.m_pTLAS = some tlas →
    tlas.Desc.MaxInstanceCount = cfg.NumInstances ∧ Placed cfg s
  counts : ∀ a, a ∈ builds s.ctx → a.InstanceCount = cfg.NumInstances
  descs : ∀ desc, desc ∈ tlasDescs s.ctx → desc.MaxInstanceCount = cfg.NumInstances
  fresh : s.m_pTLAS = none → builds s.ctx = [] ∧ tlasDescs s.ctx = []
  flags : s.m_pTLAS ≠ none →
    (∃ n, (builds s.ctx).map (fun a => a.Update) = false :: List.replicate n true) ∧
      (tlasDescs s.ctx).length = 1

/-- Steps that leave the TLAS, the placement vectors and the record of TLAS
calls alone. -/
structure TLASFrame (s s2 : State) : Prop where
  tlas : s2.m_pTLAS = s.m_pTLAS
  sphereTransforms : s2.m_SmallSphereTransforms = s.m_SmallSphereTransforms
  cubeTransforms : s2.m_SmallCubeTransforms = s.m_SmallCubeTransforms
  cubeIds : s2.m_cubesCustomIds = s.m_cubesCustomIds
  sphereNames : s2.m_SphereInstanceNames = s.m_SphereInstanceNames
  cubeNames : s2.m_CubeInstanceNames = s.m_CubeInstanceNames
  buildsEq : builds s2.ctx = builds s.ctx
  descsEq : tlasDescs s2.ctx = tlasDescs s.ctx

/-! ## Closed form of `CreateSBT` -/

/-- The bindings that `CreateSBT` makes before its loops (lines 1011-1023). -/
def fixedBindings : List SBTBinding :=
  [SBTBinding.BindRayGenShader "Main",
   SBTBinding.BindMissShader "PrimaryMiss" RayIndex.PRIMARY_RAY_INDEX,
   SBTBinding.BindMissShader "ShadowMiss" RayIndex.SHADOW_RAY_INDEX,
   SBTBinding.BindHitGroupForInstance "Cube Instance 1" RayIndex.PRIMARY_RAY_INDEX
     (some "GlassPrimaryHit"),
   SBTBinding.BindHitGroupForInstance "Cube Instance 2" RayIndex.PRIMARY_RAY_INDEX
     (some "GlassPrimaryHit"),
   SBTBinding.BindHitGroupForInstance "Cube Instance 3" RayIndex.PRIMARY_RAY_INDEX
     (some "GlassPrimaryHit"),
   SBTBinding.BindHitGroupForInstance "Ground Instance" RayIndex.PRIMARY_RAY_INDEX
     (some "GroundHit"),
   SBTBinding.BindHitGroupForTLAS RayIndex.SHADOW_RAY_INDEX none]

/-- The two bindings that the sphere loop makes for sphere `i`, when `base`
values had been drawn from the generator before the loop. -/
def sphereBindingsOf (s : State) (base i : Nat) : List SBTBinding :=
  [SBTBinding.BindHitGroupForInstance ((s.m_SphereInstanceNames[i]?).getD "")
     RayIndex.PRIMARY_RAY_INDEX (some (sphereHitGroup (s.rng (base + i)))),
   SBTBinding.BindHitGroupForInstance ((s.m_SphereInstanceNames[i]?).getD "")
     RayIndex.SHADOW_RAY_INDEX (some "SphereShadowHit")]

/-- The binding that the cube loop makes for small cube `i`. -/
def cubeBindingOf (s : State) (i : Nat) : SBTBinding :=
  SBTBinding.BindHitGroupForInstance ((s.m_CubeInstanceNames[i]?).getD "")
    RayIndex.PRIMARY_RAY_INDEX (some (cubeHitGroup ((s.m_cubesCustomIds[i]?).getD 0)))

/-- All bindings of the table that `CreateSBT` builds in state `s`. -/
def sbtBindings (s : State) : List SBTBinding :=
  fixedBindings ++
    (List.range s.m_SphereInstanceNames.length).flatMap (sphereBindingsOf s s.rngDrawn) ++
    (List.range s.m_CubeInstanceNames.length).map (cubeBindingOf s)

/-- The state that `CreateSBT` leaves. -/
def createSBTResult (s : State) : State :=
  { s with
    m_pSBT := some { Name := "SBT", bindings := sbtBindings s }
    rngDrawn := s.rngDrawn + s.m_SphereInstanceNames.length
    ctx := s.ctx ++ [Cmd.CreateSBT "SBT"] ++ [Cmd.UpdateSBT] }

/-- The two binding objects that `UpdateTLAS` and `Render` dereference exist. -/
structure HasPipelines (s : State) : Prop where
  rayTracing : s.m_pRayTracingSRB ≠ none
  blit : s.m_pImageBlitSRB ≠ none

/-! ## An example run -/

/-- A configuration with `a = b = c = d = 1` on a device with ray tracing. -/
def exampleConfig : Config :=
  { a := 1
    b := 1
    c := 1
    d := 1
    OPAQUE_GEOM_MASK := 1
    HIT_GROUP_STRIDE := 2
    TLAS_INSTANCE_DATA_SIZE := 64
    NumTextures := 4
    StandaloneShaders := true
    DeviceMaxRecursionDepth := 31
    ScratchBuild := 4096
    ScratchUpdate := 1024
    BLASScratchBuild := 2048
    SizeofConstants := 592
    SizeofCubeAttribs := 960
    SizeofBoxAttribs := 32
    CubeNumVertices := 24
    CubeNumIndices := 36 }

/-- A freshly constructed sample; the generator yields 0, 1/4, 2/4, 3/4, 0, ... -/
def exampleFresh : State :=
  { m_ConstantsCB := none
    m_pImageBlitPSO := none
    m_pImageBlitSRB := none
    m_pRayTracingPSO := none
    m_pRayTracingSRB := none
    m_CubeAttribsCB := none
    m_BoxAttribsCB := none
    m_pCubeBLAS := none
    m_pSmallCubeBLAS := none
    m_pProceduralBLAS := none
    m_pTLAS := none
    m_ScratchBuffer := none
    m_InstanceBuffer := none
    m_pSBT := none
    m_pColorRT := none
    m_SmallSphereTransforms := []
    m_SmallCubeTransforms := []
    m_cubesCustomIds := []
    m_SphereInstanceNames := []
    m_CubeInstanceNames := []
    m_MaxSmallSpheres := 0
    m_NumActiveSmallSpheres := 0
    m_MaxSmallCubes := 0
    m_NumActiveSmallCubes := 0
    m_MaxRecursionDepth := 8
    MaxRecursion := 0
    ShadowPCF := 0
    rng := fun n => ((n % 4 : Nat) : ℚ) / 4
    rngDrawn := 0
    AspectRatio := none
    m_Camera := 0
    ctx := [] }

/-- The example sample after `Initialize`. -/
def exampleInitialized : State :=
  (Initialize exampleConfig exampleFresh).getD exampleFresh

/-- The example sample after `Initialize` and one more `UpdateTLAS`. -/
def exampleUpdated : State :=
  (UpdateTLAS exampleConfig exampleInitialized).getD exampleFresh

/-- The example sample with the ray-tracing binding object and no TLAS: a
state in which the first `UpdateTLAS` runs. -/
def exampleReady : State :=
  { exampleFresh with m_pRayTracingSRB := some {} }

/-- The example configuration with `c = d = 4`: 64 small cubes, more than the
pyramid takes. -/
def pyramidConfig : Config :=
  { exampleConfig with c := 4, d := 4 }

/-- The example configuration with `a = 3`, `b = 2`: 24 spheres and the same
4 small cubes. -/
def manySpheresConfig : Config :=
  { exampleConfig with a := 3, b := 2 }

/-- Another state in which the first `UpdateTLAS` runs: sliders moved, values
already drawn from the generator, vectors not empty. -/
def exampleReadyOther : State :=
  { exampleReady with
    m_MaxSmallSpheres := 9
    m_NumActiveSmallSpheres := 5
    m_MaxSmallCubes := 7
    m_NumActiveSmallCubes := 2
    m_cubesCustomIds := [2, 2, 2, 2, 2, 2]
    rngDrawn := 7 }

/-- Lexicographic order of the grid cells `(capa, i, j)`: the order in which
the three pyramid loops visit them. -/
def cellLt (c1 c2 : Int × Int × Int) : Prop :=
  c1.1 < c2.1 ∨ (c1.1 = c2.1 ∧ (c1.2.1 < c2.2.1 ∨ (c1.2.1 = c2.2.1 ∧ c1.2.2 < c2.2.2)))

instance (c1 c2 : Int × Int × Int) : Decidable (cellLt c1 c2) := by
  unfold cellLt
  infer_instance

/-! ## Closed form of the resource creation in `Initialize` -/

/-- The pipeline that `CreateRayTracingPSO` declares when it starts in `s`. -/
def declaredPSO (cfg : Config) (s : State) : RayTracingPSO :=
  { MaxRecursionDepth := min s.m_MaxRecursionDepth cfg.DeviceMaxRecursionDepth % 256
    groups := rayTracingGroups }

/-- The structure that `CreateCubeBLAS` creates under the name `Name`. -/
def cubeBLAS (cfg : Config) (Name : String) : IBottomLevelAS :=
  { Name := Name
    Geometry := BLASGeometry.Triangles "Cube" cfg.CubeNumVertices (cfg.CubeNumIndices / 3) }

/-- The structure that `CreateProceduralBLAS` creates. -/
def proceduralBLAS : IBottomLevelAS :=
  { Name := "Procedural BLAS", Geometry := BLASGeometry.Boxes "Box" 1 }

/-- The calls of one `CreateCubeBLAS` after the attribute buffer exists. -/
def cubeBLASCalls (cfg : Config) (Name : String) : List Cmd :=
  [Cmd.CreateBLAS (cubeBLAS cfg Name),
   Cmd.CreateBuffer { Name := "BLAS Scratch Buffer", Size := cfg.BLASScratchBuild } [],
   Cmd.BuildBLAS
     { pBLAS := some (cubeBLAS cfg Name)
       TriangleDataCount := 1
       PrimitiveCount := cfg.CubeNumIndices / 3 }]

/-- The calls of `CreateProceduralBLAS`. -/
def proceduralBLASCalls (cfg : Config) : List Cmd :=
  [Cmd.CreateBuffer { Name := "AABB Buffer", Size := Boxes.length * cfg.SizeofBoxAttribs } Boxes,
   Cmd.CreateBLAS proceduralBLAS,
   Cmd.CreateBuffer { Name := "BLAS Scratch Buffer", Size := cfg.BLASScratchBuild } [],
   Cmd.BuildBLAS { pBLAS := some proceduralBLAS, BoxDataCount := 1, BoxCount := 1 }]

/-- The calls that `Initialize` issues before `UpdateTLAS` (lines 920-935),
when no cube attribute buffer existed. -/
def initCalls (cfg : Config) (s : State) : List Cmd :=
  [Cmd.CreateBuffer { Name := "Constant buffer", Size := cfg.SizeofConstants } [],
   Cmd.CreateShader "Image blit VS" "ImageBlit.vsh",
   Cmd.CreateShader "Image blit PS" "ImageBlit.psh",
   Cmd.CreateGraphicsPipelineState "Image blit PSO"] ++
  rayTracingShaders.map (fun sh => Cmd.CreateShader sh.1 sh.2) ++
  [Cmd.CreateRayTracingPipelineState (declaredPSO cfg s)] ++
  (List.range cfg.NumTextures).map
    (fun tex => Cmd.CreateTextureFromFile ("DGLogo" ++ toString tex ++ ".png")) ++
  [Cmd.CreateTextureFromFile "Ground.jpg",
   Cmd.CreateBuffer { Name := "Cube Attribs size", Size := cfg.SizeofCubeAttribs } []] ++
  cubeBLASCalls cfg "Cube BLAS" ++ cubeBLASCalls cfg "SmallCube BLAS" ++
  proceduralBLASCalls cfg

/-- The state in which `Initialize` calls `UpdateTLAS` (line 936), when it
started in `s` without a cube attribute buffer. -/
def initResources (cfg : Config) (s : State) : State :=
  { s with
    m_ConstantsCB := some { Name := "Constant buffer", Size := cfg.SizeofConstants }
    m_pImageBlitPSO := some "Image blit PSO"
    m_pImageBlitSRB := some {}
    m_MaxRecursionDepth := min s.m_MaxRecursionDepth cfg.DeviceMaxRecursionDepth
    m_pRayTracingPSO := some (declaredPSO cfg s)
    m_pRayTracingSRB := some
      { vars := [("SHADER_TYPE_RAY_CLOSEST_HIT", "g_CubeTextures"),
                 ("SHADER_TYPE_RAY_CLOSEST_HIT", "g_GroundTexture"),
                 ("SHADER_TYPE_RAY_CLOSEST_HIT", "g_CubeAttribsCB"),
                 ("SHADER_TYPE_RAY_INTERSECTION", "g_BoxAttribs")] }
    m_CubeAttribsCB := some { Name := "Cube Attribs size", Size := cfg.SizeofCubeAttribs }
    m_BoxAttribsCB := some
      { Name := "AABB Buffer", Size := Boxes.length * cfg.SizeofBoxAttribs }
    m_pCubeBLAS := some (cubeBLAS cfg "Cube BLAS")
    m_pSmallCubeBLAS := some (cubeBLAS cfg "SmallCube BLAS")
    m_pProceduralBLAS := some proceduralBLAS
    ctx := s.ctx ++ initCalls cfg s }

/-- The members that `Initialize` sets after `CreateSBT` (lines 939-950). -/
def initConstants (s : State) : State :=
  { s with
    m_Camera := initialCamera
    ShadowPCF := 1
    MaxRecursion := ((min 6 s.m_MaxRecursionDepth : Nat) : Int) }

/-- The ray-tracing binding object in the state in which `Initialize` calls
`UpdateTLAS`. -/
def initSRB : ShaderResourceBinding :=
  { vars := [("SHADER_TYPE_RAY_CLOSEST_HIT", "g_CubeTextures"),
             ("SHADER_TYPE_RAY_CLOSEST_HIT", "g_GroundTexture"),
             ("SHADER_TYPE_RAY_CLOSEST_HIT", "g_CubeAttribsCB"),
             ("SHADER_TYPE_RAY_INTERSECTION", "g_BoxAttribs")] }

/-- The state in which `Initialize` calls `CreateSBT` (line 937), when it
started in `s` without a TLAS and without a cube attribute buffer. -/
def initTLAS (cfg : Config) (s : State) : State :=
  buildTLASResult cfg false
    (createBuffersResult cfg (createTLASResult cfg (initResources cfg s) initSRB))
    { Desc := { Name := "TLAS", MaxInstanceCount := cfg.NumInstances } }

/-- The state that `Initialize` leaves on a device with ray tracing, when it
started in `s` without a TLAS and without a cube attribute buffer. -/
def initializeResult (cfg : Config) (s : State) : State :=
  initConstants (createSBTResult (initTLAS cfg s))

/-- The binding call `b` decides the hit group of instance `name` for ray
type `ray`: it is a call for that instance and ray type, or a call for the
whole TLAS and that ray type. -/
def SBTBinding.covers (b : SBTBinding) (name : String) (ray : RayIndex) : Bool :=
  match b with
  | SBTBinding.BindHitGroupForInstance n r _ => decide (n = name ∧ r = ray)
  | SBTBinding.BindHitGroupForTLAS r _ => decide (r = ray)
  | _ => false

/-- A use of the sliders: two spheres and one small cube stay active. -/
def exampleDrag : UIInput :=
  { ActiveSpheres := some 2, ActiveCubes := some 1 }

/-- Steps that leave `m_MaxRecursionDepth` and `m_Constants.MaxRecursion`
alone. -/
structure DepthFrame (s s2 : State) : Prop where
  depth : s2.m_MaxRecursionDepth = s.m_MaxRecursionDepth
  recursion : s2.MaxRecursion = s.MaxRecursion

/-- The example configuration on a device that reports a maximum recursion
depth of 0. -/
def zeroDepthConfig : Config :=
  { exampleConfig with DeviceMaxRecursionDepth := 0 }

/-- A use of the recursion-depth slider: dragged far to the right. -/
def exampleDepthDrag : UIInput :=
  { RecursionDepth := some 100 }

/-- The example sample after `Initialize` and that use of the slider. -/
def exampleDeep : State :=
  UpdateUI exampleDepthDrag exampleInitialized

/-- The calls that create a pipeline, an acceleration structure or the
shader binding table. -/
def Cmd.isCreation : Cmd → Bool
  | Cmd.CreateGraphicsPipelineState _ => true
  | Cmd.CreateRayTracingPipelineState _ => true
  | Cmd.CreateBLAS _ => true
  | Cmd.CreateTLAS _ => true
  | Cmd.CreateSBT _ => true
  | _ => false

/-- The example configuration on a device without stand-alone ray-tracing
shaders. -/
def unsupportedConfig : Config :=
  { exampleConfig with StandaloneShaders := false }

/-- The colour image of an 800 x 600 window. -/
def exampleColorRT : TextureDesc :=
  { Name := "Color buffer", Width := 800, Height := 600 }

/-- The example sample after `Initialize` and `WindowResize(800, 600)`. -/
def exampleResized : State :=
  WindowResize 800 600 exampleInitialized

/-- The number that a list of decimal digit characters denotes, most
significant digit first. -/
def decodeDigits (ds : List Char) : Nat :=
  ds.foldl (fun acc c => 10 * acc + (c.toNat - 48)) 0

/-- A freshly constructed sample whose generator yields the `float` `0.7f` at
every draw. -/
def thresholdFresh : State :=
  { exampleFresh with rng := fun _ => 11744051 / 16777216 }

/-! ## Lemmas on single precision -/

theorem roundEven_error (m : ℚ) : |(roundEven m : ℚ) - m| ≤ 1 / 2 := by
  have h1 := Int.floor_le m
  have h2 := Int.lt_floor_add_one m
  unfold roundEven
  simp only
  split_ifs with a b c
  · rw [abs_le]
    constructor <;> linarith
  · rw [abs_le]
    push_cast
    constructor <;> linarith
  · rw [abs_le]
    constructor <;> linarith
  · rw [abs_le]
    push_cast
    constructor <;> linarith

theorem roundEven_intCast (z : Int) : roundEven (z : ℚ) = z := by
  unfold roundEven
  simp

theorem leadingBit_spec (fuel n : Nat) (h1 : 1 ≤ n) (h2 : n ≤ fuel) :
    2 ^ leadingBit fuel n ≤ n ∧ n < 2 ^ (leadingBit fuel n + 1) := by
  induction fuel generalizing n with
  | zero => omega
  | succ fuel ih =>
    unfold leadingBit
    split_ifs with h
    · obtain ⟨a, b⟩ := ih (n / 2) (by omega) (by omega)
      constructor
      · rw [pow_succ]
        omega
      · rw [pow_succ]
        omega
    · simp
      omega

theorem binade_le (q : ℚ) (hq : q ≠ 0) : (2 : ℚ) ^ binade q ≤ |q| := by
  have hn : 1 ≤ q.num.natAbs := by
    have : q.num ≠ 0 := Rat.num_ne_zero.mpr hq
    omega
  have hd : 1 ≤ q.den := q.den_pos
  obtain ⟨p1, p2⟩ := leadingBit_spec q.num.natAbs q.num.natAbs hn (Nat.le_refl _)
  obtain ⟨r1, r2⟩ := leadingBit_spec q.den q.den hd (Nat.le_refl _)
  have habs : |q| = (q.num.natAbs : ℚ) / (q.den : ℚ) := by
    conv_lhs => rw [← Rat.num_div_den q]
    rw [abs_div, Nat.abs_cast]
    congr 1
    rw [Nat.cast_natAbs, Int.cast_abs]
  have hdq : (0 : ℚ) < (q.den : ℚ) := by exact_mod_cast hd
  have two : (0 : ℚ) < 2 := by norm_num
  rw [habs, le_div_iff₀ hdq]
  unfold binade
  simp only
  split_ifs with h
  · have e : ((leadingBit q.num.natAbs q.num.natAbs : Int) - (leadingBit q.den q.den : Int) - 1) =
        (leadingBit q.num.natAbs q.num.natAbs : Int) - ((leadingBit q.den q.den + 1 : Nat) : Int) := by
      push_cast
      ring
    rw [e, zpow_sub₀ two.ne', zpow_natCast, zpow_natCast, div_mul_eq_mul_div,
      div_le_iff₀ (by positivity)]
    have h3 : 2 ^ leadingBit q.num.natAbs q.num.natAbs * q.den ≤
        q.num.natAbs * 2 ^ (leadingBit q.den q.den + 1) :=
      Nat.mul_le_mul p1 (Nat.le_of_lt r2)
    exact_mod_cast h3
  · rw [zpow_sub₀ two.ne', zpow_natCast, zpow_natCast, div_mul_eq_mul_div,
      div_le_iff₀ (by positivity)]
    have h3 : 2 ^ leadingBit q.num.natAbs q.num.natAbs * q.den ≤
        q.num.natAbs * 2 ^ leadingBit q.den q.den := by
      rw [Nat.mul_comm]
      omega
    exact_mod_cast h3

theorem binade_lt (q : ℚ) (hq : q ≠ 0) : |q| < (2 : ℚ) ^ (binade q + 1) := by
  have hn : 1 ≤ q.num.natAbs := by
    have : q.num ≠ 0 := Rat.num_ne_zero.mpr hq
    omega
  have hd : 1 ≤ q.den := q.den_pos
  obtain ⟨p1, p2⟩ := leadingBit_spec q.num.natAbs q.num.natAbs hn (Nat.le_refl _)
  obtain ⟨r1, r2⟩ := leadingBit_spec q.den q.den hd (Nat.le_refl _)
  have habs : |q| = (q.num.natAbs : ℚ) / (q.den : ℚ) := by
    conv_lhs => rw [← Rat.num_div_den q]
    rw [abs_div, Nat.abs_cast]
    congr 1
    rw [Nat.cast_natAbs, Int.cast_abs]
  have hdq : (0 : ℚ) < (q.den : ℚ) := by exact_mod_cast hd
  have two : (0 : ℚ) < 2 := by norm_num
  rw [habs, div_lt_iff₀ hdq]
  unfold binade
  simp only
  split_ifs with h
  · have e : ((leadingBit q.num.natAbs q.num.natAbs : Int) - (leadingBit q.den q.den : Int) - 1 + 1) =
        (leadingBit q.num.natAbs q.num.natAbs : Int) - (leadingBit q.den q.den : Int) := by
      ring
    rw [e, zpow_sub₀ two.ne', zpow_natCast, zpow_natCast, div_mul_eq_mul_div,
      lt_div_iff₀ (by positivity)]
    have h3 : q.num.natAbs * 2 ^ leadingBit q.den q.den <
        2 ^ leadingBit q.num.natAbs q.num.natAbs * q.den := by
      rw [Nat.mul_comm (2 ^ _) q.den]
      exact h
    exact_mod_cast h3
  · have e : ((leadingBit q.num.natAbs q.num.natAbs : Int) - (leadingBit q.den q.den : Int) + 1) =
        ((leadingBit q.num.natAbs q.num.natAbs + 1 : Nat) : Int) -
          (leadingBit q.den q.den : Int) := by
      push_cast
      ring
    rw [e, zpow_sub₀ two.ne', zpow_natCast, zpow_natCast, div_mul_eq_mul_div,
      lt_div_iff₀ (by positivity)]
    have h3 : q.num.natAbs * 2 ^ leadingBit q.den q.den <
        2 ^ (leadingBit q.num.natAbs q.num.natAbs + 1) * q.den :=
      Nat.mul_lt_mul_of_lt_of_le p2 r1 (by positivity)
    exact_mod_cast h3

theorem roundFloat_error (q : ℚ) : |roundFloat q - q| ≤ |q| / 2 ^ 24 + 1 / 2 ^ 150 := by
  by_cases hq : q = 0
  · subst hq
    simp [roundFloat]
  · unfold roundFloat
    rw [if_neg hq]
    simp only
    have hQ : (0 : ℚ) < 2 ^ (max (binade q) (-126) - 23) := by positivity
    have hr := roundEven_error (q / 2 ^ (max (binade q) (-126) - 23))
    have e1 : (roundEven (q / 2 ^ (max (binade q) (-126) - 23)) : ℚ) *
        2 ^ (max (binade q) (-126) - 23) - q =
        ((roundEven (q / 2 ^ (max (binade q) (-126) - 23)) : ℚ) -
          q / 2 ^ (max (binade q) (-126) - 23)) * 2 ^ (max (binade q) (-126) - 23) := by
      field_simp
    rw [e1, abs_mul, abs_of_pos hQ]
    have h2 : |(roundEven (q / 2 ^ (max (binade q) (-126) - 23)) : ℚ) -
        q / 2 ^ (max (binade q) (-126) - 23)| * 2 ^ (max (binade q) (-126) - 23) ≤
        1 / 2 * 2 ^ (max (binade q) (-126) - 23) :=
      mul_le_mul_of_nonneg_right hr hQ.le
    refine le_trans h2 ?_
    have hb := binade_le q hq
    have two : (2 : ℚ) ≠ 0 := by norm_num
    rcases le_total (binade q) (-126) with h | h
    · rw [max_eq_right h]
      have e2 : (1 : ℚ) / 2 * 2 ^ ((-126 : Int) - 23) = 1 / 2 ^ 150 := by
        norm_num [zpow_neg]
      rw [e2]
      have : (0 : ℚ) ≤ |q| / 2 ^ 24 := by positivity
      linarith
    · rw [max_eq_left h]
      have e2 : (1 : ℚ) / 2 * 2 ^ (binade q - 23) = 2 ^ binade q / 2 ^ 24 := by
        rw [zpow_sub₀ two]
        norm_num
        ring
      rw [e2]
      have h3 : (2 : ℚ) ^ binade q / 2 ^ 24 ≤ |q| / 2 ^ 24 :=
        div_le_div_of_nonneg_right hb (by positivity)
      have : (0 : ℚ) ≤ 1 / 2 ^ 150 := by positivity
      linarith

theorem roundFloat_dyadic (k j : Int) (hk : |k| < 2 ^ 24) (hj : -149 ≤ j) :
    roundFloat ((k : ℚ) * 2 ^ j) = (k : ℚ) * 2 ^ j := by
  by_cases hk0 : k = 0
  · subst hk0
    simp [roundFloat]
  · have two : (2 : ℚ) ≠ 0 := by norm_num
    have hq : (k : ℚ) * 2 ^ j ≠ 0 := by
      have : (k : ℚ) ≠ 0 := by exact_mod_cast hk0
      positivity
    have hb := binade_le _ hq
    have habs : |(k : ℚ) * 2 ^ j| < 2 ^ (24 + j) := by
      rw [abs_mul, abs_of_pos (show (0 : ℚ) < 2 ^ j by positivity), zpow_add₀ two]
      have : |(k : ℚ)| < 2 ^ (24 : Int) := by
        have h := hk
        have h2 : ((|k| : Int) : ℚ) < ((2 ^ 24 : Int) : ℚ) := by exact_mod_cast h
        rw [Int.cast_abs] at h2
        norm_num at h2 ⊢
        exact h2
      exact mul_lt_mul_of_pos_right this (by positivity)
    have hlt : (2 : ℚ) ^ binade ((k : ℚ) * 2 ^ j) < 2 ^ (24 + j) := lt_of_le_of_lt hb habs
    have he : binade ((k : ℚ) * 2 ^ j) < 24 + j :=
      (zpow_lt_zpow_iff_right₀ (by norm_num : (1 : ℚ) < 2)).mp hlt
    have hE : max (binade ((k : ℚ) * 2 ^ j)) (-126) - 23 ≤ j := by
      rcases le_total (binade ((k : ℚ) * 2 ^ j)) (-126) with h | h
      · rw [max_eq_right h]
        omega
      · rw [max_eq_left h]
        omega
    unfold roundFloat
    rw [if_neg hq]
    simp only
    generalize max (binade ((k : ℚ) * 2 ^ j)) (-126) - 23 = E at hE
    obtain ⟨t, ht⟩ := Int.eq_ofNat_of_zero_le (show 0 ≤ j - E by omega)
    have hj2 : j = E + (t : Int) := by omega
    have e1 : (k : ℚ) * 2 ^ j / 2 ^ E = ((k * 2 ^ t : Int) : ℚ) := by
      rw [hj2, zpow_add₀ two, zpow_natCast]
      push_cast
      field_simp
      ring
    rw [e1, roundEven_intCast, hj2, zpow_add₀ two, zpow_natCast]
    push_cast
    ring

theorem roundFloat_natCast (n : Nat) (h : n < 2 ^ 24) : roundFloat (n : ℚ) = (n : ℚ) := by
  have := roundFloat_dyadic (n : Int) 0 (by rw [Nat.abs_cast]; exact_mod_cast h) (by norm_num)
  simpa using this

theorem float_literals :
    roundFloat (3 / 10) = 5033165 / 16777216 ∧ roundFloat (5 / 100) = 13421773 / 268435456 ∧
      roundFloat (7 / 10) = 11744051 / 16777216 ∧ roundFloat (9 / 10) = 7549747 / 8388608 := by
  decide!

/-! For the 49 cubes of the pyramid the single-precision material rule agrees
with the rule on the exact quotient and the decimal thresholds. -/

theorem material_thresholds :
    roundFloat (6 / 10) = 5033165 / 8388608 ∧ roundFloat (85 / 100) = 7130317 / 8388608 := by
  decide!

/-- A quotient `index / N` of small integers lies on the same side of a
decimal threshold `a / b` as its `float` does of the `float` threshold. -/
theorem roundFloat_quotient_lt (index N a b : Nat) (hi : index ≤ 48) (hN1 : 1 ≤ N)
    (hN : N ≤ 81) (hb : 1 ≤ b) (hb2 : b ≤ 100) (hab : a ≤ b)
    (ht : |roundFloat ((a : ℚ) / (b : ℚ)) - (a : ℚ) / (b : ℚ)| ≤ 1 / 2 ^ 24) :
    roundFloat ((index : ℚ) / (N : ℚ)) < roundFloat ((a : ℚ) / (b : ℚ)) ↔
      (index : ℚ) / (N : ℚ) < (a : ℚ) / (b : ℚ) := by
  have hNq : (0 : ℚ) < (N : ℚ) := by exact_mod_cast hN1
  have hbq : (0 : ℚ) < (b : ℚ) := by exact_mod_cast hb
  have hN81 : (N : ℚ) ≤ 81 := by exact_mod_cast hN
  have hb100 : (b : ℚ) ≤ 100 := by exact_mod_cast hb2
  have hi48 : (index : ℚ) ≤ 48 := by exact_mod_cast hi
  have hi0 : (0 : ℚ) ≤ (index : ℚ) := Nat.cast_nonneg index
  have ha0 : (0 : ℚ) ≤ (a : ℚ) := Nat.cast_nonneg a
  have habq : (a : ℚ) ≤ (b : ℚ) := by exact_mod_cast hab
  have hq0 : (0 : ℚ) ≤ (index : ℚ) / (N : ℚ) := by positivity
  have hN1q : (1 : ℚ) ≤ (N : ℚ) := by exact_mod_cast hN1
  have hq48 : (index : ℚ) / (N : ℚ) ≤ 48 := by
    rw [div_le_iff₀ hNq]
    linarith
  have e := roundFloat_error ((index : ℚ) / (N : ℚ))
  rw [abs_of_nonneg hq0, abs_le] at e
  rw [abs_le] at ht
  have hgap : (1 : ℚ) / 8100 ≤ 1 / ((N : ℚ) * (b : ℚ)) := by
    rw [div_le_div_iff₀ (by norm_num) (by positivity)]
    nlinarith
  rcases Nat.lt_trichotomy (index * b) (a * N) with h | h | h
  · -- the quotient is below the threshold by at least 1 / (N * b)
    have h1 : index * b + 1 ≤ a * N := h
    have h2 : (index : ℚ) * (b : ℚ) + 1 ≤ (a : ℚ) * (N : ℚ) := by exact_mod_cast h1
    have h3 : (index : ℚ) / (N : ℚ) + 1 / ((N : ℚ) * (b : ℚ)) ≤ (a : ℚ) / (b : ℚ) := by
      have e1 : (index : ℚ) / (N : ℚ) + 1 / ((N : ℚ) * (b : ℚ)) =
          ((index : ℚ) * (b : ℚ) + 1) / ((N : ℚ) * (b : ℚ)) := by
        field_simp
        ring
      have e2 : (a : ℚ) / (b : ℚ) = ((a : ℚ) * (N : ℚ)) / ((N : ℚ) * (b : ℚ)) := by
        field_simp
        ring
      rw [e1, e2]
      exact div_le_div_of_nonneg_right h2 (by positivity)
    have h4 : (a : ℚ) / (b : ℚ) ≤ 1 := by
      rw [div_le_one hbq]
      exact habq
    constructor
    · intro _
      linarith
    · intro _
      have := e.2
      have := ht.1
      norm_num at *
      linarith
  · -- the quotient is the threshold
    have h2 : (index : ℚ) * (b : ℚ) = (a : ℚ) * (N : ℚ) := by exact_mod_cast h
    have h3 : (index : ℚ) / (N : ℚ) = (a : ℚ) / (b : ℚ) := by
      rw [div_eq_div_iff hNq.ne' hbq.ne']
      exact h2
    rw [h3]
    simp
  · -- the quotient is above the threshold by at least 1 / (N * b)
    have h1 : a * N + 1 ≤ index * b := h
    have h2 : (a : ℚ) * (N : ℚ) + 1 ≤ (index : ℚ) * (b : ℚ) := by exact_mod_cast h1
    have h3 : (a : ℚ) / (b : ℚ) + 1 / ((N : ℚ) * (b : ℚ)) ≤ (index : ℚ) / (N : ℚ) := by
      have e1 : (a : ℚ) / (b : ℚ) + 1 / ((N : ℚ) * (b : ℚ)) =
          ((a : ℚ) * (N : ℚ) + 1) / ((N : ℚ) * (b : ℚ)) := by
        field_simp
        ring
      have e2 : (index : ℚ) / (N : ℚ) = ((index : ℚ) * (b : ℚ)) / ((N : ℚ) * (b : ℚ)) := by
        field_simp
        ring
      rw [e1, e2]
      exact div_le_div_of_nonneg_right h2 (by positivity)
    constructor
    · intro hlt
      have := e.1
      have := ht.2
      norm_num at *
      linarith
    · intro hlt
      linarith

theorem pyramidMaterial_large (index N : Nat) (h : index < 49) (hN : 82 ≤ N) :
    pyramidMaterial index N = 0 ∧ (index : ℚ) / (N : ℚ) < 6 / 10 := by
  have hi : (index : ℚ) ≤ 48 := by
    have : index ≤ 48 := by omega
    exact_mod_cast this
  have hi0 : (0 : ℚ) ≤ (index : ℚ) := Nat.cast_nonneg index
  have hN2 : (82 : ℚ) ≤ (N : ℚ) := by exact_mod_cast hN
  have e := roundFloat_error (N : ℚ)
  rw [abs_of_nonneg (by positivity : (0 : ℚ) ≤ (N : ℚ)), abs_le] at e
  have hd : (81 : ℚ) ≤ roundFloat (N : ℚ) := by
    have := e.1
    norm_num at this
    linarith
  have hq : (index : ℚ) / roundFloat (N : ℚ) ≤ 48 / 81 := by
    rw [div_le_div_iff₀ (by linarith) (by norm_num)]
    nlinarith
  have hq0 : (0 : ℚ) ≤ (index : ℚ) / roundFloat (N : ℚ) := div_nonneg hi0 (by linarith)
  have e2 := roundFloat_error ((index : ℚ) / roundFloat (N : ℚ))
  rw [abs_of_nonneg hq0, abs_le] at e2
  constructor
  · unfold pyramidMaterial
    simp only
    rw [roundFloat_natCast index (by omega)]
    rw [material_thresholds.1]
    have hlt : roundFloat ((index : ℚ) / roundFloat (N : ℚ)) < 5033165 / 8388608 := by
      have := e2.2
      norm_num at this ⊢
      linarith
    rw [if_pos hlt]
  · rw [div_lt_iff₀ (by linarith)]
    linarith

theorem pyramidMaterial_exact (index N : Nat) (h : index < 49) :
    pyramidMaterial index N =
      if (index : ℚ) / (N : ℚ) < 6 / 10 then 0
      else if (index : ℚ) / (N : ℚ) < 85 / 100 then 1 else 2 := by
  rcases Nat.eq_zero_or_pos N with h0 | h1
  · subst h0
    unfold pyramidMaterial
    simp only [Nat.cast_zero, div_zero]
    rw [material_thresholds.1]
    norm_num [roundFloat]
  · by_cases hN : N < 82
    · have t1 := roundFloat_quotient_lt index N 6 10 (by omega) h1 (by omega) (by norm_num)
        (by norm_num) (by norm_num) (by
          simp only [Nat.cast_ofNat]
          rw [material_thresholds.1]
          norm_num [abs_le])
      have t2 := roundFloat_quotient_lt index N 85 100 (by omega) h1 (by omega) (by norm_num)
        (by norm_num) (by norm_num) (by
          simp only [Nat.cast_ofNat]
          rw [material_thresholds.2]
          norm_num [abs_le])
      simp only [Nat.cast_ofNat] at t1 t2
      unfold pyramidMaterial
      simp only
      rw [roundFloat_natCast index (by omega), roundFloat_natCast N (by omega)]
      simp only [t1, t2]
    · obtain ⟨a, b⟩ := pyramidMaterial_large index N h (by omega)
      rw [a, if_pos b]

/-! ## Lemmas on vectors and loops -/

theorem resize_length {α : Type} (xs : List α) (n : Nat) (dflt : α) :
    (resize xs n dflt).length = n := by
  simp [resize]
  omega

theorem resize_nil {α : Type} (n : Nat) (dflt : α) :
    resize ([] : List α) n dflt = List.replicate n dflt := by
  simp [resize]

theorem forWhile_stop {α σ : Type} (cond : σ → Bool) (body : α → σ → Option σ)
    (xs : List α) (s : σ) (h : cond s = false) : forWhile cond body xs s = some s := by
  cases xs <;> simp [forWhile, h]

theorem forWhile_append {α σ : Type} (cond : σ → Bool) (body : α → σ → Option σ)
    (xs ys : List α) (s : σ) :
    forWhile cond body (xs ++ ys) s = (forWhile cond body xs s).bind (forWhile cond body ys) := by
  induction xs generalizing s with
  | nil => simp [forWhile]
  | cons x xs ih =>
    simp only [List.cons_append, forWhile]
    by_cases h : cond s = true
    · simp only [h, if_true]
      cases hb : body x s with
      | none => simp
      | some s1 => simp [ih]
    · have h' : cond s = false := by simpa using h
      simp [h', forWhile_stop cond body ys s h']

theorem forWhile_map {α β σ : Type} (cond : σ → Bool) (body : β → σ → Option σ) (m : α → β)
    (xs : List α) (s : σ) :
    forWhile cond body (xs.map m) s = forWhile cond (fun x => body (m x)) xs s := by
  induction xs generalizing s with
  | nil => simp [forWhile]
  | cons x xs ih =>
    simp only [List.map_cons, forWhile]
    by_cases h : cond s = true
    · simp only [h, if_true]
      cases hb : body (m x) s with
      | none => simp
      | some s1 => simp [ih]
    · simp [h]

theorem forWhile_bind {α β σ : Type} (cond : σ → Bool) (body : β → σ → Option σ)
    (L : α → List β) (xs : List α) (s : σ) :
    forWhile cond (fun x => forWhile cond body (L x)) xs s = forWhile cond body (xs.flatMap L) s := by
  induction xs generalizing s with
  | nil => simp [forWhile]
  | cons x xs ih =>
    simp only [List.flatMap_cons, forWhile, forWhile_append]
    by_cases h : cond s = true
    · simp only [h, if_true]
      cases hb : forWhile cond body (L x) s with
      | none => simp
      | some s1 => simp [ih]
    · have h' : cond s = false := by simpa using h
      simp [h', forWhile_stop cond body _ s h']

theorem forWhile_filter {α σ : Type} (cond : σ → Bool) (body : α → σ → Option σ)
    (p : α → Bool) (xs : List α) (s : σ) :
    forWhile cond (fun x s => if p x then body x s else some s) xs s =
      forWhile cond body (xs.filter p) s := by
  induction xs generalizing s with
  | nil => simp [forWhile]
  | cons x xs ih =>
    by_cases hp : p x = true
    · simp only [List.filter_cons, hp, if_true, forWhile]
      by_cases h : cond s = true
      · simp only [h, if_true]
        cases hb : body x s with
        | none => simp
        | some s1 => simp [ih]
      · simp [h]
    · have hp' : p x = false := by simpa using hp
      simp only [List.filter_cons, hp', forWhile]
      by_cases h : cond s = true
      · simp [h, ih]
      · have h' : cond s = false := by simpa using h
        simp [h', forWhile_stop cond body _ s h']

theorem forRange_zero {σ : Type} (body : Nat → σ → Option σ) (s : σ) :
    forRange 0 body s = some s := by
  simp [forRange, forWhile]

theorem forRange_succ {σ : Type} (n : Nat) (body : Nat → σ → Option σ) (s : σ) :
    forRange (n + 1) body s = (forRange n body s).bind (body n) := by
  simp only [forRange, List.range_succ, forWhile_append]
  congr 1
  funext s1
  simp [forWhile]


theorem eq_map_range {α : Type} (f : Nat → α) (n : Nat) (xs : List α) (hlen : xs.length = n)
    (h : ∀ m, m < n → xs[m]? = some (f m)) : xs = (List.range n).map f := by
  apply List.ext_getElem?
  intro m
  by_cases hm : m < n
  · rw [h m hm]
    simp [hm]
  · have h1 : xs.length ≤ m := by omega
    have h2 : ((List.range n).map f).length ≤ m := by simp; omega
    rw [List.getElem?_eq_none h1, List.getElem?_eq_none h2]

theorem vecSet_some {α : Type} (xs : List α) (i : Nat) (x : α) (h : i < xs.length) :
    vecSet xs i x = some (xs.set i x) := by
  simp [vecSet, h]

theorem forRange_vecSet {α : Type} (f : Nat → α) (n : Nat) (ts : List α) (h : n ≤ ts.length) :
    forRange n (fun i ts => vecSet ts i (f i)) ts = some ((List.range n).map f ++ ts.drop n) := by
  induction n with
  | zero => simp [forRange_zero]
  | succ n ih =>
    rw [forRange_succ, ih (by omega)]
    simp only [Option.some_bind]
    rw [vecSet_some _ _ _ (by simp only [List.length_append, List.length_map, List.length_range, List.length_drop]; omega)]
    congr 1
    apply List.ext_getElem?
    intro m
    rcases Nat.lt_trichotomy m n with hm | hm | hm
    · simp [List.getElem?_set, List.getElem?_append, hm, Nat.ne_of_gt hm, Nat.lt_succ_of_lt hm]
    · subst hm
      simp [List.getElem?_set, List.getElem?_append, h]
      omega
    · have h1 : ¬ m < n := by omega
      have h2 : ¬ m < n + 1 := by omega
      have h3 : n ≠ m := by omega
      have h4 : ¬ (0 = m - n) := by omega
      have h5 : n + (m - n) = m := by omega
      have h6 : n + 1 + (m - (n + 1)) = m := by omega
      simp [List.getElem?_set, List.getElem?_append, h1, h2, h3, h4, h5, h6]

/-! ## Lemmas on the placement -/

/-- The three nested pyramid loops visit the border cells in order, as long as
the loop condition `index < NumSmallCubes` holds. -/
theorem pyramidLoop_flat (N : Nat) (st : CubeGen) :
    pyramidLoop N st =
      forWhile (fun st => decide (st.index < N))
        (fun cell => pyramidPlace N cell.1 cell.2.1 cell.2.2) pyramidCells st := by
  have hrow : ∀ capa i, pyramidRow N capa i =
      forWhile (fun st => decide (st.index < N))
        (fun cell st => if onBorder cell.1 cell.2.1 cell.2.2 then
          pyramidPlace N cell.1 cell.2.1 cell.2.2 st else some st)
        ((intRange (Int.tdiv (-(capas - capa)) 2) (Int.tdiv (capas - capa) 2)).map
          fun j => (capa, i, j)) := by
    intro capa i
    funext st
    rw [forWhile_map]
    rfl
  have hlayer : ∀ capa, pyramidLayer N capa =
      forWhile (fun st => decide (st.index < N))
        (fun cell st => if onBorder cell.1 cell.2.1 cell.2.2 then
          pyramidPlace N cell.1 cell.2.1 cell.2.2 st else some st)
        ((intRange (Int.tdiv (-(capas - capa)) 2) (Int.tdiv (capas - capa) 2)).flatMap fun i =>
          (intRange (Int.tdiv (-(capas - capa)) 2) (Int.tdiv (capas - capa) 2)).map
            fun j => (capa, i, j)) := by
    intro capa
    funext st
    rw [← forWhile_bind]
    unfold pyramidLayer
    have : pyramidRow N capa = fun i => forWhile (fun st => decide (st.index < N))
        (fun cell st => if onBorder cell.1 cell.2.1 cell.2.2 then
          pyramidPlace N cell.1 cell.2.1 cell.2.2 st else some st)
        ((intRange (Int.tdiv (-(capas - capa)) 2) (Int.tdiv (capas - capa) 2)).map
          fun j => (capa, i, j)) := funext (hrow capa)
    rw [this]
  unfold pyramidLoop pyramidCells pyramidGrid
  rw [← forWhile_filter, ← forWhile_bind]
  have : pyramidLayer N = _ := funext hlayer
  rw [this]


theorem pyramidPlace_spec (N : Nat) (cell : Int × Int × Int) (st : CubeGen)
    (hinv : CubeInv N st) (hlt : st.index < N) (hcell : pyramidCells[st.index]? = some cell) :
    ∃ st1, pyramidPlace N cell.1 cell.2.1 cell.2.2 st = some st1 ∧ CubeInv N st1 ∧
      st1.index = st.index + 1 := by
  have h1 : st.index < st.ids.length := by rw [hinv.ids_len]; exact hlt
  have h2 : st.index < st.xfs.length := by rw [hinv.xfs_len]; exact hlt
  have h49 : st.index < pyramidCells.length := by
    by_contra hc
    rw [List.getElem?_eq_none (by omega)] at hcell
    cases hcell
  refine ⟨
    { index := st.index + 1
      ids := st.ids.set st.index (pyramidMaterial st.index N)
      xfs := st.xfs.set st.index (pyramidTransform st.index cell.1 cell.2.1 cell.2.2)
      written := st.written ++ [st.index] }, ?_, ?_, rfl⟩
  · simp only [pyramidPlace, vecSet_some _ _ _ h1, vecSet_some _ _ _ h2, Option.some_bind]
  constructor
  · show st.index + 1 ≤ N
    omega
  · simp [hinv.ids_len]
  · simp [hinv.xfs_len]
  · intro m hm
    show (st.ids.set st.index _)[m]? = _
    by_cases hmi : m = st.index
    · subst hmi
      simp [List.getElem?_set, h1, cubeMaterial, h49]
    · have : m < st.index := by
        have : m < st.index + 1 := hm
        omega
      rw [List.getElem?_set_ne (Ne.symm hmi)]
      exact hinv.ids_get m this
  · intro m hm
    show (st.xfs.set st.index _)[m]? = _
    by_cases hmi : m = st.index
    · subst hmi
      simp [List.getElem?_set, h2, cubeTransform, hcell]
    · have : m < st.index := by
        have : m < st.index + 1 := hm
        omega
      rw [List.getElem?_set_ne (Ne.symm hmi)]
      exact hinv.xfs_get m this
  · show st.written ++ [st.index] = List.range (st.index + 1)
    rw [hinv.written_eq, List.range_succ]

theorem placeLoop_spec (N : Nat) :
    ∀ (cells done : List (Int × Int × Int)) (st : CubeGen),
      pyramidCells = done ++ cells → st.index = min N done.length → CubeInv N st →
      ∃ st1, forWhile (fun st => decide (st.index < N))
          (fun cell => pyramidPlace N cell.1 cell.2.1 cell.2.2) cells st = some st1 ∧
        CubeInv N st1 ∧ st1.index = min N (done.length + cells.length) := by
  intro cells
  induction cells with
  | nil =>
    intro done st _ hidx hinv
    exact ⟨st, by simp [forWhile], hinv, by simpa using hidx⟩
  | cons cell cells ih =>
    intro done st hsplit hidx hinv
    by_cases hlt : st.index < N
    · have hd : st.index = done.length := by omega
      have hcell : pyramidCells[st.index]? = some cell := by
        rw [hsplit, hd, List.getElem?_append_right (Nat.le_refl _)]
        simp
      obtain ⟨st1, h1, hinv1, hidx1⟩ := pyramidPlace_spec N cell st hinv hlt hcell
      obtain ⟨st2, h2, hinv2, hidx2⟩ := ih (done ++ [cell]) st1 (by simp [hsplit])
        (by simp; omega) hinv1
      refine ⟨st2, ?_, hinv2, ?_⟩
      · simp [forWhile, hlt, h1, h2]
      · rw [hidx2]
        simp
        omega
    · refine ⟨st, ?_, hinv, ?_⟩
      · simp [forWhile, hlt]
      · have := hinv.index_le
        simp
        omega

theorem fallbackLoop_spec (N : Nat) :
    ∀ (fuel : Nat) (st : CubeGen), CubeInv N st → (st.index < N → pyramidCells.length ≤ st.index) →
      N - st.index ≤ fuel →
      ∃ st1, fallbackLoop N fuel st = some st1 ∧ CubeInv N st1 ∧ st1.index = N := by
  intro fuel
  induction fuel with
  | zero =>
    intro st hinv _ hfuel
    have := hinv.index_le
    have hn : ¬ st.index < N := by omega
    exact ⟨st, by simp [fallbackLoop, hn], hinv, by omega⟩
  | succ fuel ih =>
    intro st hinv hpyr hfuel
    by_cases hlt : st.index < N
    · have h1 : st.index < st.ids.length := by rw [hinv.ids_len]; exact hlt
      have h2 : st.index < st.xfs.length := by rw [hinv.xfs_len]; exact hlt
      have h49 : ¬ st.index < pyramidCells.length := by have := hpyr hlt; omega
      have hinv1 : CubeInv N
          { index := st.index + 1
            ids := st.ids.set st.index (st.index % 3)
            xfs := st.xfs.set st.index (fallbackTransform st.index)
            written := st.written ++ [st.index] } := by
        constructor
        · show st.index + 1 ≤ N
          omega
        · simp [hinv.ids_len]
        · simp [hinv.xfs_len]
        · intro m hm
          show (st.ids.set st.index _)[m]? = _
          by_cases hmi : m = st.index
          · subst hmi
            simp [List.getElem?_set, h1, cubeMaterial, h49]
          · have : m < st.index := by
              have : m < st.index + 1 := hm
              omega
            rw [List.getElem?_set_ne (Ne.symm hmi)]
            exact hinv.ids_get m this
        · intro m hm
          show (st.xfs.set st.index _)[m]? = _
          by_cases hmi : m = st.index
          · have hnone : pyramidCells[st.index]? = none := List.getElem?_eq_none (by omega)
            subst hmi
            simp [List.getElem?_set, h2, cubeTransform, hnone]
          · have : m < st.index := by
              have : m < st.index + 1 := hm
              omega
            rw [List.getElem?_set_ne (Ne.symm hmi)]
            exact hinv.xfs_get m this
        · show st.written ++ [st.index] = List.range (st.index + 1)
          rw [hinv.written_eq, List.range_succ]
      obtain ⟨st2, h3, hinv2, hidx2⟩ := ih _ hinv1
        (by intro _; show pyramidCells.length ≤ st.index + 1; omega)
        (by show N - (st.index + 1) ≤ fuel; omega)
      refine ⟨st2, ?_, hinv2, hidx2⟩
      simp only [fallbackLoop, hlt, if_true, fallbackBody, vecSet_some _ _ _ h1,
        vecSet_some _ _ _ h2, Option.some_bind]
      exact h3
    · have := hinv.index_le
      exact ⟨st, by simp [fallbackLoop, hlt], hinv, by omega⟩

/-- The cube placement of the first `UpdateTLAS` (lines 663-743) stores, for
every index below `N`, the closed-form material id and transform, writing
every index exactly once and in increasing order. -/
theorem cubePlacement_spec (N : Nat) (ids : List Nat) (xfs : List InstanceMatrix)
    (hids : ids.length = N) (hxfs : xfs.length = N) :
    ∃ st, pyramidLoop N { index := 0, ids := ids, xfs := xfs } = some st ∧
      (st.index = min N pyramidCells.length ∧ st.written = List.range (min N pyramidCells.length)) ∧
      fallbackLoop N (N - st.index) st =
        some
          { index := N
            ids := (List.range N).map (cubeMaterial N)
            xfs := (List.range N).map cubeTransform
            written := List.range N } := by
  have hinv0 : CubeInv N { index := 0, ids := ids, xfs := xfs } := by
    constructor
    · exact Nat.zero_le _
    · exact hids
    · exact hxfs
    · intro m hm
      exact absurd hm (Nat.not_lt_zero m)
    · intro m hm
      exact absurd hm (Nat.not_lt_zero m)
    · rfl
  obtain ⟨st1, h1, hinv1, hidx1⟩ := placeLoop_spec N pyramidCells [] _ (by simp) (by simp) hinv0
  obtain ⟨st2, h2, hinv2, hidx2⟩ := fallbackLoop_spec N (N - st1.index) st1 hinv1
    (by intro h; rw [hidx1] at h ⊢; simp at h ⊢; omega) (Nat.le_refl _)
  have hidx1' : st1.index = min N pyramidCells.length := by simpa using hidx1
  refine ⟨st1, by rw [pyramidLoop_flat]; exact h1, ⟨hidx1', by rw [hinv1.written_eq, hidx1']⟩, ?_⟩
  rw [h2]
  congr 1
  cases st2 with
  | mk index ids2 xfs2 written =>
    simp only at hidx2
    subst hidx2
    have e1 := eq_map_range (cubeMaterial index) index ids2 hinv2.ids_len hinv2.ids_get
    have e2 := eq_map_range cubeTransform index xfs2 hinv2.xfs_len hinv2.xfs_get
    have e3 : written = List.range index := hinv2.written_eq
    rw [e1, e2, e3]

/-! ## Lemmas on the instance set-up -/

theorem getElem?_append_cons {α : Type} (A B : List α) (x : α) (i : Nat) (h : i = A.length) :
    (A ++ x :: B)[i]? = some x := by
  subst h
  rw [List.getElem?_append_right (Nat.le_refl _)]
  simp

theorem vecSet_append {α : Type} (A B : List α) (x y : α) (i : Nat) (h : i = A.length) :
    vecSet (A ++ x :: B) i y = some (A ++ y :: B) := by
  subst h
  simp [vecSet]

theorem vecModify_append {α : Type} (A B : List α) (x : α) (f : α → α) (i : Nat)
    (h : i = A.length) : vecModify (A ++ x :: B) i f = some (A ++ f x :: B) := by
  unfold vecModify
  rw [getElem?_append_cons A B x i h]
  subst h
  simp

theorem vecGet_lt {α : Type} (xs : List α) (i : Nat) (h : i < xs.length) :
    vecGet xs i = some xs[i] := by
  simp [vecGet, h]

theorem sphereLoop_spec (cfg : Config) (s : State) (pre : List TLASBuildInstanceData)
    (k : Nat) (names : List String) (n : Nat) (hn : n ≤ names.length)
    (ht : n ≤ s.m_SmallSphereTransforms.length) (hk : n ≤ k) :
    forRange n (sphereInstance cfg s)
        { idx := pre.length, Instances := pre ++ List.replicate k {}, names := names } =
      some
        { idx := pre.length + n
          Instances := pre ++ (List.range n).map (sphereInstanceOf cfg s pre.length) ++
            List.replicate (k - n) {}
          names := ((List.range n).map fun i => "Sphere Instance " ++ toString (pre.length + i)) ++
            names.drop n } := by
  induction n with
  | zero => simp [forRange_zero]
  | succ n ih =>
    rw [forRange_succ, ih (by omega) (by omega) (by omega)]
    simp only [Option.some_bind, sphereInstance]
    have hnames : names.drop n = names[n] :: names.drop (n + 1) := by
      rw [List.drop_eq_getElem_cons]
    have hrep : List.replicate (k - n) ({} : TLASBuildInstanceData) =
        {} :: List.replicate (k - (n + 1)) {} := by
      have : k - n = (k - (n + 1)) + 1 := by omega
      rw [this, List.replicate_succ]
    have hg : s.m_SmallSphereTransforms[n]? = some s.m_SmallSphereTransforms[n] :=
      List.getElem?_eq_getElem (by omega)
    rw [hnames, hrep, vecSet_append _ _ _ _ _ (by simp),
      vecGet_lt s.m_SmallSphereTransforms n (by omega)]
    simp only [Option.some_bind]
    rw [vecModify_append _ _ _ _ _ (by simp)]
    simp only [Option.some_bind]
    congr 1
    simp [List.range_succ, sphereInstanceOf, hg, Nat.add_assoc]

theorem cubeLoop_spec (cfg : Config) (s : State) (pre : List TLASBuildInstanceData)
    (k : Nat) (names : List String) (n : Nat) (hn : n ≤ names.length)
    (ht : n ≤ s.m_SmallCubeTransforms.length) (hi : n ≤ s.m_cubesCustomIds.length) (hk : n ≤ k) :
    forRange n (cubeInstance cfg s)
        { idx := pre.length, Instances := pre ++ List.replicate k {}, names := names } =
      some
        { idx := pre.length + n
          Instances := pre ++ (List.range n).map (cubeInstanceOf cfg s pre.length) ++
            List.replicate (k - n) {}
          names := ((List.range n).map fun i => "Cube Instance " ++ toString (pre.length + i)) ++
            names.drop n } := by
  induction n with
  | zero => simp [forRange_zero]
  | succ n ih =>
    rw [forRange_succ, ih (by omega) (by omega) (by omega) (by omega)]
    simp only [Option.some_bind, cubeInstance]
    have hnames : names.drop n = names[n] :: names.drop (n + 1) := by
      rw [List.drop_eq_getElem_cons]
    have hrep : List.replicate (k - n) ({} : TLASBuildInstanceData) =
        {} :: List.replicate (k - (n + 1)) {} := by
      have : k - n = (k - (n + 1)) + 1 := by omega
      rw [this, List.replicate_succ]
    have hg : s.m_SmallCubeTransforms[n]? = some s.m_SmallCubeTransforms[n] :=
      List.getElem?_eq_getElem (by omega)
    have hg2 : s.m_cubesCustomIds[n]? = some s.m_cubesCustomIds[n] :=
      List.getElem?_eq_getElem (by omega)
    rw [hnames, hrep, vecSet_append _ _ _ _ _ (by simp),
      vecGet_lt s.m_cubesCustomIds n (by omega), vecGet_lt s.m_SmallCubeTransforms n (by omega)]
    simp only [Option.some_bind]
    rw [vecModify_append _ _ _ _ _ (by simp)]
    simp only [Option.some_bind]
    congr 1
    simp [List.range_succ, cubeInstanceOf, hg, hg2, Nat.add_assoc]

theorem mainInstances_spec (cfg : Config) (s : State) (k : Nat) :
    mainInstances cfg s (List.replicate (4 + k) ({} : TLASBuildInstanceData)) =
      some (mainInstanceList cfg s ++ List.replicate k ({} : TLASBuildInstanceData)) := by
  have h : List.replicate (4 + k) ({} : TLASBuildInstanceData) =
      {} :: {} :: {} :: {} :: List.replicate k {} := by
    rw [Nat.add_comm]
    rfl
  rw [h]
  simp [mainInstances, vecModify, mainInstanceList, InstanceMatrix.SetRotation,
    InstanceMatrix.SetTranslation]

theorem setupInstances_spec (cfg : Config) (s : State) (hp : Placed cfg s) :
    setupInstances cfg cfg.NumInstances s =
      some (instanceList cfg s,
        { s with m_SphereInstanceNames := sphereNames cfg, m_CubeInstanceNames := cubeNames cfg }) := by
  have hN : cfg.NumInstances = 4 + (cfg.NumSmallSpheres + cfg.NumSmallCubes) := by
    simp [Config.NumInstances, Nat.add_assoc]
  change (mainInstances cfg s (List.replicate cfg.NumInstances {})).bind _ = _
  rw [hN, mainInstances_spec]
  simp only [Option.some_bind]
  have h4 : (4 : Nat) = (mainInstanceList cfg s).length := rfl
  have hs := sphereLoop_spec cfg s (mainInstanceList cfg s)
    (cfg.NumSmallSpheres + cfg.NumSmallCubes) s.m_SphereInstanceNames cfg.NumSmallSpheres
    (by rw [hp.sphereNames]) (by rw [hp.sphereTransforms]) (by omega)
  rw [← h4] at hs
  change (forRange cfg.NumSmallSpheres _ _).bind _ = _
  rw [hs]
  simp only [Option.some_bind]
  have hk : cfg.NumSmallSpheres + cfg.NumSmallCubes - cfg.NumSmallSpheres = cfg.NumSmallCubes := by
    omega
  have hc := cubeLoop_spec cfg s
    (mainInstanceList cfg s ++ (List.range cfg.NumSmallSpheres).map (sphereInstanceOf cfg s 4))
    cfg.NumSmallCubes s.m_CubeInstanceNames cfg.NumSmallCubes
    (by rw [hp.cubeNames]) (by rw [hp.cubeTransforms]) (by rw [hp.cubeIds]) (Nat.le_refl _)
  have hl : (mainInstanceList cfg s ++
      (List.range cfg.NumSmallSpheres).map (sphereInstanceOf cfg s 4)).length =
      4 + cfg.NumSmallSpheres := by
    simp [← h4]
  rw [hl] at hc
  rw [hk]
  change (forRange cfg.NumSmallCubes _ _).bind _ = _
  rw [hc]
  simp only [Option.some_bind, Nat.sub_self, List.replicate_zero, List.append_nil]
  have d1 : List.drop cfg.NumSmallSpheres s.m_SphereInstanceNames = [] :=
    List.drop_eq_nil_of_le (by rw [hp.sphereNames])
  have d2 : List.drop cfg.NumSmallCubes s.m_CubeInstanceNames = [] :=
    List.drop_eq_nil_of_le (by rw [hp.cubeNames])
  rw [d1, d2]
  simp only [List.append_nil]
  rfl

/-! ## Lemmas on `UpdateTLAS` -/

theorem instanceList_length (cfg : Config) (s : State) :
    (instanceList cfg s).length = cfg.NumInstances := by
  simp [instanceList, mainInstanceList, Config.NumInstances]
  omega

theorem spiralLoop_spec (n : Nat) (ts : List InstanceMatrix) (h : ts.length = n) :
    forRange n spiralBody ts = some ((List.range n).map spiralTransform) := by
  have := forRange_vecSet spiralTransform n ts (by omega)
  rw [List.drop_eq_nil_of_le (by omega), List.append_nil] at this
  exact this

theorem createTLAS_spec (cfg : Config) (s : State) (srb : ShaderResourceBinding)
    (hsrb : s.m_pRayTracingSRB = some srb) :
    createTLAS cfg s = some (createTLASResult cfg s srb) := by
  obtain ⟨st, hp, _, hf⟩ := cubePlacement_spec cfg.NumSmallCubes
    (resize s.m_cubesCustomIds cfg.NumSmallCubes 0)
    (resize s.m_SmallCubeTransforms cfg.NumSmallCubes {}) (resize_length _ _ _) (resize_length _ _ _)
  have hsp := spiralLoop_spec cfg.NumSmallSpheres
    (resize s.m_SmallSphereTransforms cfg.NumSmallSpheres {}) (resize_length _ _ _)
  simp only [Config.NumSmallSpheres, Config.NumSmallCubes] at hsp hp hf
  unfold createTLAS
  simp only [State.setRayTracingVar, State.emit, hsrb, Option.some_bind]
  by_cases h1 : s.m_MaxSmallSpheres = 0 <;> by_cases h2 : s.m_MaxSmallCubes = 0 <;>
    simp only [h1, h2, if_true, if_false] <;>
    (rw [hsp]
     simp only [Option.some_bind]
     rw [hp]
     simp only [Option.some_bind]
     rw [hf]
     simp [createTLASResult, h1, h2, Config.NumInstances, Config.NumSmallSpheres,
       Config.NumSmallCubes])


theorem createBuffers_spec (cfg : Config) (s : State) (tlas : ITopLevelAS)
    (h : s.m_pTLAS = some tlas) :
    createBuffers cfg cfg.NumInstances s = some (createBuffersResult cfg s) := by
  rcases hs : s.m_ScratchBuffer with _ | sb <;> rcases hi : s.m_InstanceBuffer with _ | ib <;>
    cases s <;> simp only at h hs hi <;> subst h hs hi <;>
    simp [createBuffers, createBuffersResult, State.emit, scratchBufferDesc, instanceBufferDesc]

theorem buildTLAS_spec (cfg : Config) (NeedUpdate : Bool) (s : State) (tlas : ITopLevelAS)
    (htlas : s.m_pTLAS = some tlas) (hplaced : Placed cfg s) :
    ((setupInstances cfg cfg.NumInstances s).bind fun r =>
      match r.2.m_pTLAS with
      | none => none
      | some tlas =>
        let Attribs : BuildTLASAttribs :=
          { Update := NeedUpdate
            pInstances := r.1
            InstanceCount := cfg.NumInstances
            HitGroupStride := cfg.HIT_GROUP_STRIDE }
        some { r.2.emit (Cmd.BuildTLAS Attribs) with
          m_pTLAS := some { tlas with Instances := Attribs.pInstances.take Attribs.InstanceCount } }) =
      some (buildTLASResult cfg NeedUpdate s tlas) := by
  rw [setupInstances_spec cfg s hplaced]
  simp only [Option.some_bind, htlas]
  have htake : (instanceList cfg s).take cfg.NumInstances = instanceList cfg s :=
    List.take_of_length_le (by rw [instanceList_length])
  simp only [htake, buildTLASResult, buildAttribs, State.emit]

theorem UpdateTLAS_create (cfg : Config) (s : State) (srb : ShaderResourceBinding)
    (htlas : s.m_pTLAS = none) (hsrb : s.m_pRayTracingSRB = some srb) :
    UpdateTLAS cfg s = some (buildTLASResult cfg false
      (createBuffersResult cfg (createTLASResult cfg s srb))
      { Desc := { Name := "TLAS", MaxInstanceCount := cfg.NumInstances } }) := by
  have hplaced : Placed cfg (createBuffersResult cfg (createTLASResult cfg s srb)) := by
    constructor <;> simp [createBuffersResult, createTLASResult, resize_length]
  have h1 := createTLAS_spec cfg s srb hsrb
  have h2 := createBuffers_spec cfg (createTLASResult cfg s srb) _ rfl
  have h3 := buildTLAS_spec cfg false _ _ (show (createBuffersResult cfg
    (createTLASResult cfg s srb)).m_pTLAS = _ from rfl) hplaced
  unfold UpdateTLAS
  simp only [htlas, h1, Option.map_some', Option.some_bind]
  change (createBuffers cfg cfg.NumInstances _).bind _ = _
  rw [h2]
  simp only [Option.some_bind]
  exact h3

theorem UpdateTLAS_update (cfg : Config) (s : State) (tlas : ITopLevelAS)
    (htlas : s.m_pTLAS = some tlas) (hplaced : Placed cfg s) :
    UpdateTLAS cfg s = some (buildTLASResult cfg true (createBuffersResult cfg s) tlas) := by
  have hplaced2 : Placed cfg (createBuffersResult cfg s) := by
    constructor <;> simp [createBuffersResult, hplaced.sphereTransforms, hplaced.cubeTransforms,
      hplaced.cubeIds, hplaced.sphereNames, hplaced.cubeNames]
  have h2 := createBuffers_spec cfg s tlas htlas
  have h3 := buildTLAS_spec cfg true (createBuffersResult cfg s) tlas
    (by simp [createBuffersResult, htlas]) hplaced2
  unfold UpdateTLAS
  simp only [htlas, Option.some_bind]
  change (createBuffers cfg cfg.NumInstances _).bind _ = _
  rw [h2]
  simp only [Option.some_bind]
  exact h3

/-! ## The invariant of a run -/

theorem builds_append (xs ys : List Cmd) : builds (xs ++ ys) = builds xs ++ builds ys := by
  simp [builds, List.filterMap_append]

theorem tlasDescs_append (xs ys : List Cmd) :
    tlasDescs (xs ++ ys) = tlasDescs xs ++ tlasDescs ys := by
  simp [tlasDescs, List.filterMap_append]

theorem frame_refl (s : State) : TLASFrame s s :=
  ⟨rfl, rfl, rfl, rfl, rfl, rfl, rfl, rfl⟩

theorem frame_trans {s1 s2 s3 : State} (h1 : TLASFrame s1 s2) (h2 : TLASFrame s2 s3) :
    TLASFrame s1 s3 :=
  ⟨h2.tlas.trans h1.tlas, h2.sphereTransforms.trans h1.sphereTransforms,
    h2.cubeTransforms.trans h1.cubeTransforms, h2.cubeIds.trans h1.cubeIds,
    h2.sphereNames.trans h1.sphereNames, h2.cubeNames.trans h1.cubeNames,
    h2.buildsEq.trans h1.buildsEq, h2.descsEq.trans h1.descsEq⟩

theorem frame_emit (s : State) (c : Cmd) (h1 : builds [c] = []) (h2 : tlasDescs [c] = []) :
    TLASFrame s (s.emit c) := by
  refine ⟨rfl, rfl, rfl, rfl, rfl, rfl, ?_, ?_⟩
  · show builds (s.ctx ++ [c]) = _
    rw [builds_append, h1, List.append_nil]
  · show tlasDescs (s.ctx ++ [c]) = _
    rw [tlasDescs_append, h2, List.append_nil]

theorem frame_foldl_emit {α : Type} (f : α → Cmd)
    (hf : ∀ x, builds [f x] = [] ∧ tlasDescs [f x] = []) (l : List α) (s : State) :
    TLASFrame s (l.foldl (fun s x => s.emit (f x)) s) := by
  induction l generalizing s with
  | nil => exact frame_refl s
  | cons x l ih =>
    exact frame_trans (frame_emit s (f x) (hf x).1 (hf x).2) (ih _)

theorem setRayTracingVar_some {s s2 : State} {stage name : String}
    (h : s.setRayTracingVar stage name = some s2) :
    ∃ srb, s.m_pRayTracingSRB = some srb ∧
      s2 = { s with m_pRayTracingSRB := some { srb with vars := srb.vars ++ [(stage, name)] } } := by
  unfold State.setRayTracingVar at h
  cases hs : s.m_pRayTracingSRB with
  | none => simp [hs] at h
  | some srb =>
    simp only [hs, Option.some.injEq] at h
    exact ⟨srb, rfl, h.symm⟩

theorem frame_setRayTracingVar {s s2 : State} {stage name : String}
    (h : s.setRayTracingVar stage name = some s2) : TLASFrame s s2 := by
  obtain ⟨srb, _, rfl⟩ := setRayTracingVar_some h
  exact ⟨rfl, rfl, rfl, rfl, rfl, rfl, rfl, rfl⟩

theorem frame_CreateGraphicsPSO (s : State) : TLASFrame s (CreateGraphicsPSO s) := by
  constructor <;> simp [CreateGraphicsPSO, State.emit, builds_append, builds, tlasDescs_append,
    tlasDescs]

theorem frame_update {s s2 s3 : State} (h : TLASFrame s s2)
    (e1 : s3.m_pTLAS = s2.m_pTLAS)
    (e2 : s3.m_SmallSphereTransforms = s2.m_SmallSphereTransforms)
    (e3 : s3.m_SmallCubeTransforms = s2.m_SmallCubeTransforms)
    (e4 : s3.m_cubesCustomIds = s2.m_cubesCustomIds)
    (e5 : s3.m_SphereInstanceNames = s2.m_SphereInstanceNames)
    (e6 : s3.m_CubeInstanceNames = s2.m_CubeInstanceNames)
    (e7 : s3.ctx = s2.ctx) : TLASFrame s s3 :=
  frame_trans h ⟨e1, e2, e3, e4, e5, e6, by rw [e7], by rw [e7]⟩

theorem frame_CreateRayTracingPSO (cfg : Config) (s : State) :
    TLASFrame s (CreateRayTracingPSO cfg s) := by
  have h1 : TLASFrame s
      { s with m_MaxRecursionDepth := min s.m_MaxRecursionDepth cfg.DeviceMaxRecursionDepth } :=
    ⟨rfl, rfl, rfl, rfl, rfl, rfl, rfl, rfl⟩
  have h2 := frame_foldl_emit (fun sh : String × String => Cmd.CreateShader sh.1 sh.2)
    (fun _ => ⟨rfl, rfl⟩) rayTracingShaders
    { s with m_MaxRecursionDepth := min s.m_MaxRecursionDepth cfg.DeviceMaxRecursionDepth }
  exact frame_update (frame_trans (frame_trans h1 h2) (frame_emit _ _ (by rfl) (by rfl)))
    rfl rfl rfl rfl rfl rfl rfl

theorem frame_LoadTextures {cfg : Config} {s s2 : State}
    (h : LoadTextures cfg s = some s2) : TLASFrame s s2 := by
  unfold Tutorial21.LoadTextures at h
  have h1 := frame_foldl_emit
    (fun tex : Nat => Cmd.CreateTextureFromFile ("DGLogo" ++ toString tex ++ ".png"))
    (fun _ => ⟨rfl, rfl⟩) (List.range cfg.NumTextures) s
  simp only [Option.bind_eq_some] at h
  obtain ⟨s1, hs1, hs2⟩ := h
  exact frame_trans (frame_trans h1 (frame_setRayTracingVar hs1))
    (frame_trans (frame_emit _ _ (by rfl) (by rfl)) (frame_setRayTracingVar hs2))

theorem frame_CreateCubeBLAS {cfg : Config} {cubeSize : ℚ} {s s2 : State}
    {blas : IBottomLevelAS} (h : CreateCubeBLAS cfg cubeSize s = some (s2, blas)) :
    TLASFrame s s2 := by
  unfold Tutorial21.CreateCubeBLAS at h
  simp only [Option.bind_eq_some] at h
  obtain ⟨s1, hs1, hs2⟩ := h
  have h1 : TLASFrame s s1 := by
    cases hcb : s.m_CubeAttribsCB with
    | some cb =>
      simp only [hcb, Option.some.injEq] at hs1
      subst hs1
      exact frame_refl s
    | none =>
      simp only [hcb] at hs1
      obtain ⟨srb, _, rfl⟩ := setRayTracingVar_some hs1
      constructor <;> simp [State.emit, builds_append, builds, tlasDescs_append, tlasDescs]
  simp only [Option.some.injEq, Prod.mk.injEq] at hs2
  obtain ⟨rfl, _⟩ := hs2
  refine frame_trans h1 ?_
  constructor <;> simp [State.emit, builds_append, builds, tlasDescs_append, tlasDescs]

theorem frame_CreateProceduralBLAS {cfg : Config} {s s2 : State}
    (h : CreateProceduralBLAS cfg s = some s2) : TLASFrame s s2 := by
  unfold Tutorial21.CreateProceduralBLAS at h
  simp only [Option.bind_eq_some] at h
  obtain ⟨s1, hs1, hs2⟩ := h
  simp only [Option.some.injEq] at hs2
  subst hs2
  obtain ⟨srb, _, rfl⟩ := setRayTracingVar_some hs1
  constructor <;> simp [State.emit, builds_append, builds, tlasDescs_append, tlasDescs]

theorem frame_CreateSBT {s s2 : State} (h : CreateSBT s = some s2) : TLASFrame s s2 := by
  unfold Tutorial21.CreateSBT at h
  simp only [Option.bind_eq_some] at h
  obtain ⟨g1, _, g2, _, hs2⟩ := h
  simp only [Option.some.injEq] at hs2
  subst hs2
  constructor <;> simp [State.emit, builds_append, builds, tlasDescs_append, tlasDescs]

theorem frame_UpdateUI (inp : UIInput) (s : State) : TLASFrame s (UpdateUI inp s) := by
  unfold Tutorial21.UpdateUI
  split
  · exact ⟨rfl, rfl, rfl, rfl, rfl, rfl, rfl, rfl⟩
  · exact frame_refl s

theorem frame_WindowResize (Width Height : Nat) (s : State) :
    TLASFrame s (WindowResize Width Height s) := by
  constructor <;>
    (simp only [Tutorial21.WindowResize]
     split_ifs <;> simp [State.emit, builds_append, builds, tlasDescs_append, tlasDescs])

theorem inv_of_frame {cfg : Config} {s s2 : State} (hinv : TLASInv cfg s)
    (hf : TLASFrame s s2) : TLASInv cfg s2 := by
  have hplaced : Placed cfg s → Placed cfg s2 := fun hp =>
    ⟨by rw [hf.sphereTransforms]; exact hp.sphereTransforms,
     by rw [hf.cubeTransforms]; exact hp.cubeTransforms,
     by rw [hf.cubeIds]; exact hp.cubeIds,
     by rw [hf.sphereNames]; exact hp.sphereNames,
     by rw [hf.cubeNames]; exact hp.cubeNames⟩
  constructor
  · intro tlas h
    rw [hf.tlas] at h
    exact ⟨(hinv.created tlas h).1, hplaced (hinv.created tlas h).2⟩
  · rw [hf.buildsEq]
    exact hinv.counts
  · rw [hf.descsEq]
    exact hinv.descs
  · rw [hf.tlas, hf.buildsEq, hf.descsEq]
    exact hinv.fresh
  · rw [hf.tlas, hf.buildsEq, hf.descsEq]
    exact hinv.flags


theorem builds_createBuffersResult (cfg : Config) (s : State) :
    builds (createBuffersResult cfg s).ctx = builds s.ctx ∧
      tlasDescs (createBuffersResult cfg s).ctx = tlasDescs s.ctx := by
  constructor <;>
    (simp only [createBuffersResult]
     split_ifs <;> simp [builds_append, builds, tlasDescs_append, tlasDescs])

theorem UpdateTLAS_needs_srb (cfg : Config) (s : State) (h1 : s.m_pTLAS = none)
    (h2 : s.m_pRayTracingSRB = none) : UpdateTLAS cfg s = none := by
  simp [UpdateTLAS, createTLAS, State.setRayTracingVar, State.emit, h1, h2]

/-- What one completed `UpdateTLAS` does to a state that satisfies the
invariant: it appends exactly one `BuildTLAS`, of the fixed instance count,
a full build iff there was no TLAS; it creates a TLAS iff there was none. -/
theorem UpdateTLAS_step (cfg : Config) (s s2 : State) (hinv : TLASInv cfg s)
    (h : UpdateTLAS cfg s = some s2) :
    TLASInv cfg s2 ∧
      ∃ a tlas, builds s2.ctx = builds s.ctx ++ [a] ∧
        a.InstanceCount = cfg.NumInstances ∧ a.pInstances.length = cfg.NumInstances ∧
        a.Update = s.m_pTLAS.isSome ∧
        s2.m_pTLAS = some tlas ∧ tlas.Desc.MaxInstanceCount = cfg.NumInstances ∧
        tlasDescs s2.ctx = tlasDescs s.ctx ++
          (if s.m_pTLAS.isSome then []
           else [{ Name := "TLAS", MaxInstanceCount := cfg.NumInstances }]) := by
  cases htlas : s.m_pTLAS with
  | none =>
    cases hsrb : s.m_pRayTracingSRB with
    | none =>
      rw [UpdateTLAS_needs_srb cfg s htlas hsrb] at h
      cases h
    | some srb =>
      rw [UpdateTLAS_create cfg s srb htlas hsrb] at h
      simp only [Option.some.injEq] at h
      subst h
      have hb := (hinv.fresh htlas).1
      have hd := (hinv.fresh htlas).2
      have e1 : builds (buildTLASResult cfg false
          (createBuffersResult cfg (createTLASResult cfg s srb))
          { Desc := { Name := "TLAS", MaxInstanceCount := cfg.NumInstances } }).ctx =
          builds s.ctx ++ [buildAttribs cfg false
            (createBuffersResult cfg (createTLASResult cfg s srb))] := by
        simp only [buildTLASResult, builds_append,
          (builds_createBuffersResult cfg (createTLASResult cfg s srb)).1]
        simp [createTLASResult, builds_append, builds]
      have e2 : tlasDescs (buildTLASResult cfg false
          (createBuffersResult cfg (createTLASResult cfg s srb))
          { Desc := { Name := "TLAS", MaxInstanceCount := cfg.NumInstances } }).ctx =
          tlasDescs s.ctx ++ [{ Name := "TLAS", MaxInstanceCount := cfg.NumInstances }] := by
        simp only [buildTLASResult, tlasDescs_append,
          (builds_createBuffersResult cfg (createTLASResult cfg s srb)).2]
        simp [createTLASResult, tlasDescs_append, tlasDescs]
      refine ⟨?_, _, _, e1, rfl, instanceList_length _ _, rfl, rfl, rfl, by simpa using e2⟩
      constructor
      · intro tlas ht
        simp only [buildTLASResult, Option.some.injEq] at ht
        subst ht
        refine ⟨rfl, ?_⟩
        constructor <;> simp [buildTLASResult, createBuffersResult, createTLASResult, sphereNames,
          cubeNames]
      · intro a ha
        rw [e1, hb] at ha
        simp only [List.nil_append, List.mem_singleton] at ha
        subst ha
        rfl
      · intro desc hdesc
        rw [e2, hd] at hdesc
        simp only [List.nil_append, List.mem_singleton] at hdesc
        subst hdesc
        rfl
      · intro hn
        simp [buildTLASResult] at hn
      · intro _
        rw [e1, e2, hb, hd]
        exact ⟨⟨0, rfl⟩, rfl⟩
  | some tlas =>
    have hc := hinv.created tlas htlas
    rw [UpdateTLAS_update cfg s tlas htlas hc.2] at h
    simp only [Option.some.injEq] at h
    subst h
    have e1 : builds (buildTLASResult cfg true (createBuffersResult cfg s) tlas).ctx =
        builds s.ctx ++ [buildAttribs cfg true (createBuffersResult cfg s)] := by
      simp only [buildTLASResult, builds_append, (builds_createBuffersResult cfg s).1]
      simp [builds]
    have e2 : tlasDescs (buildTLASResult cfg true (createBuffersResult cfg s) tlas).ctx =
        tlasDescs s.ctx := by
      simp only [buildTLASResult, tlasDescs_append, (builds_createBuffersResult cfg s).2]
      simp [tlasDescs]
    have hne : s.m_pTLAS ≠ none := by simp [htlas]
    refine ⟨?_, _, _, e1, rfl, instanceList_length _ _, rfl, rfl, hc.1, by simpa using e2⟩
    constructor
    · intro tlas2 ht
      simp only [buildTLASResult, Option.some.injEq] at ht
      subst ht
      refine ⟨hc.1, ?_⟩
      constructor <;> simp [buildTLASResult, createBuffersResult, sphereNames, cubeNames,
        hc.2.sphereTransforms, hc.2.cubeTransforms, hc.2.cubeIds]
    · intro a ha
      rw [e1] at ha
      simp only [List.mem_append, List.mem_singleton] at ha
      rcases ha with ha | ha
      · exact hinv.counts a ha
      · subst ha
        rfl
    · intro desc hdesc
      rw [e2] at hdesc
      exact hinv.descs desc hdesc
    · intro hn
      simp [buildTLASResult] at hn
    · intro _
      obtain ⟨⟨n, hn⟩, hl⟩ := hinv.flags hne
      rw [e1, e2]
      refine ⟨⟨n + 1, ?_⟩, hl⟩
      rw [List.map_append, hn]
      simp [buildAttribs, List.replicate_succ']

theorem Render_step {cfg : Config} {s s2 : State} (h : Render cfg s = some s2) :
    ∃ s1, UpdateTLAS cfg s = some s1 ∧ TLASFrame s1 s2 := by
  unfold Render at h
  simp only [Option.bind_eq_some] at h
  obtain ⟨s1, hs1, h⟩ := h
  refine ⟨s1, hs1, ?_⟩
  cases hc : s1.m_pColorRT with
  | none => simp [State.emit, hc] at h
  | some rt =>
    simp only [State.emit, hc, Option.bind_eq_some] at h
    obtain ⟨s3, hs3, h⟩ := h
    obtain ⟨srb, _, rfl⟩ := setRayTracingVar_some hs3
    cases hb : s1.m_pImageBlitSRB with
    | none => simp [hb] at h
    | some srb2 =>
      simp only [hb, Option.some.injEq] at h
      subst h
      constructor <;> simp [builds_append, builds, tlasDescs_append, tlasDescs]

theorem Initialize_step {cfg : Config} {s s2 : State} (h : Initialize cfg s = some s2) :
    (cfg.StandaloneShaders = false ∧ TLASFrame s s2) ∨
      ∃ s1 s3, TLASFrame s s1 ∧ UpdateTLAS cfg s1 = some s3 ∧ TLASFrame s3 s2 := by
  unfold Initialize at h
  by_cases hs : cfg.StandaloneShaders = false
  · left
    rw [if_pos hs] at h
    simp only [Option.some.injEq] at h
    subst h
    exact ⟨hs, frame_emit _ _ (by rfl) (by rfl)⟩
  · right
    rw [if_neg hs] at h
    simp only [Option.bind_eq_some] at h
    obtain ⟨s1, h1, ⟨s2a, b1⟩, h2, ⟨s3a, b2⟩, h3, s4, h4, s5, h5, s6, h6, h7⟩ := h
    simp only [Option.some.injEq] at h7
    subst h7
    have f00 : TLASFrame s (createConstantsCB cfg s) :=
      frame_update (frame_emit s _ (by rfl) (by rfl)) rfl rfl rfl rfl rfl rfl rfl
    have f0 := frame_trans (frame_trans f00 (frame_CreateGraphicsPSO _))
      (frame_CreateRayTracingPSO cfg _)
    have f1 := frame_trans f0 (frame_LoadTextures h1)
    have f2 : TLASFrame s { s2a with m_pCubeBLAS := some b1 } :=
      frame_update (frame_trans f1 (frame_CreateCubeBLAS h2)) rfl rfl rfl rfl rfl rfl rfl
    have f3 : TLASFrame s { s3a with m_pSmallCubeBLAS := some b2 } :=
      frame_update (frame_trans f2 (frame_CreateCubeBLAS h3)) rfl rfl rfl rfl rfl rfl rfl
    have f4 := frame_trans f3 (frame_CreateProceduralBLAS h4)
    exact ⟨s4, s5, f4, h5, frame_update (frame_CreateSBT h6) rfl rfl rfl rfl rfl rfl rfl⟩

theorem inv_of_fresh (cfg : Config) (s : State) (h : Fresh s) : TLASInv cfg s := by
  obtain ⟨_, _, _, _, _, _, _, _, _, _, htlas, _, _, _, _, _, _, _, _, _, hctx⟩ := h
  constructor
  · intro tlas ht
    rw [htlas] at ht
    cases ht
  · intro a ha
    rw [hctx] at ha
    simp [builds] at ha
  · intro d hd
    rw [hctx] at hd
    simp [tlasDescs] at hd
  · intro _
    rw [hctx]
    exact ⟨rfl, rfl⟩
  · intro hn
    exact absurd htlas hn

theorem inv_step {cfg : Config} {op : Op} {s s2 : State} (hinv : TLASInv cfg s)
    (h : op.run cfg s = some s2) : TLASInv cfg s2 := by
  cases op with
  | Initialize =>
    rcases Initialize_step h with ⟨_, hf⟩ | ⟨s1, s3, f1, hu, f2⟩
    · exact inv_of_frame hinv hf
    · exact inv_of_frame (UpdateTLAS_step cfg s1 s3 (inv_of_frame hinv f1) hu).1 f2
  | WindowResize w h2 =>
    simp only [Op.run, Option.some.injEq] at h
    subst h
    exact inv_of_frame hinv (frame_WindowResize _ _ _)
  | UpdateUI inp =>
    simp only [Op.run, Option.some.injEq] at h
    subst h
    exact inv_of_frame hinv (frame_UpdateUI _ _)
  | Render =>
    obtain ⟨s1, hu, f⟩ := Render_step h
    exact inv_of_frame (UpdateTLAS_step cfg s s1 hinv hu).1 f
  | UpdateTLAS => exact (UpdateTLAS_step cfg s s2 hinv h).1

theorem inv_run (cfg : Config) (ops : List Op) (s s2 : State) (hinv : TLASInv cfg s)
    (h : runOps cfg ops s = some s2) : TLASInv cfg s2 := by
  induction ops generalizing s with
  | nil =>
    simp only [runOps, Option.some.injEq] at h
    subst h
    exact hinv
  | cons op ops ih =>
    simp only [runOps, Option.bind_eq_some] at h
    obtain ⟨s1, h1, h2⟩ := h
    exact ih s1 (inv_step hinv h1) h2

/-! ## Lemmas on `CreateSBT` -/

theorem sphereBindingLoop_spec (s : State) (g : SBTGen) (n : Nat)
    (hn : n ≤ s.m_SphereInstanceNames.length) :
    forRange n (sphereBinding s) g =
      some { sbt := { g.sbt with bindings := g.sbt.bindings ++
               (List.range n).flatMap (sphereBindingsOf s g.rngDrawn) }
             rngDrawn := g.rngDrawn + n } := by
  induction n with
  | zero => simp [forRange_zero]
  | succ n ih =>
    rw [forRange_succ, ih (by omega)]
    have hg : s.m_SphereInstanceNames[n]? = some s.m_SphereInstanceNames[n] :=
      List.getElem?_eq_getElem (by omega)
    simp only [Option.some_bind, sphereBinding, vecGet, hg, SBTGen.bind]
    simp [List.range_succ, sphereBindingsOf, hg, Nat.add_assoc]

theorem cubeBindingLoop_spec (s : State) (g : SBTGen) (n : Nat)
    (hn : n ≤ s.m_CubeInstanceNames.length) (hi : n ≤ s.m_cubesCustomIds.length) :
    forRange n (cubeBinding s) g =
      some { sbt := { g.sbt with bindings := g.sbt.bindings ++
               (List.range n).map (cubeBindingOf s) }
             rngDrawn := g.rngDrawn } := by
  induction n with
  | zero => simp [forRange_zero]
  | succ n ih =>
    rw [forRange_succ, ih (by omega) (by omega)]
    have hg : s.m_CubeInstanceNames[n]? = some s.m_CubeInstanceNames[n] :=
      List.getElem?_eq_getElem (by omega)
    have hg2 : s.m_cubesCustomIds[n]? = some s.m_cubesCustomIds[n] :=
      List.getElem?_eq_getElem (by omega)
    simp only [Option.some_bind, cubeBinding, vecGet, hg, hg2, SBTGen.bind]
    simp [List.range_succ, cubeBindingOf, hg, hg2]

theorem CreateSBT_spec (s : State)
    (h : s.m_CubeInstanceNames.length ≤ s.m_cubesCustomIds.length) :
    CreateSBT s = some (createSBTResult s) := by
  unfold CreateSBT
  simp only [SBTGen.bind]
  rw [sphereBindingLoop_spec (s.emit (Cmd.CreateSBT "SBT")) _ _ (Nat.le_refl _)]
  simp only [Option.some_bind]
  rw [cubeBindingLoop_spec (s.emit (Cmd.CreateSBT "SBT")) _ _ (Nat.le_refl _) h]
  have e1 : sphereBindingsOf (s.emit (Cmd.CreateSBT "SBT")) = sphereBindingsOf s := rfl
  have e2 : cubeBindingOf (s.emit (Cmd.CreateSBT "SBT")) = cubeBindingOf s := rfl
  rw [e1, e2]
  simp [createSBTResult, sbtBindings, fixedBindings, State.emit]

/-! ## The functions return -/

theorem foldl_emit_eq {α : Type} (f : α → Cmd) (l : List α) (s : State) :
    l.foldl (fun s x => s.emit (f x)) s = { s with ctx := s.ctx ++ l.map f } := by
  induction l generalizing s with
  | nil =>
    cases s
    simp
  | cons x l ih =>
    rw [List.foldl_cons, ih]
    simp [State.emit]

theorem setRayTracingVar_total (s : State) (stage name : String)
    (h : s.m_pRayTracingSRB ≠ none) :
    ∃ s2, s.setRayTracingVar stage name = some s2 ∧ s2.m_pRayTracingSRB ≠ none ∧
      s2.m_pImageBlitSRB = s.m_pImageBlitSRB ∧ s2.m_CubeAttribsCB = s.m_CubeAttribsCB := by
  cases hs : s.m_pRayTracingSRB with
  | none => exact absurd hs h
  | some srb =>
    refine ⟨{ s with m_pRayTracingSRB := some { srb with vars := srb.vars ++ [(stage, name)] } },
      ?_, ?_, rfl, rfl⟩
    · simp only [State.setRayTracingVar, hs]
    · simp

theorem LoadTextures_total (cfg : Config) (s : State) (h : HasPipelines s) :
    ∃ s2, LoadTextures cfg s = some s2 ∧ HasPipelines s2 := by
  unfold LoadTextures
  rw [foldl_emit_eq]
  obtain ⟨s1, h1, h2, h3, _⟩ := setRayTracingVar_total
    { s with ctx := s.ctx ++ (List.range cfg.NumTextures).map fun tex =>
      Cmd.CreateTextureFromFile ("DGLogo" ++ toString tex ++ ".png") }
    "SHADER_TYPE_RAY_CLOSEST_HIT" "g_CubeTextures" h.rayTracing
  obtain ⟨s2, h4, h5, h6, _⟩ := setRayTracingVar_total (s1.emit (Cmd.CreateTextureFromFile "Ground.jpg"))
    "SHADER_TYPE_RAY_CLOSEST_HIT" "g_GroundTexture" h2
  refine ⟨s2, ?_, h5, ?_⟩
  · simp only [h1, Option.some_bind, h4]
  · rw [h6]
    show s1.m_pImageBlitSRB ≠ none
    rw [h3]
    exact h.blit

theorem CreateCubeBLAS_total (cfg : Config) (cubeSize : ℚ) (s : State) (h : HasPipelines s) :
    ∃ s2 blas, CreateCubeBLAS cfg cubeSize s = some (s2, blas) ∧ HasPipelines s2 := by
  unfold CreateCubeBLAS
  cases hcb : s.m_CubeAttribsCB with
  | some cb =>
    simp only [Option.some_bind]
    exact ⟨_, _, rfl, h.rayTracing, h.blit⟩
  | none =>
    obtain ⟨s1, h1, h2, h3, _⟩ := setRayTracingVar_total
      { s.emit (Cmd.CreateBuffer { Name := "Cube Attribs size", Size := cfg.SizeofCubeAttribs } [])
        with m_CubeAttribsCB := some { Name := "Cube Attribs size", Size := cfg.SizeofCubeAttribs } }
      "SHADER_TYPE_RAY_CLOSEST_HIT" "g_CubeAttribsCB" h.rayTracing
    simp only [h1, Option.some_bind]
    refine ⟨_, _, rfl, h2, ?_⟩
    show s1.m_pImageBlitSRB ≠ none
    rw [h3]
    exact h.blit

theorem CreateProceduralBLAS_total (cfg : Config) (s : State) (h : HasPipelines s) :
    ∃ s2, CreateProceduralBLAS cfg s = some s2 ∧ HasPipelines s2 := by
  unfold CreateProceduralBLAS
  obtain ⟨s1, h1, h2, h3, _⟩ := setRayTracingVar_total
    { s.emit (Cmd.CreateBuffer { Name := "AABB Buffer", Size := Boxes.length * cfg.SizeofBoxAttribs }
        Boxes)
      with m_BoxAttribsCB := some { Name := "AABB Buffer", Size := Boxes.length * cfg.SizeofBoxAttribs } }
    "SHADER_TYPE_RAY_INTERSECTION" "g_BoxAttribs" h.rayTracing
  simp only [h1, Option.some_bind]
  refine ⟨_, rfl, h2, ?_⟩
  show s1.m_pImageBlitSRB ≠ none
  rw [h3]
  exact h.blit

/-- `UpdateTLAS` returns: in a state of a run in which the ray-tracing
binding object exists it completes without a fault. -/
theorem UpdateTLAS_total (cfg : Config) (s : State) (hinv : TLASInv cfg s)
    (h : HasPipelines s) :
    ∃ s2, UpdateTLAS cfg s = some s2 ∧ HasPipelines s2 ∧ s2.m_pColorRT = s.m_pColorRT ∧
      s2.m_NumActiveSmallSpheres =
        (if s.m_pTLAS = none ∧ s.m_MaxSmallSpheres = 0 then (cfg.NumSmallSpheres : Int)
         else s.m_NumActiveSmallSpheres) := by
  cases htlas : s.m_pTLAS with
  | none =>
    cases hsrb : s.m_pRayTracingSRB with
    | none => exact absurd hsrb h.rayTracing
    | some srb =>
      refine ⟨_, UpdateTLAS_create cfg s srb htlas hsrb, ⟨?_, ?_⟩, rfl, ?_⟩
      · simp [buildTLASResult, createBuffersResult, createTLASResult]
      · exact h.blit
      · simp [buildTLASResult, createBuffersResult, createTLASResult]
  | some tlas =>
    refine ⟨_, UpdateTLAS_update cfg s tlas htlas (hinv.created tlas htlas).2,
      ⟨h.rayTracing, h.blit⟩, rfl, ?_⟩
    simp [buildTLASResult, createBuffersResult]

theorem CreateSBT_total (cfg : Config) (s : State) (hp : Placed cfg s) (h : HasPipelines s) :
    ∃ s2, CreateSBT s = some s2 ∧ HasPipelines s2 :=
  ⟨_, CreateSBT_spec s (by rw [hp.cubeNames, hp.cubeIds]), h.rayTracing, h.blit⟩

/-- `Initialize` returns in every state of a run. -/
theorem Initialize_total (cfg : Config) (s : State) (hinv : TLASInv cfg s) :
    ∃ s2, Initialize cfg s = some s2 ∧ (cfg.StandaloneShaders = true → HasPipelines s2) := by
  unfold Initialize
  by_cases hs : cfg.StandaloneShaders = false
  · rw [if_pos hs]
    exact ⟨_, rfl, fun h => by rw [hs] at h; cases h⟩
  · rw [if_neg hs]
    have f00 : TLASFrame s (createConstantsCB cfg s) :=
      frame_update (frame_emit s _ (by rfl) (by rfl)) rfl rfl rfl rfl rfl rfl rfl
    have f0 := frame_trans (frame_trans f00 (frame_CreateGraphicsPSO _))
      (frame_CreateRayTracingPSO cfg _)
    have r0 : HasPipelines (CreateRayTracingPSO cfg (CreateGraphicsPSO (createConstantsCB cfg s))) := by
      constructor
      · simp [CreateRayTracingPSO]
      · simp only [CreateRayTracingPSO, foldl_emit_eq]
        simp [CreateGraphicsPSO, State.emit]
    obtain ⟨s1, h1, r1⟩ := LoadTextures_total cfg _ r0
    obtain ⟨s2, b1, h2, r2⟩ := CreateCubeBLAS_total cfg 2 s1 r1
    have r2' : HasPipelines { s2 with m_pCubeBLAS := some b1 } := ⟨r2.rayTracing, r2.blit⟩
    obtain ⟨s3, b2, h3, r3⟩ := CreateCubeBLAS_total cfg (1 / 2) _ r2'
    have r3' : HasPipelines { s3 with m_pSmallCubeBLAS := some b2 } := ⟨r3.rayTracing, r3.blit⟩
    obtain ⟨s4, h4, r4⟩ := CreateProceduralBLAS_total cfg _ r3'
    have f1 := frame_trans f0 (frame_LoadTextures h1)
    have f2 : TLASFrame s { s2 with m_pCubeBLAS := some b1 } :=
      frame_update (frame_trans f1 (frame_CreateCubeBLAS h2)) rfl rfl rfl rfl rfl rfl rfl
    have f3 : TLASFrame s { s3 with m_pSmallCubeBLAS := some b2 } :=
      frame_update (frame_trans f2 (frame_CreateCubeBLAS h3)) rfl rfl rfl rfl rfl rfl rfl
    have f4 := frame_trans f3 (frame_CreateProceduralBLAS h4)
    have hinv4 := inv_of_frame hinv f4
    obtain ⟨s5, h5, r5, _⟩ := UpdateTLAS_total cfg s4 hinv4 r4
    obtain ⟨hinv5, _, tlas, _, _, _, _, ht5, _⟩ := UpdateTLAS_step cfg s4 s5 hinv4 h5
    obtain ⟨s6, h6, r6⟩ := CreateSBT_total cfg s5 (hinv5.created tlas ht5).2 r5
    simp only [h1, h2, h3, h4, h5, h6, Option.some_bind]
    exact ⟨_, rfl, fun _ => ⟨r6.rayTracing, r6.blit⟩⟩

/-- `Render` returns in every state of a run in which the pipelines and the
colour image exist. -/
theorem Render_total (cfg : Config) (s : State) (hinv : TLASInv cfg s) (h : HasPipelines s)
    (hc : s.m_pColorRT ≠ none) :
    ∃ s2, Render cfg s = some s2 ∧ HasPipelines s2 ∧ s2.m_pColorRT = s.m_pColorRT := by
  obtain ⟨s1, h1, r1, c1, _⟩ := UpdateTLAS_total cfg s hinv h
  unfold Render
  simp only [h1, Option.some_bind]
  cases hcol : s1.m_pColorRT with
  | none => rw [c1] at hcol; exact absurd hcol hc
  | some rt =>
    cases hrt : s1.m_pRayTracingSRB with
    | none => exact absurd hrt r1.rayTracing
    | some srb =>
      cases hb : s1.m_pImageBlitSRB with
      | none => exact absurd hb r1.blit
      | some srb2 =>
        simp only [State.emit, hcol, State.setRayTracingVar, hrt, hb, Option.some_bind]
        refine ⟨_, rfl, ⟨by simp, by simp⟩, ?_⟩
        simp only [hcol, c1.symm]

/-! ## Claims C1 to C3: instance count and TLAS life cycle -/

theorem eq_some_getD {α : Type} (o : Option α) (dflt : α) (h : o.isSome = true) :
    o = some (o.getD dflt) := by
  cases o with
  | none => cases h
  | some x => rfl

theorem exampleFresh_fresh : Fresh exampleFresh :=
  ⟨rfl, rfl, rfl, rfl, rfl, rfl, rfl, rfl, rfl, rfl, rfl, rfl, rfl, rfl, rfl, rfl, rfl, rfl, rfl,
    rfl, rfl⟩

theorem exampleInitialized_run :
    runOps exampleConfig [Op.Initialize] exampleFresh = some exampleInitialized := by
  have h : (Initialize exampleConfig exampleFresh).isSome = true := by decide!
  simp only [runOps, Op.run]
  rw [eq_some_getD _ exampleFresh h]
  rfl

theorem exampleInitialized_srb : exampleInitialized.m_pRayTracingSRB ≠ none := by decide!

theorem UpdateTLAS_returns (cfg : Config) (s : State) (hinv : TLASInv cfg s)
    (h : s.m_pRayTracingSRB ≠ none) : ∃ s2, UpdateTLAS cfg s = some s2 := by
  cases htlas : s.m_pTLAS with
  | none =>
    cases hsrb : s.m_pRayTracingSRB with
    | none => exact absurd hsrb h
    | some srb => exact ⟨_, UpdateTLAS_create cfg s srb htlas hsrb⟩
  | some tlas => exact ⟨_, UpdateTLAS_update cfg s tlas htlas (hinv.created tlas htlas).2⟩

/-- C1: in every state of a run (any sequence of `Initialize`, `WindowResize`,
`UpdateUI`, `Render` and `UpdateTLAS` calls on a fresh sample, with `a`, `b`,
`c`, `d` fixed) in which the ray-tracing binding object exists, an invocation
of `UpdateTLAS` returns and issues exactly one `BuildTLAS`, with
`InstanceCount = 4 + N_spheres + N_cubes` where `N_spheres = 4*a*b` and
`N_cubes = 4*c*d`; the TLAS has that `MaxInstanceCount`, every `CreateTLAS`
of the run was made with it, and every `BuildTLAS` of the run, the initial
build included, passed the same `InstanceCount`. -/
theorem C1_instance_count_fixed (cfg : Config) (s0 : State) (ops : List Op) (s : State)
    (hfresh : Fresh s0) (hrun : runOps cfg ops s0 = some s)
    (hsrb : s.m_pRayTracingSRB ≠ none) :
    cfg.NumSmallSpheres = 4 * cfg.a * cfg.b ∧ cfg.NumSmallCubes = 4 * cfg.c * cfg.d ∧
    ∃ s2 a tlas, UpdateTLAS cfg s = some s2 ∧ builds s2.ctx = builds s.ctx ++ [a] ∧
      a.InstanceCount = 4 + 4 * cfg.a * cfg.b + 4 * cfg.c * cfg.d ∧
      s2.m_pTLAS = some tlas ∧ tlas.Desc.MaxInstanceCount = a.InstanceCount ∧
      (∀ desc, desc ∈ tlasDescs s2.ctx → desc.MaxInstanceCount = a.InstanceCount) ∧
      (∀ b, b ∈ builds s2.ctx → b.InstanceCount = a.InstanceCount) := by
  have e1 : cfg.NumSmallSpheres = 4 * cfg.a * cfg.b := by
    simp only [Config.NumSmallSpheres]
    ring
  have e2 : cfg.NumSmallCubes = 4 * cfg.c * cfg.d := by
    simp only [Config.NumSmallCubes]
    ring
  have eN : cfg.NumInstances = 4 + 4 * cfg.a * cfg.b + 4 * cfg.c * cfg.d := by
    rw [Config.NumInstances, e1, e2]
  have hinv := inv_run cfg ops s0 s (inv_of_fresh cfg s0 hfresh) hrun
  obtain ⟨s2, h2⟩ := UpdateTLAS_returns cfg s hinv hsrb
  obtain ⟨hinv2, a, tlas, hb, hcount, _, _, htlas, hmax, _⟩ := UpdateTLAS_step cfg s s2 hinv h2
  refine ⟨e1, e2, s2, a, tlas, h2, hb, by rw [hcount, eN], htlas, by rw [hmax, hcount], ?_, ?_⟩
  · intro desc hdesc
    rw [hinv2.descs desc hdesc, hcount]
  · intro b hb2
    rw [hinv2.counts b hb2, hcount]

/-- C1, checked on the example: after `Initialize` with `a = b = c = d = 1` an
invocation of `UpdateTLAS` passes `InstanceCount = 12`. -/
theorem C1_instance_count_fixed_witness :
    ∃ s2 a tlas, UpdateTLAS exampleConfig exampleInitialized = some s2 ∧
      builds s2.ctx = builds exampleInitialized.ctx ++ [a] ∧
      a.InstanceCount = 4 + 4 * 1 * 1 + 4 * 1 * 1 ∧
      s2.m_pTLAS = some tlas ∧ tlas.Desc.MaxInstanceCount = a.InstanceCount ∧
      (∀ desc, desc ∈ tlasDescs s2.ctx → desc.MaxInstanceCount = a.InstanceCount) ∧
      (∀ b, b ∈ builds s2.ctx → b.InstanceCount = a.InstanceCount) :=
  (C1_instance_count_fixed exampleConfig exampleFresh [Op.Initialize] exampleInitialized
    exampleFresh_fresh exampleInitialized_run exampleInitialized_srb).2.2

/-- C2: `UpdateTLAS` follows `Uninitialized -> Built -> Updated -> Updated ...`.
In every state of a run the `Update` flags of the `BuildTLAS` calls issued so
far are either none (no TLAS yet) or `false` followed by `true`s (TLAS
present), and an invocation of `UpdateTLAS` that returns appends exactly one
flag: when it finds no TLAS it creates one and issues the full build
(`Update = false`), and when it finds the TLAS it creates nothing and issues
an update (`Update = true`). -/
theorem C2_state_machine (cfg : Config) (s0 : State) (ops : List Op) (s s2 : State)
    (hfresh : Fresh s0) (hrun : runOps cfg ops s0 = some s)
    (hupd : UpdateTLAS cfg s = some s2) :
    s2.m_pTLAS ≠ none ∧
    ((s.m_pTLAS = none ∧ (builds s.ctx).map (fun a => a.Update) = [] ∧
        tlasDescs s.ctx = [] ∧
        (builds s2.ctx).map (fun a => a.Update) = [false] ∧
        tlasDescs s2.ctx = [{ Name := "TLAS", MaxInstanceCount := cfg.NumInstances }]) ∨
     (s.m_pTLAS ≠ none ∧ tlasDescs s2.ctx = tlasDescs s.ctx ∧
        ∃ n, (builds s.ctx).map (fun a => a.Update) = false :: List.replicate n true ∧
          (builds s2.ctx).map (fun a => a.Update) = false :: List.replicate (n + 1) true)) := by
  have hinv := inv_run cfg ops s0 s (inv_of_fresh cfg s0 hfresh) hrun
  obtain ⟨_, a, tlas, hb, _, _, hupdate, htlas, _, hdescs⟩ := UpdateTLAS_step cfg s s2 hinv hupd
  refine ⟨by rw [htlas]; simp, ?_⟩
  cases hs : s.m_pTLAS with
  | none =>
    left
    have hf := hinv.fresh hs
    rw [hs] at hupdate hdescs
    refine ⟨rfl, by rw [hf.1]; rfl, hf.2, ?_, ?_⟩
    · rw [hb, hf.1]
      simpa using hupdate
    · rw [hdescs, hf.2]
      rfl
  | some t =>
    right
    have hne : s.m_pTLAS ≠ none := by rw [hs]; simp
    obtain ⟨⟨n, hn⟩, _⟩ := hinv.flags hne
    rw [hs] at hupdate hdescs
    refine ⟨by simp, by simpa using hdescs, n, hn, ?_⟩
    rw [hb, List.map_append, hn]
    simp [hupdate, List.replicate_succ']


theorem exampleUpdated_eq :
    UpdateTLAS exampleConfig exampleInitialized = some exampleUpdated := by
  have h : (UpdateTLAS exampleConfig exampleInitialized).isSome = true := by decide!
  rw [eq_some_getD _ exampleFresh h]
  rfl

/-- C2, checked on the example: the `UpdateTLAS` that follows `Initialize`
finds the TLAS and issues an update. -/
theorem C2_state_machine_witness :
    exampleUpdated.m_pTLAS ≠ none ∧
    ((exampleInitialized.m_pTLAS = none ∧
        (builds exampleInitialized.ctx).map (fun a => a.Update) = [] ∧
        tlasDescs exampleInitialized.ctx = [] ∧
        (builds exampleUpdated.ctx).map (fun a => a.Update) = [false] ∧
        tlasDescs exampleUpdated.ctx =
          [{ Name := "TLAS", MaxInstanceCount := exampleConfig.NumInstances }]) ∨
     (exampleInitialized.m_pTLAS ≠ none ∧
        tlasDescs exampleUpdated.ctx = tlasDescs exampleInitialized.ctx ∧
        ∃ n, (builds exampleInitialized.ctx).map (fun a => a.Update) =
            false :: List.replicate n true ∧
          (builds exampleUpdated.ctx).map (fun a => a.Update) =
            false :: List.replicate (n + 1) true)) :=
  C2_state_machine exampleConfig exampleFresh [Op.Initialize] exampleInitialized exampleUpdated
    exampleFresh_fresh exampleInitialized_run exampleUpdated_eq

theorem buildLog_eq (ctx : List Cmd) :
    buildLog ctx = (builds ctx).map fun a => (a.Update, a.InstanceCount) := rfl

theorem WindowResize_color (Width Height : Nat) (s : State) (hw : 0 < Width) (hh : 0 < Height)
    (hp : HasPipelines s) :
    (WindowResize Width Height s).m_pColorRT ≠ none ∧ HasPipelines (WindowResize Width Height s) := by
  have h0 : ¬ (Width = 0 ∨ Height = 0) := by omega
  unfold WindowResize
  rw [if_neg h0]
  by_cases hc : (Option.any (fun t => decide (t.Width = Width ∧ t.Height = Height))
      s.m_pColorRT) = true
  · simp only [hc, if_true]
    refine ⟨?_, hp.rayTracing, hp.blit⟩
    cases hcol : s.m_pColorRT with
    | none => simp [hcol] at hc
    | some t => simp
  · simp only [hc]
    exact ⟨by simp, hp.rayTracing, hp.blit⟩

/-- C3 as stated fails: in the example (`a = b = c = d = 1`) the first call
of `Render` after `Initialize` issues exactly one `BuildTLAS`, and it is an
update (`Update = true`, `InstanceCount = 12`), not a full build. -/
theorem C3_first_frame_counterexample :
    (Render exampleConfig (WindowResize 1280 720 exampleInitialized)).map
        (fun s => (buildLog s.ctx).drop (buildLog exampleInitialized.ctx).length) =
      some [(true, 12)] ∧
    (Render exampleConfig (WindowResize 1280 720 exampleInitialized)).map
        (fun s => (buildLog s.ctx).drop (buildLog exampleInitialized.ctx).length) ≠
      some [(false, 12)] := by
  decide!

/-- C3, amended: with `a = b = c = d = 1` on a device with ray tracing,
`Initialize` itself issues the full TLAS build (`Update = false`) with
`InstanceCount = 12`; the first and the second call of `Render` each issue
exactly one `BuildTLAS`, an update (`Update = true`) with the identical
`InstanceCount = 12`. -/
theorem C3_end_to_end (cfg : Config) (s0 : State) (Width Height : Nat) (hfresh : Fresh s0)
    (ha : cfg.a = 1) (hb : cfg.b = 1) (hc : cfg.c = 1) (hd : cfg.d = 1)
    (hsup : cfg.StandaloneShaders = true) (hw : 0 < Width) (hh : 0 < Height) :
    ∃ s1 s2 s3, Initialize cfg s0 = some s1 ∧
      Render cfg (WindowResize Width Height s1) = some s2 ∧ Render cfg s2 = some s3 ∧
      buildLog s1.ctx = [(false, 12)] ∧
      buildLog s2.ctx = [(false, 12), (true, 12)] ∧
      buildLog s3.ctx = [(false, 12), (true, 12), (true, 12)] := by
  have hN : cfg.NumInstances = 12 := by
    simp [Config.NumInstances, Config.NumSmallSpheres, Config.NumSmallCubes, ha, hb, hc, hd]
  have hinv0 := inv_of_fresh cfg s0 hfresh
  have htlas0 : s0.m_pTLAS = none := hfresh.2.2.2.2.2.2.2.2.2.2.1
  obtain ⟨s1, h1, hp1⟩ := Initialize_total cfg s0 hinv0
  have hp1 := hp1 hsup
  have hinv1 : TLASInv cfg s1 :=
    inv_step hinv0 (show Op.run cfg Op.Initialize s0 = some s1 from h1)
  have hlog1 : buildLog s1.ctx = [(false, 12)] ∧ s1.m_pTLAS ≠ none := by
    rcases Initialize_step h1 with ⟨hns, _⟩ | ⟨sa, sb, fa, hu, fb⟩
    · rw [hsup] at hns
      cases hns
    · have hinva := inv_of_frame hinv0 fa
      obtain ⟨_, a, tlas, hbs, hcount, _, hupdate, htl, _, _⟩ := UpdateTLAS_step cfg sa sb hinva hu
      have hnone : sa.m_pTLAS = none := by rw [fa.tlas]; exact htlas0
      rw [hnone] at hupdate
      refine ⟨?_, by rw [fb.tlas, htl]; simp⟩
      rw [buildLog_eq, fb.buildsEq, hbs, (hinva.fresh hnone).1]
      simp only [List.nil_append, List.map_cons, List.map_nil, hcount, hN]
      simp [hupdate]
  obtain ⟨hcol, hp1r⟩ := WindowResize_color Width Height s1 hw hh hp1
  have hf1 := frame_WindowResize Width Height s1
  have hinv1r := inv_of_frame hinv1 hf1
  obtain ⟨s2, h2, hp2, hc2⟩ := Render_total cfg _ hinv1r hp1r hcol
  obtain ⟨sa, hua, fa⟩ := Render_step h2
  obtain ⟨hinva, a, tlasa, hba, hcounta, _, hupda, htla, _, _⟩ :=
    UpdateTLAS_step cfg _ sa hinv1r hua
  have hsome1 : (WindowResize Width Height s1).m_pTLAS.isSome = true := by
    rw [hf1.tlas]
    cases hx : s1.m_pTLAS with
    | none => exact absurd hx hlog1.2
    | some t => rfl
  have hlog2 : buildLog s2.ctx = [(false, 12), (true, 12)] := by
    rw [buildLog_eq, fa.buildsEq, hba, hf1.buildsEq, List.map_append, ← buildLog_eq, hlog1.1]
    simp [hcounta, hN, hupda, hsome1]
  have hinv2 := inv_of_frame hinva fa
  have hcol2 : s2.m_pColorRT ≠ none := by rw [hc2]; exact hcol
  obtain ⟨s3, h3, _, _⟩ := Render_total cfg s2 hinv2 hp2 hcol2
  obtain ⟨sb, hub, fb⟩ := Render_step h3
  obtain ⟨_, b, tlasb, hbb, hcountb, _, hupdb, _, _, _⟩ := UpdateTLAS_step cfg s2 sb hinv2 hub
  have hsome2 : s2.m_pTLAS.isSome = true := by
    rw [fa.tlas, htla]
    rfl
  refine ⟨s1, s2, s3, h1, h2, h3, hlog1.1, hlog2, ?_⟩
  rw [buildLog_eq, fb.buildsEq, hbb, List.map_append, ← buildLog_eq, hlog2]
  simp [hcountb, hN, hupdb, hsome2]

/-- C3 amended, checked on the example at 1280 x 720. -/
theorem C3_end_to_end_witness :
    ∃ s1 s2 s3, Initialize exampleConfig exampleFresh = some s1 ∧
      Render exampleConfig (WindowResize 1280 720 s1) = some s2 ∧
      Render exampleConfig s2 = some s3 ∧
      buildLog s1.ctx = [(false, 12)] ∧
      buildLog s2.ctx = [(false, 12), (true, 12)] ∧
      buildLog s3.ctx = [(false, 12), (true, 12), (true, 12)] :=
  C3_end_to_end exampleConfig exampleFresh 1280 720 exampleFresh_fresh rfl rfl rfl rfl rfl
    (by decide) (by decide)

/-! ## Claim C4: visibility toggling -/

theorem instanceList_sphere (cfg : Config) (s : State) (i : Nat) (hi : i < cfg.NumSmallSpheres) :
    (instanceList cfg s)[4 + i]? = some (sphereInstanceOf cfg s 4 i) := by
  have h4 : (mainInstanceList cfg s).length = 4 := rfl
  unfold instanceList
  rw [List.getElem?_append_left (by simp [h4]; omega),
    List.getElem?_append_right (by rw [h4]; omega)]
  simp [h4, hi]

theorem instanceList_cube (cfg : Config) (s : State) (i : Nat) (hi : i < cfg.NumSmallCubes) :
    (instanceList cfg s)[4 + cfg.NumSmallSpheres + i]? =
      some (cubeInstanceOf cfg s (4 + cfg.NumSmallSpheres) i) := by
  have h4 : (mainInstanceList cfg s).length = 4 := rfl
  unfold instanceList
  rw [List.getElem?_append_right (by simp [h4])]
  simp [h4, hi]

theorem exampleInitialized_tlas : exampleInitialized.m_pTLAS ≠ none := by decide!

theorem pyramidCells_length : pyramidCells.length = 49 := by decide

theorem first_UpdateTLAS (cfg : Config) (s : State) (htlas : s.m_pTLAS = none)
    (hsrb : s.m_pRayTracingSRB ≠ none) :
    ∃ s2, UpdateTLAS cfg s = some s2 ∧
      s2.m_SmallSphereTransforms = (List.range cfg.NumSmallSpheres).map spiralTransform ∧
      s2.m_SmallCubeTransforms = (List.range cfg.NumSmallCubes).map cubeTransform ∧
      s2.m_cubesCustomIds = (List.range cfg.NumSmallCubes).map (cubeMaterial cfg.NumSmallCubes) := by
  cases h : s.m_pRayTracingSRB with
  | none => exact absurd h hsrb
  | some srb => exact ⟨_, UpdateTLAS_create cfg s srb htlas h, rfl, rfl, rfl⟩

theorem getElem?_map_range {α : Type} (f : Nat → α) (n i : Nat) (h : i < n) :
    ((List.range n).map f)[i]? = some (f i) := by
  simp [h]

/-- C5 as stated fails: with `c = d = 4` (64 small cubes) the first
`UpdateTLAS`, run by `Initialize`, stores material id 2 for cube 50, although
`0.6 <= 50/64 < 0.85` asks for id 1. -/
theorem C5_cube_material_counterexample :
    (6 / 10 : ℚ) ≤ 50 / 64 ∧ (50 / 64 : ℚ) < 85 / 100 ∧
    pyramidConfig.NumSmallCubes = 64 ∧
    (Initialize pyramidConfig exampleFresh).map (fun s => s.m_cubesCustomIds[50]?) =
      some (some 2) := by
  decide!

/-- C5, amended: the first `UpdateTLAS` returns and stores, for every cube
`i < N_cubes` that belongs to the pyramid (`i < 49`), the material id chosen
by the normalized index `i / N_cubes` (0 if below 0.6, 1 if from 0.6 and
below 0.85, 2 otherwise), and for every cube of the fallback grid
(`49 <= i < N_cubes`) the id `i mod 3`. -/
theorem C5_cube_material (cfg : Config) (s : State) (htlas : s.m_pTLAS = none)
    (hsrb : s.m_pRayTracingSRB ≠ none) :
    ∃ s2, UpdateTLAS cfg s = some s2 ∧
      ∀ i, i < cfg.NumSmallCubes →
        (i < 49 →
          ((i : ℚ) / cfg.NumSmallCubes < 6 / 10 → s2.m_cubesCustomIds[i]? = some 0) ∧
          (6 / 10 ≤ (i : ℚ) / cfg.NumSmallCubes → (i : ℚ) / cfg.NumSmallCubes < 85 / 100 →
            s2.m_cubesCustomIds[i]? = some 1) ∧
          (85 / 100 ≤ (i : ℚ) / cfg.NumSmallCubes → s2.m_cubesCustomIds[i]? = some 2)) ∧
        (49 ≤ i → s2.m_cubesCustomIds[i]? = some (i % 3)) := by
  obtain ⟨s2, h2, _, _, hids⟩ := first_UpdateTLAS cfg s htlas hsrb
  refine ⟨s2, h2, ?_⟩
  intro i hi
  rw [hids, getElem?_map_range _ _ _ hi]
  constructor
  · intro h49
    have hlt : i < pyramidCells.length := by rw [pyramidCells_length]; exact h49
    simp only [cubeMaterial, hlt, if_true, pyramidMaterial_exact i _ h49, Option.some.injEq]
    refine ⟨?_, ?_, ?_⟩
    · intro h
      simp [h]
    · intro h1 h2
      simp [not_lt.mpr h1, h2]
    · intro h
      have h1 : ¬ (i : ℚ) / cfg.NumSmallCubes < 85 / 100 := not_lt.mpr h
      have h2 : ¬ (i : ℚ) / cfg.NumSmallCubes < 6 / 10 :=
        not_lt.mpr (le_trans (by norm_num) h)
      simp [h1, h2]
  · intro h49
    have hlt : ¬ i < pyramidCells.length := by rw [pyramidCells_length]; omega
    simp [cubeMaterial, hlt]

theorem exampleReady_tlas : exampleReady.m_pTLAS = none := rfl

theorem exampleReady_srb : exampleReady.m_pRayTracingSRB ≠ none := by
  simp [exampleReady]

/-- C5 amended, checked on the example state with 64 small cubes. -/
theorem C5_cube_material_witness :
    ∃ s2, UpdateTLAS pyramidConfig exampleReady = some s2 ∧
      ∀ i, i < pyramidConfig.NumSmallCubes →
        (i < 49 →
          ((i : ℚ) / pyramidConfig.NumSmallCubes < 6 / 10 → s2.m_cubesCustomIds[i]? = some 0) ∧
          (6 / 10 ≤ (i : ℚ) / pyramidConfig.NumSmallCubes →
            (i : ℚ) / pyramidConfig.NumSmallCubes < 85 / 100 →
            s2.m_cubesCustomIds[i]? = some 1) ∧
          (85 / 100 ≤ (i : ℚ) / pyramidConfig.NumSmallCubes →
            s2.m_cubesCustomIds[i]? = some 2)) ∧
        (49 ≤ i → s2.m_cubesCustomIds[i]? = some (i % 3)) :=
  C5_cube_material pyramidConfig exampleReady exampleReady_tlas exampleReady_srb

/-- C6: the cube material ids are a function of `i` and `N_cubes` alone: two
runs of the first `UpdateTLAS` with the same `N_cubes` both return and store
the same material id for every cube, whatever the two configurations (`a`,
`b`, and how `N_cubes` factors into `c` and `d`) and the two start states
(slider members, generator, earlier vector contents) are. -/
theorem C6_cube_material_deterministic (cfg1 cfg2 : Config) (s1 s2 : State)
    (hN : cfg1.NumSmallCubes = cfg2.NumSmallCubes)
    (htlas1 : s1.m_pTLAS = none) (hsrb1 : s1.m_pRayTracingSRB ≠ none)
    (htlas2 : s2.m_pTLAS = none) (hsrb2 : s2.m_pRayTracingSRB ≠ none) :
    ∃ t1 t2, UpdateTLAS cfg1 s1 = some t1 ∧ UpdateTLAS cfg2 s2 = some t2 ∧
      t1.m_cubesCustomIds = t2.m_cubesCustomIds ∧
      ∀ i, i < cfg1.NumSmallCubes →
        ∃ id, t1.m_cubesCustomIds[i]? = some id ∧ t2.m_cubesCustomIds[i]? = some id := by
  obtain ⟨t1, h1, _, _, hids1⟩ := first_UpdateTLAS cfg1 s1 htlas1 hsrb1
  obtain ⟨t2, h2, _, _, hids2⟩ := first_UpdateTLAS cfg2 s2 htlas2 hsrb2
  have heq : t1.m_cubesCustomIds = t2.m_cubesCustomIds := by rw [hids1, hids2, hN]
  refine ⟨t1, t2, h1, h2, heq, ?_⟩
  intro i hi
  refine ⟨cubeMaterial cfg1.NumSmallCubes i, ?_, ?_⟩
  · rw [hids1, getElem?_map_range _ _ _ hi]
  · rw [← heq, hids1, getElem?_map_range _ _ _ hi]

theorem exampleReadyOther_srb : exampleReadyOther.m_pRayTracingSRB ≠ none := by
  simp [exampleReadyOther, exampleReady]

/-- C6, checked on two example runs that differ in `a`, `b`, the sliders, the
generator position and the earlier vector contents. -/
theorem C6_cube_material_deterministic_witness :
    ∃ t1 t2, UpdateTLAS exampleConfig exampleReady = some t1 ∧
      UpdateTLAS manySpheresConfig exampleReadyOther = some t2 ∧
      t1.m_cubesCustomIds = t2.m_cubesCustomIds ∧
      ∀ i, i < exampleConfig.NumSmallCubes →
        ∃ id, t1.m_cubesCustomIds[i]? = some id ∧ t2.m_cubesCustomIds[i]? = some id :=
  C6_cube_material_deterministic exampleConfig manySpheresConfig exampleReady exampleReadyOther
    rfl exampleReady_tlas exampleReady_srb rfl exampleReadyOther_srb

/-! ## Claim C7: spiral placement of the spheres -/

theorem spiralTransform_eq (i : Nat) :
    spiralTransform i =
      { rotation := float3x3.Identity
        translation :=
          ⟨FloatVal.mulCos (spiralRadio i) (spiralAngulo i), FloatVal.rat (spiralY i),
           FloatVal.mulSin (spiralRadio i) (spiralAngulo i)⟩ } :=
  rfl

theorem roundFloat_half_natCast (n : Nat) (h : n < 2 ^ 24) :
    roundFloat (1 / 2 * (n : ℚ)) = (n : ℚ) / 2 := by
  have := roundFloat_dyadic (n : Int) (-1) (by rw [Nat.abs_cast]; exact_mod_cast h) (by norm_num)
  have e : ((n : Int) : ℚ) * 2 ^ (-1 : Int) = 1 / 2 * (n : ℚ) := by
    rw [zpow_neg, zpow_one]
    push_cast
    ring
  rw [e] at this
  rw [this]
  ring

theorem spiralAngulo_eq (i : Nat) (h : i < 2 ^ 24) : spiralAngulo i = (i : ℚ) / 2 := by
  unfold spiralAngulo incremento_angulo
  rw [roundFloat_natCast i h, roundFloat_half_natCast i h]

theorem spiralRadio_error (i : Nat) (h : i < 2 ^ 24) :
    |spiralRadio i - (5 + 3 / 10 * (i : ℚ))| ≤ (5 + 3 / 10 * (i : ℚ)) / 2 ^ 22 := by
  unfold spiralRadio radio_inicial incremento_radio
  rw [roundFloat_natCast i h, float_literals.1]
  have hi : (0 : ℚ) ≤ (i : ℚ) := Nat.cast_nonneg i
  have e1 := roundFloat_error (5033165 / 16777216 * (i : ℚ))
  have e2 := roundFloat_error (5 + roundFloat (5033165 / 16777216 * (i : ℚ)))
  generalize roundFloat (5033165 / 16777216 * (i : ℚ)) = p at e1 e2
  generalize roundFloat (5 + p) = r at e2
  rw [abs_of_nonneg (by positivity : (0 : ℚ) ≤ 5033165 / 16777216 * (i : ℚ))] at e1
  rw [abs_le] at e1
  have hs : (0 : ℚ) ≤ 5 + p := by
    have := e1.1
    norm_num at this ⊢
    nlinarith
  rw [abs_of_nonneg hs, abs_le] at e2
  rw [abs_le]
  norm_num at e1 e2 ⊢
  constructor <;> nlinarith [e1.1, e1.2, e2.1, e2.2]

theorem spiralY_error (i : Nat) (h : i < 2 ^ 24) :
    |spiralY i - (-55 / 10 + 5 / 100 * (i : ℚ))| ≤ (55 / 10 + 5 / 100 * (i : ℚ)) / 2 ^ 22 := by
  unfold spiralY altura_base
  rw [roundFloat_natCast i h, float_literals.2.1]
  have hi : (0 : ℚ) ≤ (i : ℚ) := Nat.cast_nonneg i
  have e1 := roundFloat_error ((i : ℚ) * (13421773 / 268435456))
  have e2 := roundFloat_error (-55 / 10 + roundFloat ((i : ℚ) * (13421773 / 268435456)))
  generalize roundFloat ((i : ℚ) * (13421773 / 268435456)) = p at e1 e2
  generalize roundFloat (-55 / 10 + p) = r at e2
  rw [abs_of_nonneg (by positivity : (0 : ℚ) ≤ (i : ℚ) * (13421773 / 268435456))] at e1
  rw [abs_le] at e1
  have hs : |(-55 / 10 + p : ℚ)| ≤ 55 / 10 + p + 1 / 2 ^ 149 := by
    rw [abs_le]
    have := e1.1
    norm_num at this ⊢
    constructor <;> linarith
  rw [abs_le] at e2 ⊢
  norm_num at e1 e2 hs ⊢
  constructor <;> linarith [e1.1, e1.2, e2.1, e2.2]

theorem spiralY_increasing (i : Nat) (h : i + 1 ≤ 2 ^ 20) : spiralY i < spiralY (i + 1) := by
  have a := spiralY_error i (by omega)
  have b := spiralY_error (i + 1) (by omega)
  have hi : ((i : ℚ) + 1) ≤ 2 ^ 20 := by exact_mod_cast h
  have hi0 : (0 : ℚ) ≤ (i : ℚ) := Nat.cast_nonneg i
  rw [abs_le] at a b
  push_cast at b
  norm_num at a b hi
  linarith [a.1, a.2, b.1, b.2]

theorem spiralY_lt (i j : Nat) (hij : i < j) (hj : j ≤ 2 ^ 20) : spiralY i < spiralY j := by
  induction j with
  | zero => exact absurd hij (Nat.not_lt_zero i)
  | succ j ih =>
    have hstep := spiralY_increasing j hj
    rcases Nat.lt_succ_iff_lt_or_eq.mp hij with h | h
    · exact lt_trans (ih h (by omega)) hstep
    · rw [h]
      exact hstep

/-- C7 as stated fails: the first `UpdateTLAS` of the example sample stores
for sphere 1 the height `-5714739/1048576` and the radius `5557453/1048576`,
the single-precision results, which are not `-5.5 + 0.05*1` and not
`5.0 + 0.3*1`. -/
theorem C7_spiral_rounding_counterexample :
    ∃ t, UpdateTLAS exampleConfig exampleReady = some t ∧
      1 < exampleConfig.NumSmallSpheres ∧
      t.m_SmallSphereTransforms[1]? = some
        { rotation := float3x3.Identity
          translation :=
            ⟨FloatVal.mulCos (5557453 / 1048576) (1 / 2), FloatVal.rat (-5714739 / 1048576),
             FloatVal.mulSin (5557453 / 1048576) (1 / 2)⟩ } ∧
      (-5714739 / 1048576 : ℚ) ≠ -55 / 10 + 5 / 100 * ((1 : Nat) : ℚ) ∧
      (5557453 / 1048576 : ℚ) ≠ 5 + 3 / 10 * ((1 : Nat) : ℚ) ∧
      t.m_SmallSphereTransforms[1]? ≠ some
        { rotation := float3x3.Identity
          translation :=
            ⟨FloatVal.mulCos (5 + 3 / 10 * ((1 : Nat) : ℚ)) (1 / 2 * ((1 : Nat) : ℚ)),
             FloatVal.rat (-55 / 10 + 5 / 100 * ((1 : Nat) : ℚ)),
             FloatVal.mulSin (5 + 3 / 10 * ((1 : Nat) : ℚ)) (1 / 2 * ((1 : Nat) : ℚ))⟩ } := by
  obtain ⟨t, h, hsp, _, _⟩ := first_UpdateTLAS exampleConfig exampleReady rfl exampleReady_srb
  have h1 : (1 : Nat) < exampleConfig.NumSmallSpheres := by decide
  have e : t.m_SmallSphereTransforms[1]? = some (spiralTransform 1) := by
    rw [hsp, getElem?_map_range _ _ _ h1]
  have v : spiralTransform 1 =
      { rotation := float3x3.Identity
        translation :=
          ⟨FloatVal.mulCos (5557453 / 1048576) (1 / 2), FloatVal.rat (-5714739 / 1048576),
           FloatVal.mulSin (5557453 / 1048576) (1 / 2)⟩ } := by decide!
  refine ⟨t, h, h1, by rw [e, v], by norm_num, by norm_num, ?_⟩
  rw [e, v]
  decide!

/-- C7, amended: the first `UpdateTLAS` returns and stores for every sphere
`i < N_spheres`, with `N_spheres` at most `2^20`, the transform with identity
rotation and translation `(radio*cos(angulo), y, radio*sin(angulo))` computed
in single precision: `radio = fl(5 + fl(0.3f*i))`, `angulo = 0.5*i` and
`y = fl(-5.5 + fl(i*0.05f))`, where `fl` rounds to the nearest `float`. The
radius differs from `R_i = 5 + 0.3*i` by at most `R_i / 2^22` and the height
from `-5.5 + 0.05*i` by at most `(5.5 + 0.05*i) / 2^22`. The value depends on
`i` alone: a second first run, with any other configuration and start state,
stores the same transform at every common index, and the same vector when
`N_spheres` agrees. The stored heights are strictly increasing in `i`. -/
theorem C7_spiral_placement (cfg1 cfg2 : Config) (s1 s2 : State)
    (htlas1 : s1.m_pTLAS = none) (hsrb1 : s1.m_pRayTracingSRB ≠ none)
    (htlas2 : s2.m_pTLAS = none) (hsrb2 : s2.m_pRayTracingSRB ≠ none)
    (hN : cfg1.NumSmallSpheres ≤ 2 ^ 20) :
    ∃ t1 t2, UpdateTLAS cfg1 s1 = some t1 ∧ UpdateTLAS cfg2 s2 = some t2 ∧
      (∀ i, i < cfg1.NumSmallSpheres →
        t1.m_SmallSphereTransforms[i]? = some
          { rotation := float3x3.Identity
            translation :=
              ⟨FloatVal.mulCos (spiralRadio i) (spiralAngulo i), FloatVal.rat (spiralY i),
               FloatVal.mulSin (spiralRadio i) (spiralAngulo i)⟩ } ∧
        spiralRadio i = roundFloat (5 + roundFloat (roundFloat (3 / 10) * (i : ℚ))) ∧
        spiralAngulo i = 1 / 2 * (i : ℚ) ∧
        spiralY i = roundFloat (-55 / 10 + roundFloat ((i : ℚ) * roundFloat (5 / 100))) ∧
        |spiralRadio i - (5 + 3 / 10 * (i : ℚ))| ≤ (5 + 3 / 10 * (i : ℚ)) / 2 ^ 22 ∧
        |spiralY i - (-55 / 10 + 5 / 100 * (i : ℚ))| ≤ (55 / 10 + 5 / 100 * (i : ℚ)) / 2 ^ 22) ∧
      (∀ i, i < cfg1.NumSmallSpheres → i < cfg2.NumSmallSpheres →
        t2.m_SmallSphereTransforms[i]? = t1.m_SmallSphereTransforms[i]?) ∧
      (cfg1.NumSmallSpheres = cfg2.NumSmallSpheres →
        t2.m_SmallSphereTransforms = t1.m_SmallSphereTransforms) ∧
      (∀ i j, i < j → j < cfg1.NumSmallSpheres →
        ∃ xi xj yi yj, t1.m_SmallSphereTransforms[i]? = some xi ∧
          t1.m_SmallSphereTransforms[j]? = some xj ∧
          xi.translation.y = FloatVal.rat yi ∧ xj.translation.y = FloatVal.rat yj ∧
          yi < yj) := by
  obtain ⟨t1, h1, hsp1, _, _⟩ := first_UpdateTLAS cfg1 s1 htlas1 hsrb1
  obtain ⟨t2, h2, hsp2, _, _⟩ := first_UpdateTLAS cfg2 s2 htlas2 hsrb2
  have hget : ∀ i, i < cfg1.NumSmallSpheres →
      t1.m_SmallSphereTransforms[i]? = some
        { rotation := float3x3.Identity
          translation :=
            ⟨FloatVal.mulCos (spiralRadio i) (spiralAngulo i), FloatVal.rat (spiralY i),
             FloatVal.mulSin (spiralRadio i) (spiralAngulo i)⟩ } := by
    intro i hi
    rw [hsp1, getElem?_map_range _ _ _ hi, spiralTransform_eq]
  refine ⟨t1, t2, h1, h2, ?_, ?_, ?_, ?_⟩
  · intro i hi
    have h24 : i < 2 ^ 24 := by omega
    refine ⟨hget i hi, ?_, ?_, ?_, spiralRadio_error i h24, spiralY_error i h24⟩
    · unfold spiralRadio radio_inicial incremento_radio
      rw [roundFloat_natCast i h24]
    · rw [spiralAngulo_eq i h24]
      ring
    · unfold spiralY altura_base
      rw [roundFloat_natCast i h24]
  · intro i hi1 hi2
    rw [hsp1, hsp2, getElem?_map_range _ _ _ hi1, getElem?_map_range _ _ _ hi2]
  · intro hN2
    rw [hsp1, hsp2, hN2]
  · intro i j hij hj
    exact ⟨_, _, _, _, hget i (Nat.lt_trans hij hj), hget j hj, rfl, rfl,
      spiralY_lt i j hij (by omega)⟩

/-- C7, amended, checked on two example runs with 4 and with 24 spheres. -/
theorem C7_spiral_placement_witness :
    ∃ t1 t2, UpdateTLAS exampleConfig exampleReady = some t1 ∧ UpdateTLAS manySpheresConfig exampleReadyOther = some t2 ∧
      (∀ i, i < exampleConfig.NumSmallSpheres →
        t1.m_SmallSphereTransforms[i]? = some
          { rotation := float3x3.Identity
            translation :=
              ⟨FloatVal.mulCos (spiralRadio i) (spiralAngulo i), FloatVal.rat (spiralY i),
               FloatVal.mulSin (spiralRadio i) (spiralAngulo i)⟩ } ∧
        spiralRadio i = roundFloat (5 + roundFloat (roundFloat (3 / 10) * (i : ℚ))) ∧
        spiralAngulo i = 1 / 2 * (i : ℚ) ∧
        spiralY i = roundFloat (-55 / 10 + roundFloat ((i : ℚ) * roundFloat (5 / 100))) ∧
        |spiralRadio i - (5 + 3 / 10 * (i : ℚ))| ≤ (5 + 3 / 10 * (i : ℚ)) / 2 ^ 22 ∧
        |spiralY i - (-55 / 10 + 5 / 100 * (i : ℚ))| ≤ (55 / 10 + 5 / 100 * (i : ℚ)) / 2 ^ 22) ∧
      (∀ i, i < exampleConfig.NumSmallSpheres → i < manySpheresConfig.NumSmallSpheres →
        t2.m_SmallSphereTransforms[i]? = t1.m_SmallSphereTransforms[i]?) ∧
      (exampleConfig.NumSmallSpheres = manySpheresConfig.NumSmallSpheres →
        t2.m_SmallSphereTransforms = t1.m_SmallSphereTransforms) ∧
      (∀ i j, i < j → j < exampleConfig.NumSmallSpheres →
        ∃ xi xj yi yj, t1.m_SmallSphereTransforms[i]? = some xi ∧
          t1.m_SmallSphereTransforms[j]? = some xj ∧
          xi.translation.y = FloatVal.rat yi ∧ xj.translation.y = FloatVal.rat yj ∧
          yi < yj) :=
  C7_spiral_placement exampleConfig manySpheresConfig exampleReady exampleReadyOther
    rfl exampleReady_srb rfl exampleReadyOther_srb (by decide)

/-! ## Claims C8 and C9: pyramid and fallback grid of the cubes -/

theorem mem_intRange (lo hi x : Int) (h1 : lo ≤ x) (h2 : x ≤ hi) : x ∈ intRange lo hi := by
  simp only [intRange, List.mem_map, List.mem_range]
  refine ⟨(x - lo).toNat, (Int.toNat_lt_toNat (by omega)).mpr (by omega), ?_⟩
  rw [Int.toNat_of_nonneg (by omega)]
  omega

theorem pyramidCells_shape :
    ∀ cell ∈ pyramidCells,
      0 ≤ cell.1 ∧ cell.1 ≤ 4 ∧
      -((5 - cell.1) / 2) ≤ cell.2.1 ∧ cell.2.1 ≤ (5 - cell.1) / 2 ∧
      -((5 - cell.1) / 2) ≤ cell.2.2 ∧ cell.2.2 ≤ (5 - cell.1) / 2 ∧
      (|cell.2.1| = (5 - cell.1) / 2 ∨ |cell.2.2| = (5 - cell.1) / 2) := by
  decide

theorem pyramidCells_complete_list :
    ∀ capa ∈ intRange 0 4, ∀ i ∈ intRange (-2) 2, ∀ j ∈ intRange (-2) 2,
      (-((5 - capa) / 2) ≤ i ∧ i ≤ (5 - capa) / 2 ∧ -((5 - capa) / 2) ≤ j ∧ j ≤ (5 - capa) / 2 ∧
      (|i| = (5 - capa) / 2 ∨ |j| = (5 - capa) / 2)) →
      (capa, i, j) ∈ pyramidCells := by
  decide

theorem pyramidCells_complete (capa i j : Int) (h0 : 0 ≤ capa) (h4 : capa ≤ 4)
    (hi1 : -((5 - capa) / 2) ≤ i) (hi2 : i ≤ (5 - capa) / 2)
    (hj1 : -((5 - capa) / 2) ≤ j) (hj2 : j ≤ (5 - capa) / 2)
    (hb : |i| = (5 - capa) / 2 ∨ |j| = (5 - capa) / 2) :
    (capa, i, j) ∈ pyramidCells :=
  pyramidCells_complete_list capa (mem_intRange _ _ _ h0 h4)
    i (mem_intRange _ _ _ (by omega) (by omega))
    j (mem_intRange _ _ _ (by omega) (by omega)) ⟨hi1, hi2, hj1, hj2, hb⟩

theorem pyramidCells_sorted : pyramidCells.Pairwise cellLt := by
  decide

theorem pyramidCells_layers :
    (List.range 5).map (fun capa => pyramidCells.countP fun cell => cell.1 = (capa : Int)) =
      [16, 16, 8, 8, 1] := by
  decide


theorem pyramidCell_of_lt (k : Nat) (hk : k < 49) :
    ∃ cell, pyramidCells[k]? = some cell ∧ cell ∈ pyramidCells ∧
      cubeTransform k = pyramidTransform k cell.1 cell.2.1 cell.2.2 := by
  have hlt : k < pyramidCells.length := by rw [pyramidCells_length]; exact hk
  have hget : pyramidCells[k]? = some pyramidCells[k] := List.getElem?_eq_getElem hlt
  refine ⟨pyramidCells[k], hget, List.getElem?_mem hget, ?_⟩
  simp only [cubeTransform, hget]

theorem cubeTransform_fallback (k : Nat) (hk : 49 ≤ k) :
    cubeTransform k = fallbackTransform k := by
  have hge : pyramidCells.length ≤ k := by rw [pyramidCells_length]; exact hk
  have hget : pyramidCells[k]? = none := List.getElem?_eq_none hge
  simp only [cubeTransform, hget]

theorem cubeLoops_run (cfg : Config) (s : State) :
    ∃ stP stF,
      pyramidLoop cfg.NumSmallCubes
        { index := 0
          ids := resize s.m_cubesCustomIds cfg.NumSmallCubes 0
          xfs := resize s.m_SmallCubeTransforms cfg.NumSmallCubes {} } = some stP ∧
      stP.index = min cfg.NumSmallCubes 49 ∧
      stP.written = List.range (min cfg.NumSmallCubes 49) ∧
      fallbackLoop cfg.NumSmallCubes (cfg.NumSmallCubes - stP.index) stP = some stF ∧
      stF =
        { index := cfg.NumSmallCubes
          ids := (List.range cfg.NumSmallCubes).map (cubeMaterial cfg.NumSmallCubes)
          xfs := (List.range cfg.NumSmallCubes).map cubeTransform
          written := List.range cfg.NumSmallCubes } := by
  obtain ⟨st, h1, ⟨h2, h3⟩, h4⟩ := cubePlacement_spec cfg.NumSmallCubes
    (resize s.m_cubesCustomIds cfg.NumSmallCubes 0)
    (resize s.m_SmallCubeTransforms cfg.NumSmallCubes {}) (resize_length _ _ _)
    (resize_length _ _ _)
  rw [pyramidCells_length] at h2 h3
  exact ⟨st, _, h1, h2, h3, h4, rfl⟩

/-- C8: the pyramid cells are exactly the outline cells of five square rings:
every cell `(capa, i, j)` at which a cube is placed has `0 <= capa <= 4`,
`-h <= i, j <= h` and `|i| = h` or `|j| = h` for `h = (5 - capa) / 2`, every
such cell is one of them, they are visited in increasing order of
`(capa, i, j)`, and the layers hold 16, 16, 8, 8 and 1 of them. The pyramid
loop of the first `UpdateTLAS` returns having placed cubes
`0 .. min(N_cubes, 49) - 1`, each once and in index order, and `UpdateTLAS`
returns with cube `k` of the pyramid translated to
`(2*i, -5.5 + 1.5*capa, 2*j)` for the `k`-th cell `(capa, i, j)`. -/
theorem C8_pyramid_placement (cfg : Config) (s : State) (htlas : s.m_pTLAS = none)
    (hsrb : s.m_pRayTracingSRB ≠ none) :
    (∀ cell ∈ pyramidCells,
      0 ≤ cell.1 ∧ cell.1 ≤ 4 ∧
      -((5 - cell.1) / 2) ≤ cell.2.1 ∧ cell.2.1 ≤ (5 - cell.1) / 2 ∧
      -((5 - cell.1) / 2) ≤ cell.2.2 ∧ cell.2.2 ≤ (5 - cell.1) / 2 ∧
      (|cell.2.1| = (5 - cell.1) / 2 ∨ |cell.2.2| = (5 - cell.1) / 2)) ∧
    (∀ capa i j : Int, 0 ≤ capa → capa ≤ 4 →
      -((5 - capa) / 2) ≤ i → i ≤ (5 - capa) / 2 →
      -((5 - capa) / 2) ≤ j → j ≤ (5 - capa) / 2 →
      (|i| = (5 - capa) / 2 ∨ |j| = (5 - capa) / 2) → (capa, i, j) ∈ pyramidCells) ∧
    pyramidCells.Pairwise cellLt ∧
    (List.range 5).map (fun capa => pyramidCells.countP fun cell => cell.1 = (capa : Int)) =
      [16, 16, 8, 8, 1] ∧
    pyramidCells.length = 49 ∧
    (∃ st,
      pyramidLoop cfg.NumSmallCubes
        { index := 0
          ids := resize s.m_cubesCustomIds cfg.NumSmallCubes 0
          xfs := resize s.m_SmallCubeTransforms cfg.NumSmallCubes {} } = some st ∧
      st.index = min cfg.NumSmallCubes 49 ∧
      st.written = List.range (min cfg.NumSmallCubes 49)) ∧
    ∃ s2, UpdateTLAS cfg s = some s2 ∧
      ∀ k, k < cfg.NumSmallCubes → k < 49 →
        ∃ capa i j xf, pyramidCells[k]? = some (capa, i, j) ∧
          s2.m_SmallCubeTransforms[k]? = some xf ∧
          xf.translation =
            ⟨FloatVal.rat (2 * (i : ℚ)), FloatVal.rat (-55 / 10 + 15 / 10 * (capa : ℚ)),
             FloatVal.rat (2 * (j : ℚ))⟩ := by
  refine ⟨pyramidCells_shape, pyramidCells_complete, pyramidCells_sorted, pyramidCells_layers,
    pyramidCells_length, ?_, ?_⟩
  · obtain ⟨stP, _, h1, h2, h3, _, _⟩ := cubeLoops_run cfg s
    exact ⟨stP, h1, h2, h3⟩
  · obtain ⟨s2, h2, _, hxf, _⟩ := first_UpdateTLAS cfg s htlas hsrb
    refine ⟨s2, h2, ?_⟩
    intro k hk hk49
    obtain ⟨cell, hcell, _, hct⟩ := pyramidCell_of_lt k hk49
    refine ⟨cell.1, cell.2.1, cell.2.2, cubeTransform k, hcell, ?_, ?_⟩
    · rw [hxf, getElem?_map_range _ _ _ hk]
    · rw [hct]
      simp only [pyramidTransform, InstanceMatrix.SetTranslation, InstanceMatrix.SetRotation,
        altura_base]
      congr 2 <;> ring

/-- C8, checked on the example state with 64 small cubes. -/
theorem C8_pyramid_placement_witness :
    (∀ cell ∈ pyramidCells,
      0 ≤ cell.1 ∧ cell.1 ≤ 4 ∧
      -((5 - cell.1) / 2) ≤ cell.2.1 ∧ cell.2.1 ≤ (5 - cell.1) / 2 ∧
      -((5 - cell.1) / 2) ≤ cell.2.2 ∧ cell.2.2 ≤ (5 - cell.1) / 2 ∧
      (|cell.2.1| = (5 - cell.1) / 2 ∨ |cell.2.2| = (5 - cell.1) / 2)) ∧
    (∀ capa i j : Int, 0 ≤ capa → capa ≤ 4 →
      -((5 - capa) / 2) ≤ i → i ≤ (5 - capa) / 2 →
      -((5 - capa) / 2) ≤ j → j ≤ (5 - capa) / 2 →
      (|i| = (5 - capa) / 2 ∨ |j| = (5 - capa) / 2) → (capa, i, j) ∈ pyramidCells) ∧
    pyramidCells.Pairwise cellLt ∧
    (List.range 5).map (fun capa => pyramidCells.countP fun cell => cell.1 = (capa : Int)) =
      [16, 16, 8, 8, 1] ∧
    pyramidCells.length = 49 ∧
    (∃ st,
      pyramidLoop pyramidConfig.NumSmallCubes
        { index := 0
          ids := resize exampleReady.m_cubesCustomIds pyramidConfig.NumSmallCubes 0
          xfs := resize exampleReady.m_SmallCubeTransforms pyramidConfig.NumSmallCubes {} } =
        some st ∧
      st.index = min pyramidConfig.NumSmallCubes 49 ∧
      st.written = List.range (min pyramidConfig.NumSmallCubes 49)) ∧
    ∃ s2, UpdateTLAS pyramidConfig exampleReady = some s2 ∧
      ∀ k, k < pyramidConfig.NumSmallCubes → k < 49 →
        ∃ capa i j xf, pyramidCells[k]? = some (capa, i, j) ∧
          s2.m_SmallCubeTransforms[k]? = some xf ∧
          xf.translation =
            ⟨FloatVal.rat (2 * (i : ℚ)), FloatVal.rat (-55 / 10 + 15 / 10 * (capa : ℚ)),
             FloatVal.rat (2 * (j : ℚ))⟩ :=
  C8_pyramid_placement pyramidConfig exampleReady exampleReady_tlas exampleReady_srb

/-- C9: the first `UpdateTLAS` returns with every cube `k`,
`49 <= k < N_cubes`, at `(2*(k mod 10) - 10, -7.5, 2*(k / 10) - 10)` with
identity rotation; every cube of the pyramid lies at a height of at least
`-5.5`, above `-7.5`; and the two cube loops together return having written
the material id and the transform of every index `0 .. N_cubes - 1` exactly
once, the member vectors being their result. -/
theorem C9_fallback_grid (cfg : Config) (s : State) (htlas : s.m_pTLAS = none)
    (hsrb : s.m_pRayTracingSRB ≠ none) :
    ∃ s2, UpdateTLAS cfg s = some s2 ∧
      (∀ k, 49 ≤ k → k < cfg.NumSmallCubes →
        s2.m_SmallCubeTransforms[k]? = some
          { rotation := float3x3.Identity
            translation :=
              ⟨FloatVal.rat (2 * ((k % 10 : Nat) : ℚ) - 10), FloatVal.rat (-75 / 10),
               FloatVal.rat (2 * ((k / 10 : Nat) : ℚ) - 10)⟩ }) ∧
      (∀ k, k < cfg.NumSmallCubes → k < 49 →
        ∃ xf y, s2.m_SmallCubeTransforms[k]? = some xf ∧
          xf.translation.y = FloatVal.rat y ∧ -55 / 10 ≤ y ∧ -75 / 10 < y) ∧
      (∃ stP stF,
        pyramidLoop cfg.NumSmallCubes
          { index := 0
            ids := resize s.m_cubesCustomIds cfg.NumSmallCubes 0
            xfs := resize s.m_SmallCubeTransforms cfg.NumSmallCubes {} } = some stP ∧
        fallbackLoop cfg.NumSmallCubes (cfg.NumSmallCubes - stP.index) stP = some stF ∧
        stF.index = cfg.NumSmallCubes ∧
        stF.written = List.range cfg.NumSmallCubes ∧
        (∀ k, k < cfg.NumSmallCubes → stF.written.count k = 1) ∧
        s2.m_cubesCustomIds = stF.ids ∧
        s2.m_SmallCubeTransforms = stF.xfs) ∧
      s2.m_cubesCustomIds.length = cfg.NumSmallCubes ∧
      s2.m_SmallCubeTransforms.length = cfg.NumSmallCubes := by
  obtain ⟨s2, h2, _, hxf, hids⟩ := first_UpdateTLAS cfg s htlas hsrb
  refine ⟨s2, h2, ?_, ?_, ?_, ?_, ?_⟩
  · intro k hk49 hk
    rw [hxf, getElem?_map_range _ _ _ hk, cubeTransform_fallback k hk49]
    simp only [fallbackTransform, InstanceMatrix.SetTranslation, altura_base]
    congr 4 <;> ring
  · intro k hk hk49
    obtain ⟨cell, _, hmem, hct⟩ := pyramidCell_of_lt k hk49
    have h0 : (0 : Int) ≤ cell.1 := (pyramidCells_shape cell hmem).1
    have hq : (0 : ℚ) ≤ (cell.1 : ℚ) := by exact_mod_cast h0
    refine ⟨cubeTransform k, altura_base + (cell.1 : ℚ) * (15 / 10), ?_, ?_, ?_, ?_⟩
    · rw [hxf, getElem?_map_range _ _ _ hk]
    · rw [hct]
      rfl
    · simp only [altura_base]
      linarith
    · simp only [altura_base]
      linarith
  · obtain ⟨stP, stF, h1, _, _, h4, h5⟩ := cubeLoops_run cfg s
    refine ⟨stP, stF, h1, h4, ?_, ?_, ?_, ?_, ?_⟩
    · rw [h5]
    · rw [h5]
    · intro k hk
      rw [h5]
      exact List.count_eq_one_of_mem (List.nodup_range _) (List.mem_range.mpr hk)
    · rw [hids, h5]
    · rw [hxf, h5]
  · rw [hids]
    simp
  · rw [hxf]
    simp

/-- C9, checked on the example state with 64 small cubes. -/
theorem C9_fallback_grid_witness :
    ∃ s2, UpdateTLAS pyramidConfig exampleReady = some s2 ∧
      (∀ k, 49 ≤ k → k < pyramidConfig.NumSmallCubes →
        s2.m_SmallCubeTransforms[k]? = some
          { rotation := float3x3.Identity
            translation :=
              ⟨FloatVal.rat (2 * ((k % 10 : Nat) : ℚ) - 10), FloatVal.rat (-75 / 10),
               FloatVal.rat (2 * ((k / 10 : Nat) : ℚ) - 10)⟩ }) ∧
      (∀ k, k < pyramidConfig.NumSmallCubes → k < 49 →
        ∃ xf y, s2.m_SmallCubeTransforms[k]? = some xf ∧
          xf.translation.y = FloatVal.rat y ∧ -55 / 10 ≤ y ∧ -75 / 10 < y) ∧
      (∃ stP stF,
        pyramidLoop pyramidConfig.NumSmallCubes
          { index := 0
            ids := resize exampleReady.m_cubesCustomIds pyramidConfig.NumSmallCubes 0
            xfs := resize exampleReady.m_SmallCubeTransforms pyramidConfig.NumSmallCubes {} } =
          some stP ∧
        fallbackLoop pyramidConfig.NumSmallCubes (pyramidConfig.NumSmallCubes - stP.index) stP =
          some stF ∧
        stF.index = pyramidConfig.NumSmallCubes ∧
        stF.written = List.range pyramidConfig.NumSmallCubes ∧
        (∀ k, k < pyramidConfig.NumSmallCubes → stF.written.count k = 1) ∧
        s2.m_cubesCustomIds = stF.ids ∧
        s2.m_SmallCubeTransforms = stF.xfs) ∧
      s2.m_cubesCustomIds.length = pyramidConfig.NumSmallCubes ∧
      s2.m_SmallCubeTransforms.length = pyramidConfig.NumSmallCubes :=
  C9_fallback_grid pyramidConfig exampleReady exampleReady_tlas exampleReady_srb

/-! ## Closed form of `Initialize` -/

theorem Initialize_resources (cfg : Config) (s : State) (hcap : cfg.StandaloneShaders = true)
    (hcb : s.m_CubeAttribsCB = none) :
    Initialize cfg s =
      (UpdateTLAS cfg (initResources cfg s)).bind fun s =>
        (CreateSBT s).bind fun s => some (initConstants s) := by
  have h2 : ¬ ((1 / 2 : ℚ) = 2) := by norm_num
  unfold Initialize
  rw [if_neg (by rw [hcap]; simp)]
  simp only [CreateRayTracingPSO, LoadTextures, foldl_emit_eq]
  simp only [createConstantsCB, CreateGraphicsPSO, State.setRayTracingVar, State.emit,
    CreateCubeBLAS, CreateProceduralBLAS, Option.some_bind, hcb, if_true, h2, if_false]
  have e : ∀ x y : State, x = y →
      ((UpdateTLAS cfg x).bind fun s => (CreateSBT s).bind fun s => some
        { s with
          m_Camera := initialCamera
          ShadowPCF := 1
          MaxRecursion := ((min 6 s.m_MaxRecursionDepth : Nat) : Int) }) =
      ((UpdateTLAS cfg y).bind fun s => (CreateSBT s).bind fun s => some (initConstants s)) := by
    intro x y hxy
    rw [hxy]
    rfl
  apply e
  cases s
  simp only at hcb
  subst hcb
  simp [initResources, initCalls, cubeBLASCalls, proceduralBLASCalls, declaredPSO, cubeBLAS,
    proceduralBLAS]

theorem Initialize_fresh (cfg : Config) (s : State) (hcap : cfg.StandaloneShaders = true)
    (hcb : s.m_CubeAttribsCB = none) (htlas : s.m_pTLAS = none) :
    Initialize cfg s = some (initializeResult cfg s) := by
  rw [Initialize_resources cfg s hcap hcb,
    UpdateTLAS_create cfg (initResources cfg s) initSRB htlas rfl]
  simp only [Option.some_bind]
  rw [CreateSBT_spec]
  · rfl
  · simp [buildTLASResult, cubeNames, createBuffersResult, createTLASResult]

/-! ## Claim C10: sphere hit groups in the binding table -/

theorem sphereHitGroup_iff (r : ℚ) :
    (sphereHitGroup r = "SpherePrimaryHit" ↔ r < roundFloat (7 / 10)) ∧
    (sphereHitGroup r = "SpherePrimaryDiffuseHit" ↔
      roundFloat (7 / 10) ≤ r ∧ r < roundFloat (9 / 10)) ∧
    (sphereHitGroup r = "SphereGlassHit" ↔ roundFloat (9 / 10) ≤ r) := by
  have d1 : ("SpherePrimaryHit" : String) ≠ "SpherePrimaryDiffuseHit" := by decide
  have d2 : ("SpherePrimaryHit" : String) ≠ "SphereGlassHit" := by decide
  have d3 : ("SpherePrimaryDiffuseHit" : String) ≠ "SphereGlassHit" := by decide
  have hlt : roundFloat (7 / 10) < roundFloat (9 / 10) := by
    rw [float_literals.2.2.1, float_literals.2.2.2]
    norm_num
  unfold sphereHitGroup
  generalize roundFloat (7 / 10) = lo at hlt
  generalize roundFloat (9 / 10) = hi at hlt
  by_cases h1 : r < lo
  · have h2 : ¬ (lo ≤ r) := not_le.mpr h1
    have h3 : ¬ (hi ≤ r) := not_le.mpr (lt_trans h1 hlt)
    simp [h1, h2, h3, d1, d2]
  · by_cases h2 : r < hi
    · have h3 : ¬ (hi ≤ r) := not_le.mpr h2
      simp [h1, h2, h3, d1.symm, d3, not_lt.mp h1]
    · simp [h1, h2, d2.symm, d3.symm, not_lt.mp h2]

theorem flatMap_pair_length {α : Type} (a b : Nat → α) (n : Nat) :
    ((List.range n).flatMap fun i => [a i, b i]).length = 2 * n := by
  induction n with
  | zero => rfl
  | succ n ih =>
    rw [List.range_succ, List.flatMap_append, List.length_append, ih]
    simp
    omega

theorem flatMap_pair_getElem? {α : Type} (a b : Nat → α) (n i : Nat) (hi : i < n) :
    ((List.range n).flatMap fun i => [a i, b i])[2 * i]? = some (a i) ∧
    ((List.range n).flatMap fun i => [a i, b i])[2 * i + 1]? = some (b i) := by
  induction n with
  | zero => exact absurd hi (Nat.not_lt_zero i)
  | succ n ih =>
    have hlen := flatMap_pair_length a b n
    rw [List.range_succ, List.flatMap_append]
    by_cases h : i < n
    · obtain ⟨h1, h2⟩ := ih h
      rw [List.getElem?_append_left (by omega), List.getElem?_append_left (by omega)]
      exact ⟨h1, h2⟩
    · have hin : i = n := by omega
      subst hin
      rw [List.getElem?_append_right (by omega), List.getElem?_append_right (by omega), hlen]
      simp

/-- C10 as stated fails: when the generator yields the `float`
`0.7f = 11744051/16777216`, which is below `0.7`, `Initialize` of a fresh
sample leaves a table in which the first sphere is bound to
`SpherePrimaryDiffuseHit`, not to `SpherePrimaryHit`. -/
theorem C10_threshold_counterexample :
    ∃ s sbt, Initialize exampleConfig thresholdFresh = some s ∧ s.m_pSBT = some sbt ∧
      (∀ n, thresholdFresh.rng n = 11744051 / 16777216) ∧
      (11744051 / 16777216 : ℚ) < 7 / 10 ∧
      sbt.bindings[8 + 2 * 0]? = some
        (SBTBinding.BindHitGroupForInstance "Sphere Instance 4" RayIndex.PRIMARY_RAY_INDEX
          (some "SpherePrimaryDiffuseHit")) ∧
      sbt.bindings[8 + 2 * 0]? ≠ some
        (SBTBinding.BindHitGroupForInstance "Sphere Instance 4" RayIndex.PRIMARY_RAY_INDEX
          (some "SpherePrimaryHit")) := by
  have hb : (sbtBindings (initTLAS exampleConfig thresholdFresh))[8 + 2 * 0]? = some
      (SBTBinding.BindHitGroupForInstance "Sphere Instance 4" RayIndex.PRIMARY_RAY_INDEX
        (some "SpherePrimaryDiffuseHit")) := by decide!
  refine ⟨initializeResult exampleConfig thresholdFresh,
    { Name := "SBT", bindings := sbtBindings (initTLAS exampleConfig thresholdFresh) },
    Initialize_fresh exampleConfig thresholdFresh rfl rfl rfl, rfl, fun _ => rfl, by norm_num,
    hb, ?_⟩
  rw [hb]
  decide

/-- C10, amended: `CreateSBT` returns, having drawn one value from the
generator per sphere instance, and the table holds for sphere `i`, after the
eight fixed bindings, one primary-ray binding whose hit group is selected by
the `i`-th draw `r` of this call, followed by its shadow-ray binding. The
selected group is `SpherePrimaryHit` iff `r < 0.7f`, `SpherePrimaryDiffuseHit`
iff `0.7f <= r < 0.9f` and `SphereGlassHit` iff `0.9f <= r`, always one of the
three, where `0.7f = 11744051/2^24` and `0.9f = 15099494/2^24` are the
single-precision literals; the intervals within `[0, 1)` have lengths `0.7f`,
`0.9f - 0.7f` and `1 - 0.9f`, each within `2^-24` of 0.7, 0.2 and 0.1. -/
theorem C10_sphere_material (s : State)
    (h : s.m_CubeInstanceNames.length ≤ s.m_cubesCustomIds.length) :
    ∃ s2 sbt, CreateSBT s = some s2 ∧ s2.m_pSBT = some sbt ∧
      s2.rngDrawn = s.rngDrawn + s.m_SphereInstanceNames.length ∧
      sbt.bindings =
        fixedBindings ++
          ((List.range s.m_SphereInstanceNames.length).flatMap fun i =>
            [SBTBinding.BindHitGroupForInstance ((s.m_SphereInstanceNames[i]?).getD "")
               RayIndex.PRIMARY_RAY_INDEX (some (sphereHitGroup (s.rng (s.rngDrawn + i)))),
             SBTBinding.BindHitGroupForInstance ((s.m_SphereInstanceNames[i]?).getD "")
               RayIndex.SHADOW_RAY_INDEX (some "SphereShadowHit")]) ++
          (List.range s.m_CubeInstanceNames.length).map (cubeBindingOf s) ∧
      (∀ i name, s.m_SphereInstanceNames[i]? = some name →
        sbt.bindings[8 + 2 * i]? = some
          (SBTBinding.BindHitGroupForInstance name RayIndex.PRIMARY_RAY_INDEX
            (some (sphereHitGroup (s.rng (s.rngDrawn + i))))) ∧
        sbt.bindings[8 + 2 * i + 1]? = some
          (SBTBinding.BindHitGroupForInstance name RayIndex.SHADOW_RAY_INDEX
            (some "SphereShadowHit"))) ∧
      (∀ r : ℚ,
        (sphereHitGroup r = "SpherePrimaryHit" ↔ r < roundFloat (7 / 10)) ∧
        (sphereHitGroup r = "SpherePrimaryDiffuseHit" ↔
          roundFloat (7 / 10) ≤ r ∧ r < roundFloat (9 / 10)) ∧
        (sphereHitGroup r = "SphereGlassHit" ↔ roundFloat (9 / 10) ≤ r)) ∧
      (∀ r : ℚ, sphereHitGroup r ∈
        ["SpherePrimaryHit", "SpherePrimaryDiffuseHit", "SphereGlassHit"]) ∧
      (roundFloat (7 / 10) = 11744051 / 2 ^ 24 ∧ roundFloat (9 / 10) = 15099494 / 2 ^ 24) ∧
      (roundFloat (7 / 10) - 0 = 11744051 / 16777216 ∧
        roundFloat (9 / 10) - roundFloat (7 / 10) = 3355443 / 16777216 ∧
        1 - roundFloat (9 / 10) = 838861 / 8388608) ∧
      (|roundFloat (7 / 10) - 0 - 7 / 10| ≤ 1 / 2 ^ 24 ∧
        |roundFloat (9 / 10) - roundFloat (7 / 10) - 2 / 10| ≤ 1 / 2 ^ 24 ∧
        |1 - roundFloat (9 / 10) - 1 / 10| ≤ 1 / 2 ^ 24) := by
  refine ⟨createSBTResult s, { Name := "SBT", bindings := sbtBindings s }, CreateSBT_spec s h,
    rfl, rfl, rfl, ?_, sphereHitGroup_iff, ?_, ?_, ?_, ?_⟩
  · intro i name hname
    have hi : i < s.m_SphereInstanceNames.length := by
      by_contra hc
      rw [List.getElem?_eq_none (not_lt.mp hc)] at hname
      exact Option.noConfusion hname
    have h8 : fixedBindings.length = 8 := rfl
    obtain ⟨p1, p2⟩ := flatMap_pair_getElem?
      (fun i => SBTBinding.BindHitGroupForInstance ((s.m_SphereInstanceNames[i]?).getD "")
        RayIndex.PRIMARY_RAY_INDEX (some (sphereHitGroup (s.rng (s.rngDrawn + i)))))
      (fun i => SBTBinding.BindHitGroupForInstance ((s.m_SphereInstanceNames[i]?).getD "")
        RayIndex.SHADOW_RAY_INDEX (some "SphereShadowHit"))
      s.m_SphereInstanceNames.length i hi
    have hl := flatMap_pair_length
      (fun i => SBTBinding.BindHitGroupForInstance ((s.m_SphereInstanceNames[i]?).getD "")
        RayIndex.PRIMARY_RAY_INDEX (some (sphereHitGroup (s.rng (s.rngDrawn + i)))))
      (fun i => SBTBinding.BindHitGroupForInstance ((s.m_SphereInstanceNames[i]?).getD "")
        RayIndex.SHADOW_RAY_INDEX (some "SphereShadowHit"))
      s.m_SphereInstanceNames.length
    simp only [hname, Option.getD_some] at p1 p2
    have hl2 : ((List.range s.m_SphereInstanceNames.length).flatMap
        (sphereBindingsOf s s.rngDrawn)).length = 2 * s.m_SphereInstanceNames.length := hl
    have q1 : ((List.range s.m_SphereInstanceNames.length).flatMap
        (sphereBindingsOf s s.rngDrawn))[2 * i]? = some
          (SBTBinding.BindHitGroupForInstance name RayIndex.PRIMARY_RAY_INDEX
            (some (sphereHitGroup (s.rng (s.rngDrawn + i))))) := p1
    have q2 : ((List.range s.m_SphereInstanceNames.length).flatMap
        (sphereBindingsOf s s.rngDrawn))[2 * i + 1]? = some
          (SBTBinding.BindHitGroupForInstance name RayIndex.SHADOW_RAY_INDEX
            (some "SphereShadowHit")) := p2
    have e1 : 8 + 2 * i - 8 = 2 * i := by omega
    have e2 : 8 + 2 * i + 1 - 8 = 2 * i + 1 := by omega
    simp only [sbtBindings]
    constructor
    · rw [List.getElem?_append_left (by rw [List.length_append, h8, hl2]; omega),
        List.getElem?_append_right (by rw [h8]; omega), h8, e1]
      exact q1
    · rw [List.getElem?_append_left (by rw [List.length_append, h8, hl2]; omega),
        List.getElem?_append_right (by rw [h8]; omega), h8, e2]
      exact q2
  · intro r
    unfold sphereHitGroup
    split_ifs <;> simp
  · rw [float_literals.2.2.1, float_literals.2.2.2]
    norm_num
  · rw [float_literals.2.2.1, float_literals.2.2.2]
    norm_num
  · rw [float_literals.2.2.1, float_literals.2.2.2]
    norm_num [abs_le]

theorem exampleInitialized_cubes :
    exampleInitialized.m_CubeInstanceNames.length ≤ exampleInitialized.m_cubesCustomIds.length := by
  decide!

/-- C10, amended, checked on the example sample after `Initialize`. -/
theorem C10_sphere_material_witness :
    ∃ s2 sbt, CreateSBT exampleInitialized = some s2 ∧ s2.m_pSBT = some sbt ∧
      s2.rngDrawn = exampleInitialized.rngDrawn + exampleInitialized.m_SphereInstanceNames.length ∧
      sbt.bindings =
        fixedBindings ++
          ((List.range exampleInitialized.m_SphereInstanceNames.length).flatMap fun i =>
            [SBTBinding.BindHitGroupForInstance
               ((exampleInitialized.m_SphereInstanceNames[i]?).getD "")
               RayIndex.PRIMARY_RAY_INDEX
               (some (sphereHitGroup (exampleInitialized.rng (exampleInitialized.rngDrawn + i)))),
             SBTBinding.BindHitGroupForInstance
               ((exampleInitialized.m_SphereInstanceNames[i]?).getD "")
               RayIndex.SHADOW_RAY_INDEX (some "SphereShadowHit")]) ++
          (List.range exampleInitialized.m_CubeInstanceNames.length).map
            (cubeBindingOf exampleInitialized) ∧
      (∀ i name, exampleInitialized.m_SphereInstanceNames[i]? = some name →
        sbt.bindings[8 + 2 * i]? = some
          (SBTBinding.BindHitGroupForInstance name RayIndex.PRIMARY_RAY_INDEX
            (some (sphereHitGroup (exampleInitialized.rng (exampleInitialized.rngDrawn + i))))) ∧
        sbt.bindings[8 + 2 * i + 1]? = some
          (SBTBinding.BindHitGroupForInstance name RayIndex.SHADOW_RAY_INDEX
            (some "SphereShadowHit"))) ∧
      (∀ r : ℚ,
        (sphereHitGroup r = "SpherePrimaryHit" ↔ r < roundFloat (7 / 10)) ∧
        (sphereHitGroup r = "SpherePrimaryDiffuseHit" ↔
          roundFloat (7 / 10) ≤ r ∧ r < roundFloat (9 / 10)) ∧
        (sphereHitGroup r = "SphereGlassHit" ↔ roundFloat (9 / 10) ≤ r)) ∧
      (∀ r : ℚ, sphereHitGroup r ∈
        ["SpherePrimaryHit", "SpherePrimaryDiffuseHit", "SphereGlassHit"]) ∧
      (roundFloat (7 / 10) = 11744051 / 2 ^ 24 ∧ roundFloat (9 / 10) = 15099494 / 2 ^ 24) ∧
      (roundFloat (7 / 10) - 0 = 11744051 / 16777216 ∧
        roundFloat (9 / 10) - roundFloat (7 / 10) = 3355443 / 16777216 ∧
        1 - roundFloat (9 / 10) = 838861 / 8388608) ∧
      (|roundFloat (7 / 10) - 0 - 7 / 10| ≤ 1 / 2 ^ 24 ∧
        |roundFloat (9 / 10) - roundFloat (7 / 10) - 2 / 10| ≤ 1 / 2 ^ 24 ∧
        |1 - roundFloat (9 / 10) - 1 / 10| ≤ 1 / 2 ^ 24) :=
  C10_sphere_material exampleInitialized exampleInitialized_cubes


/-! ## Lemmas on the binding table after `Initialize` -/

theorem flatMap_congr_mem {α β : Type} (l : List α) (f g : α → List β)
    (h : ∀ x ∈ l, f x = g x) : l.flatMap f = l.flatMap g := by
  induction l with
  | nil => rfl
  | cons x l ih =>
    rw [List.flatMap_cons, List.flatMap_cons, h x (List.mem_cons_self x l),
      ih fun y hy => h y (List.mem_cons_of_mem x hy)]

/-- The table that `CreateSBT` builds once `UpdateTLAS` has stored the
instance names. -/
theorem sbtBindings_placed (cfg : Config) (s : State)
    (h1 : s.m_SphereInstanceNames = sphereNames cfg)
    (h2 : s.m_CubeInstanceNames = cubeNames cfg) :
    sbtBindings s =
      fixedBindings ++
        ((List.range cfg.NumSmallSpheres).flatMap fun i =>
          [SBTBinding.BindHitGroupForInstance ("Sphere Instance " ++ toString (4 + i))
             RayIndex.PRIMARY_RAY_INDEX (some (sphereHitGroup (s.rng (s.rngDrawn + i)))),
           SBTBinding.BindHitGroupForInstance ("Sphere Instance " ++ toString (4 + i))
             RayIndex.SHADOW_RAY_INDEX (some "SphereShadowHit")]) ++
        (List.range cfg.NumSmallCubes).map fun i =>
          SBTBinding.BindHitGroupForInstance
            ("Cube Instance " ++ toString (4 + cfg.NumSmallSpheres + i))
            RayIndex.PRIMARY_RAY_INDEX
            (some (cubeHitGroup ((s.m_cubesCustomIds[i]?).getD 0))) := by
  have l1 : s.m_SphereInstanceNames.length = cfg.NumSmallSpheres := by
    rw [h1]
    simp [sphereNames]
  have l2 : s.m_CubeInstanceNames.length = cfg.NumSmallCubes := by
    rw [h2]
    simp [cubeNames]
  unfold sbtBindings
  rw [l1, l2]
  congr 1
  · congr 1
    apply flatMap_congr_mem
    intro i hi
    have hi2 : i < cfg.NumSmallSpheres := List.mem_range.mp hi
    simp [sphereBindingsOf, h1, sphereNames, hi2]
  · apply List.map_congr_left
    intro i hi
    have hi2 : i < cfg.NumSmallCubes := List.mem_range.mp hi
    simp [cubeBindingOf, h2, cubeNames, hi2]

/-! ## Claim C11: binding completeness -/

theorem mem_instanceList (cfg : Config) (s : State) (inst : TLASBuildInstanceData) :
    inst ∈ instanceList cfg s ↔
      inst ∈ mainInstanceList cfg s ∨
      (∃ i, i < cfg.NumSmallSpheres ∧ inst = sphereInstanceOf cfg s 4 i) ∨
      (∃ i, i < cfg.NumSmallCubes ∧ inst = cubeInstanceOf cfg s (4 + cfg.NumSmallSpheres) i) := by
  simp only [instanceList, List.mem_append, List.mem_map, List.mem_range, or_assoc]
  constructor
  · rintro (h | ⟨i, hi, rfl⟩ | ⟨i, hi, rfl⟩)
    · exact Or.inl h
    · exact Or.inr (Or.inl ⟨i, hi, rfl⟩)
    · exact Or.inr (Or.inr ⟨i, hi, rfl⟩)
  · rintro (h | ⟨i, hi, rfl⟩ | ⟨i, hi, rfl⟩)
    · exact Or.inl h
    · exact Or.inr (Or.inl ⟨i, hi, rfl⟩)
    · exact Or.inr (Or.inr ⟨i, hi, rfl⟩)

theorem mem_mainInstanceList_name (cfg : Config) (s : State) (inst : TLASBuildInstanceData)
    (h : inst ∈ mainInstanceList cfg s) :
    inst.pBLAS = s.m_pCubeBLAS ∧
      (inst.InstanceName = some "Ground Instance" ∨ inst.InstanceName = some "Cube Instance 1" ∨
        inst.InstanceName = some "Cube Instance 2" ∨ inst.InstanceName = some "Cube Instance 3") := by
  simp only [mainInstanceList, List.mem_cons, List.mem_singleton, List.not_mem_nil, or_false] at h
  rcases h with rfl | rfl | rfl | rfl
  · exact ⟨rfl, Or.inl rfl⟩
  · exact ⟨rfl, Or.inr (Or.inl rfl)⟩
  · exact ⟨rfl, Or.inr (Or.inr (Or.inl rfl))⟩
  · exact ⟨rfl, Or.inr (Or.inr (Or.inr rfl))⟩

/-- Membership in the table of a placed sample. -/
theorem mem_sbtBindings_placed (cfg : Config) (s : State)
    (h1 : s.m_SphereInstanceNames = sphereNames cfg)
    (h2 : s.m_CubeInstanceNames = cubeNames cfg) (b : SBTBinding) :
    b ∈ sbtBindings s ↔
      b ∈ fixedBindings ∨
      (∃ i, i < cfg.NumSmallSpheres ∧
        (b = SBTBinding.BindHitGroupForInstance ("Sphere Instance " ++ toString (4 + i))
              RayIndex.PRIMARY_RAY_INDEX (some (sphereHitGroup (s.rng (s.rngDrawn + i)))) ∨
         b = SBTBinding.BindHitGroupForInstance ("Sphere Instance " ++ toString (4 + i))
              RayIndex.SHADOW_RAY_INDEX (some "SphereShadowHit"))) ∨
      (∃ i, i < cfg.NumSmallCubes ∧
        b = SBTBinding.BindHitGroupForInstance
              ("Cube Instance " ++ toString (4 + cfg.NumSmallSpheres + i))
              RayIndex.PRIMARY_RAY_INDEX
              (some (cubeHitGroup ((s.m_cubesCustomIds[i]?).getD 0)))) := by
  rw [sbtBindings_placed cfg s h1 h2]
  simp only [List.mem_append, List.mem_flatMap, List.mem_map, List.mem_range, List.mem_cons,
    List.mem_singleton, List.not_mem_nil, or_false, or_assoc]
  constructor
  · rintro (h | ⟨i, hi, h⟩ | ⟨i, hi, rfl⟩)
    · exact Or.inl h
    · exact Or.inr (Or.inl ⟨i, hi, h⟩)
    · exact Or.inr (Or.inr ⟨i, hi, rfl⟩)
  · rintro (h | ⟨i, hi, h⟩ | ⟨i, hi, rfl⟩)
    · exact Or.inl h
    · exact Or.inr (Or.inl ⟨i, hi, h⟩)
    · exact Or.inr (Or.inr ⟨i, hi, rfl⟩)

theorem Fresh_handles {s : State} (h : Fresh s) :
    s.m_CubeAttribsCB = none ∧ s.m_pTLAS = none ∧ s.ctx = [] := by
  obtain ⟨_, _, _, _, _, hcb, _, _, _, _, htlas, _, _, _, _, _, _, _, _, _, hctx⟩ := h
  exact ⟨hcb, htlas, hctx⟩

/-- C11: on a device with ray tracing `Initialize` of a fresh sample returns
with the TLAS of `4 + N_spheres + N_cubes` instances and the binding table,
and for every instance of the TLAS the table holds a primary-ray binding of a
named hit group made by the name of that instance, and for either ray type a
binding call that covers the instance (for the shadow ray of the triangle
instances this is the call for the whole TLAS). Every name that the table
binds by is the name of an instance of the TLAS. -/
theorem C11_binding_completeness (cfg : Config) (s0 : State) (hfresh : Fresh s0)
    (hcap : cfg.StandaloneShaders = true) :
    ∃ s tlas sbt, Initialize cfg s0 = some s ∧ s.m_pTLAS = some tlas ∧ s.m_pSBT = some sbt ∧
      tlas.Instances.length = 4 + cfg.NumSmallSpheres + cfg.NumSmallCubes ∧
      (∀ inst ∈ tlas.Instances, ∃ name, inst.InstanceName = some name ∧
        (∃ g, SBTBinding.BindHitGroupForInstance name RayIndex.PRIMARY_RAY_INDEX (some g) ∈
          sbt.bindings) ∧
        ∀ ray, ∃ b ∈ sbt.bindings, b.covers name ray = true) ∧
      (∀ name ray g, SBTBinding.BindHitGroupForInstance name ray g ∈ sbt.bindings →
        ∃ inst ∈ tlas.Instances, inst.InstanceName = some name) := by
  obtain ⟨hcb, htlas, _⟩ := Fresh_handles hfresh
  have hmem := mem_sbtBindings_placed cfg (initTLAS cfg s0) rfl rfl
  have hshadow : SBTBinding.BindHitGroupForTLAS RayIndex.SHADOW_RAY_INDEX none ∈
      sbtBindings (initTLAS cfg s0) := (hmem _).mpr (Or.inl (by simp [fixedBindings]))
  have hcover : ∀ name g,
      SBTBinding.BindHitGroupForInstance name RayIndex.PRIMARY_RAY_INDEX (some g) ∈
        sbtBindings (initTLAS cfg s0) →
      (∃ g, SBTBinding.BindHitGroupForInstance name RayIndex.PRIMARY_RAY_INDEX (some g) ∈
          sbtBindings (initTLAS cfg s0)) ∧
        ∀ ray, ∃ b ∈ sbtBindings (initTLAS cfg s0), b.covers name ray = true := by
    intro name g hg
    refine ⟨⟨g, hg⟩, ?_⟩
    intro ray
    cases ray with
    | PRIMARY_RAY_INDEX => exact ⟨_, hg, by simp [SBTBinding.covers]⟩
    | SHADOW_RAY_INDEX => exact ⟨_, hshadow, by simp [SBTBinding.covers]⟩
  refine ⟨initializeResult cfg s0, _, _, Initialize_fresh cfg s0 hcap hcb htlas, rfl, rfl,
    instanceList_length _ _, ?_, ?_⟩
  · intro inst hinst
    rcases (mem_instanceList cfg _ inst).mp hinst with h | ⟨i, hi, rfl⟩ | ⟨i, hi, rfl⟩
    · rcases (mem_mainInstanceList_name cfg _ inst h).2 with hn | hn | hn | hn
      · exact ⟨_, hn, hcover _ "GroundHit" ((hmem _).mpr (Or.inl (by simp [fixedBindings])))⟩
      · exact ⟨_, hn, hcover _ "GlassPrimaryHit" ((hmem _).mpr (Or.inl (by simp [fixedBindings])))⟩
      · exact ⟨_, hn, hcover _ "GlassPrimaryHit" ((hmem _).mpr (Or.inl (by simp [fixedBindings])))⟩
      · exact ⟨_, hn, hcover _ "GlassPrimaryHit" ((hmem _).mpr (Or.inl (by simp [fixedBindings])))⟩
    · exact ⟨_, rfl, hcover _ _ ((hmem _).mpr (Or.inr (Or.inl ⟨i, hi, Or.inl rfl⟩)))⟩
    · exact ⟨_, rfl, hcover _ _ ((hmem _).mpr (Or.inr (Or.inr ⟨i, hi, rfl⟩)))⟩
  · intro name ray g hb
    rcases (hmem _).mp hb with h | ⟨i, hi, h | h⟩ | ⟨i, hi, h⟩
    · simp only [fixedBindings, List.mem_cons, List.mem_singleton, List.not_mem_nil, or_false,
        SBTBinding.BindHitGroupForInstance.injEq, false_or, reduceCtorEq] at h
      rcases h with ⟨rfl, _, _⟩ | ⟨rfl, _, _⟩ | ⟨rfl, _, _⟩ | ⟨rfl, _, _⟩
      · exact ⟨_, (mem_instanceList cfg _ _).mpr
          (Or.inl (List.mem_cons_of_mem _ (List.mem_cons_self _ _))), rfl⟩
      · exact ⟨_, (mem_instanceList cfg _ _).mpr
          (Or.inl (List.mem_cons_of_mem _ (List.mem_cons_of_mem _ (List.mem_cons_self _ _)))), rfl⟩
      · exact ⟨_, (mem_instanceList cfg _ _).mpr
          (Or.inl (List.mem_cons_of_mem _ (List.mem_cons_of_mem _ (List.mem_cons_of_mem _
            (List.mem_cons_self _ _))))), rfl⟩
      · exact ⟨_, (mem_instanceList cfg _ _).mpr (Or.inl (List.mem_cons_self _ _)), rfl⟩
    · simp only [SBTBinding.BindHitGroupForInstance.injEq] at h
      obtain ⟨rfl, _, _⟩ := h
      exact ⟨_, (mem_instanceList cfg _ _).mpr (Or.inr (Or.inl ⟨i, hi, rfl⟩)), rfl⟩
    · simp only [SBTBinding.BindHitGroupForInstance.injEq] at h
      obtain ⟨rfl, _, _⟩ := h
      exact ⟨_, (mem_instanceList cfg _ _).mpr (Or.inr (Or.inl ⟨i, hi, rfl⟩)), rfl⟩
    · simp only [SBTBinding.BindHitGroupForInstance.injEq] at h
      obtain ⟨rfl, _, _⟩ := h
      exact ⟨_, (mem_instanceList cfg _ _).mpr (Or.inr (Or.inr ⟨i, hi, rfl⟩)), rfl⟩

/-- C11, checked on the example sample. -/
theorem C11_binding_completeness_witness :
    ∃ s tlas sbt, Initialize exampleConfig exampleFresh = some s ∧ s.m_pTLAS = some tlas ∧ s.m_pSBT = some sbt ∧
      tlas.Instances.length = 4 + exampleConfig.NumSmallSpheres + exampleConfig.NumSmallCubes ∧
      (∀ inst ∈ tlas.Instances, ∃ name, inst.InstanceName = some name ∧
        (∃ g, SBTBinding.BindHitGroupForInstance name RayIndex.PRIMARY_RAY_INDEX (some g) ∈
          sbt.bindings) ∧
        ∀ ray, ∃ b ∈ sbt.bindings, b.covers name ray = true) ∧
      (∀ name ray g, SBTBinding.BindHitGroupForInstance name ray g ∈ sbt.bindings →
        ∃ inst ∈ tlas.Instances, inst.InstanceName = some name) :=
  C11_binding_completeness exampleConfig exampleFresh exampleFresh_fresh rfl

/-! ## Claim C12: shadow-ray bindings -/

theorem sphere_name_ne_cube (t u : String) :
    "Sphere Instance " ++ t ≠ "Cube Instance " ++ u := by
  intro h
  have e1 : (("Sphere Instance " : String).data ++ t.data).head? = some 'S' := rfl
  have e2 : (("Cube Instance " : String).data ++ u.data).head? = some 'C' := rfl
  rw [← String.data_append, h, String.data_append, e2] at e1
  exact absurd e1 (by decide)

theorem sphere_name_ne_ground (t : String) : "Sphere Instance " ++ t ≠ "Ground Instance" := by
  intro h
  have e1 : (("Sphere Instance " : String).data ++ t.data).head? = some 'S' := rfl
  have e2 : ("Ground Instance" : String).data.head? = some 'G' := rfl
  rw [← String.data_append, h, e2] at e1
  exact absurd e1 (by decide)

theorem getElem?_append_cases {α : Type} (A B : List α) (k : Nat) (b : α)
    (h : (A ++ B)[k]? = some b) :
    (k < A.length ∧ A[k]? = some b) ∨ (A.length ≤ k ∧ b ∈ B) := by
  by_cases hk : k < A.length
  · rw [List.getElem?_append_left hk] at h
    exact Or.inl ⟨hk, h⟩
  · rw [List.getElem?_append_right (not_lt.mp hk)] at h
    exact Or.inr ⟨not_lt.mp hk, List.getElem?_mem h⟩

theorem fixedBindings_length : fixedBindings.length = 8 := rfl

/-- C12: on a device with ray tracing `Initialize` of a fresh sample returns
with a binding table in which call number 7 is the shadow-ray binding of the
null group for the whole TLAS, the only call for the whole TLAS; sphere `i`
has `SphereShadowHit` bound for the shadow ray by the later call number
`8 + 2*i + 1`; every shadow-ray binding made by instance name comes after
call 7 and binds `SphereShadowHit`. Every instance of the TLAS is either an
instance of the procedural structure with `SphereShadowHit` bound by its
name, or an instance of one of the two cube structures without any shadow-ray
binding by its name. -/
theorem C12_shadow_bindings (cfg : Config) (s0 : State) (hfresh : Fresh s0)
    (hcap : cfg.StandaloneShaders = true) :
    ∃ s tlas sbt, Initialize cfg s0 = some s ∧ s.m_pTLAS = some tlas ∧ s.m_pSBT = some sbt ∧
      sbt.bindings[7]? = some (SBTBinding.BindHitGroupForTLAS RayIndex.SHADOW_RAY_INDEX none) ∧
      (∀ k ray g, sbt.bindings[k]? = some (SBTBinding.BindHitGroupForTLAS ray g) → k = 7) ∧
      (∀ i, i < cfg.NumSmallSpheres →
        sbt.bindings[8 + 2 * i + 1]? = some
          (SBTBinding.BindHitGroupForInstance ("Sphere Instance " ++ toString (4 + i))
            RayIndex.SHADOW_RAY_INDEX (some "SphereShadowHit"))) ∧
      (∀ k name g,
        sbt.bindings[k]? = some
          (SBTBinding.BindHitGroupForInstance name RayIndex.SHADOW_RAY_INDEX g) →
        7 < k ∧ g = some "SphereShadowHit") ∧
      (∀ inst ∈ tlas.Instances, ∃ name, inst.InstanceName = some name ∧
        ((inst.pBLAS = some proceduralBLAS ∧
            SBTBinding.BindHitGroupForInstance name RayIndex.SHADOW_RAY_INDEX
              (some "SphereShadowHit") ∈ sbt.bindings) ∨
         ((inst.pBLAS = some (cubeBLAS cfg "Cube BLAS") ∨
             inst.pBLAS = some (cubeBLAS cfg "SmallCube BLAS")) ∧
            ∀ g, SBTBinding.BindHitGroupForInstance name RayIndex.SHADOW_RAY_INDEX g ∉
              sbt.bindings))) := by
  obtain ⟨hcb, htlas, _⟩ := Fresh_handles hfresh
  have hmem := mem_sbtBindings_placed cfg (initTLAS cfg s0) rfl rfl
  have hclosed := sbtBindings_placed cfg (initTLAS cfg s0) rfl rfl
  rw [List.append_assoc] at hclosed
  have hrest : ∀ b, b ∈
      ((List.range cfg.NumSmallSpheres).flatMap fun i =>
        [SBTBinding.BindHitGroupForInstance ("Sphere Instance " ++ toString (4 + i))
           RayIndex.PRIMARY_RAY_INDEX
           (some (sphereHitGroup ((initTLAS cfg s0).rng ((initTLAS cfg s0).rngDrawn + i)))),
         SBTBinding.BindHitGroupForInstance ("Sphere Instance " ++ toString (4 + i))
           RayIndex.SHADOW_RAY_INDEX (some "SphereShadowHit")]) ++
      ((List.range cfg.NumSmallCubes).map fun i =>
        SBTBinding.BindHitGroupForInstance
          ("Cube Instance " ++ toString (4 + cfg.NumSmallSpheres + i))
          RayIndex.PRIMARY_RAY_INDEX
          (some (cubeHitGroup (((initTLAS cfg s0).m_cubesCustomIds[i]?).getD 0)))) →
      ∃ name g, (b = SBTBinding.BindHitGroupForInstance name RayIndex.PRIMARY_RAY_INDEX g) ∨
        (b = SBTBinding.BindHitGroupForInstance name RayIndex.SHADOW_RAY_INDEX
          (some "SphereShadowHit")) := by
    intro b hb
    simp only [List.mem_append, List.mem_flatMap, List.mem_map, List.mem_range, List.mem_cons,
      List.mem_singleton, List.not_mem_nil, or_false] at hb
    rcases hb with ⟨i, _, rfl | rfl⟩ | ⟨i, _, rfl⟩
    · exact ⟨_, _, Or.inl rfl⟩
    · exact ⟨_, none, Or.inr rfl⟩
    · exact ⟨_, _, Or.inl rfl⟩
  have hshadow : ∀ name g,
      SBTBinding.BindHitGroupForInstance name RayIndex.SHADOW_RAY_INDEX g ∈
        sbtBindings (initTLAS cfg s0) →
      g = some "SphereShadowHit" ∧ ∃ i, name = "Sphere Instance " ++ toString (4 + i) := by
    intro name g hb
    rcases (hmem _).mp hb with h | ⟨i, hi, h | h⟩ | ⟨i, hi, h⟩
    · simp [fixedBindings] at h
    · simp at h
    · simp only [SBTBinding.BindHitGroupForInstance.injEq, true_and] at h
      exact ⟨h.2, i, h.1⟩
    · simp at h
  refine ⟨initializeResult cfg s0, _, _, Initialize_fresh cfg s0 hcap hcb htlas, rfl, rfl,
    ?_, ?_, ?_, ?_, ?_⟩
  · show (sbtBindings (initTLAS cfg s0))[7]? = _
    rw [hclosed, List.getElem?_append_left (by rw [fixedBindings_length]; omega)]
    rfl
  · intro k ray g hk
    have hk2 : (sbtBindings (initTLAS cfg s0))[k]? =
        some (SBTBinding.BindHitGroupForTLAS ray g) := hk
    rw [hclosed] at hk2
    rcases getElem?_append_cases _ _ _ _ hk2 with ⟨hlt, hget⟩ | ⟨_, hm⟩
    · rw [fixedBindings_length] at hlt
      interval_cases k <;> simp [fixedBindings] at hget ⊢
    · obtain ⟨name, g2, h | h⟩ := hrest _ hm <;> cases h
  · intro i hi
    show (sbtBindings (initTLAS cfg s0))[8 + 2 * i + 1]? = _
    rw [hclosed, List.getElem?_append_right (by rw [fixedBindings_length]; omega),
      fixedBindings_length]
    have hl := flatMap_pair_length
      (fun i => SBTBinding.BindHitGroupForInstance ("Sphere Instance " ++ toString (4 + i))
        RayIndex.PRIMARY_RAY_INDEX
        (some (sphereHitGroup ((initTLAS cfg s0).rng ((initTLAS cfg s0).rngDrawn + i)))))
      (fun i => SBTBinding.BindHitGroupForInstance ("Sphere Instance " ++ toString (4 + i))
        RayIndex.SHADOW_RAY_INDEX (some "SphereShadowHit"))
      cfg.NumSmallSpheres
    have hp := (flatMap_pair_getElem?
      (fun i => SBTBinding.BindHitGroupForInstance ("Sphere Instance " ++ toString (4 + i))
        RayIndex.PRIMARY_RAY_INDEX
        (some (sphereHitGroup ((initTLAS cfg s0).rng ((initTLAS cfg s0).rngDrawn + i)))))
      (fun i => SBTBinding.BindHitGroupForInstance ("Sphere Instance " ++ toString (4 + i))
        RayIndex.SHADOW_RAY_INDEX (some "SphereShadowHit"))
      cfg.NumSmallSpheres i hi).2
    have e : 8 + 2 * i + 1 - 8 = 2 * i + 1 := by omega
    rw [e, List.getElem?_append_left (by rw [hl]; omega)]
    exact hp
  · intro k name g hk
    have hk2 : (sbtBindings (initTLAS cfg s0))[k]? =
        some (SBTBinding.BindHitGroupForInstance name RayIndex.SHADOW_RAY_INDEX g) := hk
    refine ⟨?_, (hshadow name g (List.getElem?_mem hk2)).1⟩
    rw [hclosed] at hk2
    rcases getElem?_append_cases _ _ _ _ hk2 with ⟨hlt, hget⟩ | ⟨hge, _⟩
    · rw [fixedBindings_length] at hlt
      interval_cases k <;> simp [fixedBindings] at hget
    · rw [fixedBindings_length] at hge
      omega
  · intro inst hinst
    rcases (mem_instanceList cfg _ inst).mp hinst with h | ⟨i, hi, rfl⟩ | ⟨i, hi, rfl⟩
    · obtain ⟨hb, hn⟩ := mem_mainInstanceList_name cfg _ inst h
      have hnone : ∀ name, inst.InstanceName = some name →
          (name = "Ground Instance" ∨ ∃ u, name = "Cube Instance " ++ u) →
          ∃ name, inst.InstanceName = some name ∧
            ((inst.pBLAS = some proceduralBLAS ∧
              SBTBinding.BindHitGroupForInstance name RayIndex.SHADOW_RAY_INDEX
                (some "SphereShadowHit") ∈ sbtBindings (initTLAS cfg s0)) ∨
            ((inst.pBLAS = some (cubeBLAS cfg "Cube BLAS") ∨
              inst.pBLAS = some (cubeBLAS cfg "SmallCube BLAS")) ∧
              ∀ g, SBTBinding.BindHitGroupForInstance name RayIndex.SHADOW_RAY_INDEX g ∉
                sbtBindings (initTLAS cfg s0))) := by
        intro name hname hcase
        refine ⟨name, hname, Or.inr ⟨Or.inl hb, ?_⟩⟩
        intro g hg
        obtain ⟨_, i, hi⟩ := hshadow name g hg
        rcases hcase with rfl | ⟨u, rfl⟩
        · exact sphere_name_ne_ground _ hi.symm
        · exact sphere_name_ne_cube _ _ hi.symm
      rcases hn with hn | hn | hn | hn
      · exact hnone _ hn (Or.inl rfl)
      · exact hnone _ hn (Or.inr ⟨"1", rfl⟩)
      · exact hnone _ hn (Or.inr ⟨"2", rfl⟩)
      · exact hnone _ hn (Or.inr ⟨"3", rfl⟩)
    · exact ⟨_, rfl, Or.inl ⟨rfl, (hmem _).mpr (Or.inr (Or.inl ⟨i, hi, Or.inr rfl⟩))⟩⟩
    · refine ⟨_, rfl, Or.inr ⟨Or.inr rfl, ?_⟩⟩
      intro g hg
      obtain ⟨_, j, hj⟩ := hshadow _ g hg
      exact sphere_name_ne_cube _ _ hj.symm

/-- C12, checked on the example sample. -/
theorem C12_shadow_bindings_witness :
    ∃ s tlas sbt, Initialize exampleConfig exampleFresh = some s ∧ s.m_pTLAS = some tlas ∧ s.m_pSBT = some sbt ∧
      sbt.bindings[7]? = some (SBTBinding.BindHitGroupForTLAS RayIndex.SHADOW_RAY_INDEX none) ∧
      (∀ k ray g, sbt.bindings[k]? = some (SBTBinding.BindHitGroupForTLAS ray g) → k = 7) ∧
      (∀ i, i < exampleConfig.NumSmallSpheres →
        sbt.bindings[8 + 2 * i + 1]? = some
          (SBTBinding.BindHitGroupForInstance ("Sphere Instance " ++ toString (4 + i))
            RayIndex.SHADOW_RAY_INDEX (some "SphereShadowHit"))) ∧
      (∀ k name g,
        sbt.bindings[k]? = some
          (SBTBinding.BindHitGroupForInstance name RayIndex.SHADOW_RAY_INDEX g) →
        7 < k ∧ g = some "SphereShadowHit") ∧
      (∀ inst ∈ tlas.Instances, ∃ name, inst.InstanceName = some name ∧
        ((inst.pBLAS = some proceduralBLAS ∧
            SBTBinding.BindHitGroupForInstance name RayIndex.SHADOW_RAY_INDEX
              (some "SphereShadowHit") ∈ sbt.bindings) ∨
         ((inst.pBLAS = some (cubeBLAS exampleConfig "Cube BLAS") ∨
             inst.pBLAS = some (cubeBLAS exampleConfig "SmallCube BLAS")) ∧
            ∀ g, SBTBinding.BindHitGroupForInstance name RayIndex.SHADOW_RAY_INDEX g ∉
              sbt.bindings))) :=
  C12_shadow_bindings exampleConfig exampleFresh exampleFresh_fresh rfl

/-! ## Claim C13: the placement is computed once -/

theorem builds_update (cfg : Config) (s : State) (tlas : ITopLevelAS) :
    builds (buildTLASResult cfg true (createBuffersResult cfg s) tlas).ctx =
      builds s.ctx ++ [buildAttribs cfg true (createBuffersResult cfg s)] := by
  simp only [buildTLASResult, builds_append]
  rw [(builds_createBuffersResult cfg _).1]
  simp [builds]

/-- Two states that agree on the structures and on the stored placement
produce instance arrays that agree in everything but the masks. -/
theorem instanceList_mask_only (cfg : Config) (sA sB : State)
    (h1 : sB.m_pCubeBLAS = sA.m_pCubeBLAS) (h2 : sB.m_pSmallCubeBLAS = sA.m_pSmallCubeBLAS)
    (h3 : sB.m_pProceduralBLAS = sA.m_pProceduralBLAS)
    (h4 : sB.m_SmallSphereTransforms = sA.m_SmallSphereTransforms)
    (h5 : sB.m_SmallCubeTransforms = sA.m_SmallCubeTransforms)
    (h6 : sB.m_cubesCustomIds = sA.m_cubesCustomIds)
    (j : Nat) (inst inst2 : TLASBuildInstanceData)
    (hA : (instanceList cfg sA)[j]? = some inst) (hB : (instanceList cfg sB)[j]? = some inst2) :
    inst2 = { inst with Mask := inst2.Mask } := by
  have hmap : (instanceList cfg sA).map (fun x => { x with Mask := 0 }) =
      (instanceList cfg sB).map (fun x => { x with Mask := 0 }) := by
    simp only [instanceList, List.map_append, List.map_map]
    congr 1
    · congr 1
      · simp [mainInstanceList, h1]
      · apply List.map_congr_left
        intro i _
        simp [sphereInstanceOf, h3, h4]
    · apply List.map_congr_left
      intro i _
      simp [cubeInstanceOf, h2, h5, h6]
  have hj := congrArg (fun l => l[j]?) hmap
  simp only [List.getElem?_map, hA, hB, Option.map_some', Option.some.injEq] at hj
  cases inst
  cases inst2
  simp only [TLASBuildInstanceData.mk.injEq] at hj ⊢
  exact ⟨hj.1.symm, hj.2.1.symm, hj.2.2.1.symm, hj.2.2.2.1.symm, trivial⟩

theorem UpdateUI_keeps (inp : UIInput) (s : State) :
    (UpdateUI inp s).m_pCubeBLAS = s.m_pCubeBLAS ∧
    (UpdateUI inp s).m_pSmallCubeBLAS = s.m_pSmallCubeBLAS ∧
    (UpdateUI inp s).m_pProceduralBLAS = s.m_pProceduralBLAS := by
  unfold Tutorial21.UpdateUI
  split <;> exact ⟨rfl, rfl, rfl⟩

/-- C13: in every state of a run from a fresh sample in which the TLAS
exists, `UpdateTLAS` returns, leaves `m_SmallSphereTransforms`,
`m_SmallCubeTransforms` and `m_cubesCustomIds` as they are, and passes for
sphere `i` the stored transform and for cube `i` the stored transform and
material id. After any use of the sliders a further `UpdateTLAS` returns
likewise, and the instances it passes differ from those of the first call in
nothing but their masks. -/
theorem C13_placement_once (cfg : Config) (s0 : State) (ops : List Op) (s : State)
    (inp : UIInput) (hfresh : Fresh s0) (hrun : runOps cfg ops s0 = some s)
    (htlas : s.m_pTLAS ≠ none) :
    ∃ s2 s3 a a2, UpdateTLAS cfg s = some s2 ∧ builds s2.ctx = builds s.ctx ++ [a] ∧
      s2.m_SmallSphereTransforms = s.m_SmallSphereTransforms ∧
      s2.m_SmallCubeTransforms = s.m_SmallCubeTransforms ∧
      s2.m_cubesCustomIds = s.m_cubesCustomIds ∧
      (∀ i, i < cfg.NumSmallSpheres → ∃ inst xf, a.pInstances[4 + i]? = some inst ∧
        s.m_SmallSphereTransforms[i]? = some xf ∧ inst.Transform = xf) ∧
      (∀ i, i < cfg.NumSmallCubes → ∃ inst xf id,
        a.pInstances[4 + cfg.NumSmallSpheres + i]? = some inst ∧
        s.m_SmallCubeTransforms[i]? = some xf ∧ s.m_cubesCustomIds[i]? = some id ∧
        inst.Transform = xf ∧ inst.CustomId = id) ∧
      UpdateTLAS cfg (UpdateUI inp s2) = some s3 ∧ builds s3.ctx = builds s2.ctx ++ [a2] ∧
      s3.m_SmallSphereTransforms = s.m_SmallSphereTransforms ∧
      s3.m_SmallCubeTransforms = s.m_SmallCubeTransforms ∧
      s3.m_cubesCustomIds = s.m_cubesCustomIds ∧
      a2.pInstances.length = a.pInstances.length ∧
      ∀ (j : Nat) (inst inst2 : TLASBuildInstanceData),
        a.pInstances[j]? = some inst → a2.pInstances[j]? = some inst2 →
        inst2 = { inst with Mask := inst2.Mask } := by
  have hinv := inv_run cfg ops s0 s (inv_of_fresh cfg s0 hfresh) hrun
  obtain ⟨tlas, ht⟩ := Option.ne_none_iff_exists'.mp htlas
  have hpl := (hinv.created tlas ht).2
  have hupd := UpdateTLAS_update cfg s tlas ht hpl
  have hinv2 := (UpdateTLAS_step cfg s _ hinv hupd).1
  have hf := frame_UpdateUI inp (buildTLASResult cfg true (createBuffersResult cfg s) tlas)
  have hinv3 := inv_of_frame hinv2 hf
  have ht3 : (UpdateUI inp (buildTLASResult cfg true (createBuffersResult cfg s) tlas)).m_pTLAS =
      some ({ tlas with Instances := instanceList cfg (createBuffersResult cfg s) } :
        ITopLevelAS) := by
    rw [hf.tlas]
    rfl
  have hpl3 := (hinv3.created _ ht3).2
  have hupd3 := UpdateTLAS_update cfg _ _ ht3 hpl3
  obtain ⟨k1, k2, k3⟩ := UpdateUI_keeps inp
    (buildTLASResult cfg true (createBuffersResult cfg s) tlas)
  refine ⟨_, _, buildAttribs cfg true (createBuffersResult cfg s),
    buildAttribs cfg true (createBuffersResult cfg
      (UpdateUI inp (buildTLASResult cfg true (createBuffersResult cfg s) tlas))),
    hupd, builds_update cfg s tlas, rfl, rfl, rfl, ?_, ?_, hupd3,
    (builds_update cfg _ _).trans (by rw [hf.buildsEq]),
    hf.sphereTransforms, hf.cubeTransforms, hf.cubeIds, ?_, ?_⟩
  · intro i hi
    have hlt : i < s.m_SmallSphereTransforms.length := by rw [hpl.sphereTransforms]; exact hi
    refine ⟨_, _, instanceList_sphere cfg _ i hi, List.getElem?_eq_getElem hlt, ?_⟩
    simp [sphereInstanceOf, createBuffersResult, List.getElem?_eq_getElem hlt]
  · intro i hi
    have hlt : i < s.m_SmallCubeTransforms.length := by rw [hpl.cubeTransforms]; exact hi
    have hlt2 : i < s.m_cubesCustomIds.length := by rw [hpl.cubeIds]; exact hi
    refine ⟨_, _, _, instanceList_cube cfg _ i hi, List.getElem?_eq_getElem hlt,
      List.getElem?_eq_getElem hlt2, ?_, ?_⟩
    · simp [cubeInstanceOf, createBuffersResult, List.getElem?_eq_getElem hlt]
    · simp [cubeInstanceOf, createBuffersResult, List.getElem?_eq_getElem hlt2]
  · show (instanceList cfg _).length = (instanceList cfg _).length
    rw [instanceList_length, instanceList_length]
  · intro j inst inst2 hA hB
    have hA2 : (instanceList cfg (createBuffersResult cfg s))[j]? = some inst := hA
    have hB2 : (instanceList cfg (createBuffersResult cfg
        (UpdateUI inp (buildTLASResult cfg true (createBuffersResult cfg s) tlas))))[j]? =
        some inst2 := hB
    exact instanceList_mask_only cfg (createBuffersResult cfg s)
      (createBuffersResult cfg
        (UpdateUI inp (buildTLASResult cfg true (createBuffersResult cfg s) tlas)))
      k1 k2 k3 hf.sphereTransforms hf.cubeTransforms hf.cubeIds j inst inst2 hA2 hB2

/-- C13, checked on the example sample after `Initialize`. -/
theorem C13_placement_once_witness :
    ∃ s2 s3 a a2, UpdateTLAS exampleConfig exampleInitialized = some s2 ∧ builds s2.ctx = builds exampleInitialized.ctx ++ [a] ∧
      s2.m_SmallSphereTransforms = exampleInitialized.m_SmallSphereTransforms ∧
      s2.m_SmallCubeTransforms = exampleInitialized.m_SmallCubeTransforms ∧
      s2.m_cubesCustomIds = exampleInitialized.m_cubesCustomIds ∧
      (∀ i, i < exampleConfig.NumSmallSpheres → ∃ inst xf, a.pInstances[4 + i]? = some inst ∧
        exampleInitialized.m_SmallSphereTransforms[i]? = some xf ∧ inst.Transform = xf) ∧
      (∀ i, i < exampleConfig.NumSmallCubes → ∃ inst xf id,
        a.pInstances[4 + exampleConfig.NumSmallSpheres + i]? = some inst ∧
        exampleInitialized.m_SmallCubeTransforms[i]? = some xf ∧ exampleInitialized.m_cubesCustomIds[i]? = some id ∧
        inst.Transform = xf ∧ inst.CustomId = id) ∧
      UpdateTLAS exampleConfig (UpdateUI exampleDrag s2) = some s3 ∧ builds s3.ctx = builds s2.ctx ++ [a2] ∧
      s3.m_SmallSphereTransforms = exampleInitialized.m_SmallSphereTransforms ∧
      s3.m_SmallCubeTransforms = exampleInitialized.m_SmallCubeTransforms ∧
      s3.m_cubesCustomIds = exampleInitialized.m_cubesCustomIds ∧
      a2.pInstances.length = a.pInstances.length ∧
      ∀ (j : Nat) (inst inst2 : TLASBuildInstanceData),
        a.pInstances[j]? = some inst → a2.pInstances[j]? = some inst2 →
        inst2 = { inst with Mask := inst2.Mask } :=
  C13_placement_once exampleConfig exampleFresh [Op.Initialize] exampleInitialized exampleDrag
    exampleFresh_fresh exampleInitialized_run exampleInitialized_tlas

/-! ## Claims C14 and C15: recursion depth -/

theorem depth_trans {s1 s2 s3 : State} (h1 : DepthFrame s1 s2) (h2 : DepthFrame s2 s3) :
    DepthFrame s1 s3 :=
  ⟨h2.depth.trans h1.depth, h2.recursion.trans h1.recursion⟩

theorem depth_setRayTracingVar {s s2 : State} {stage name : String}
    (h : s.setRayTracingVar stage name = some s2) : DepthFrame s s2 := by
  obtain ⟨srb, _, rfl⟩ := setRayTracingVar_some h
  exact ⟨rfl, rfl⟩

theorem depth_LoadTextures {cfg : Config} {s s2 : State}
    (h : LoadTextures cfg s = some s2) : DepthFrame s s2 := by
  unfold Tutorial21.LoadTextures at h
  rw [foldl_emit_eq] at h
  simp only [Option.bind_eq_some] at h
  obtain ⟨s1, hs1, hs2⟩ := h
  have d1 := depth_setRayTracingVar hs1
  have d2 := depth_setRayTracingVar hs2
  exact ⟨d2.depth.trans d1.depth, d2.recursion.trans d1.recursion⟩

theorem depth_CreateCubeBLAS {cfg : Config} {cubeSize : ℚ} {s s2 : State}
    {blas : IBottomLevelAS} (h : CreateCubeBLAS cfg cubeSize s = some (s2, blas)) :
    DepthFrame s s2 := by
  unfold Tutorial21.CreateCubeBLAS at h
  simp only [Option.bind_eq_some] at h
  obtain ⟨s1, hs1, hs2⟩ := h
  have h1 : DepthFrame s s1 := by
    cases hcb : s.m_CubeAttribsCB with
    | some cb =>
      simp only [hcb, Option.some.injEq] at hs1
      subst hs1
      exact ⟨rfl, rfl⟩
    | none =>
      simp only [hcb] at hs1
      have d := depth_setRayTracingVar hs1
      exact ⟨d.depth, d.recursion⟩
  simp only [Option.some.injEq, Prod.mk.injEq] at hs2
  obtain ⟨rfl, _⟩ := hs2
  exact ⟨h1.depth, h1.recursion⟩

theorem depth_CreateProceduralBLAS {cfg : Config} {s s2 : State}
    (h : CreateProceduralBLAS cfg s = some s2) : DepthFrame s s2 := by
  unfold Tutorial21.CreateProceduralBLAS at h
  simp only [Option.bind_eq_some] at h
  obtain ⟨s1, hs1, hs2⟩ := h
  simp only [Option.some.injEq] at hs2
  subst hs2
  have d := depth_setRayTracingVar hs1
  exact ⟨d.depth, d.recursion⟩

theorem depth_CreateSBT {s s2 : State} (h : CreateSBT s = some s2) : DepthFrame s s2 := by
  unfold Tutorial21.CreateSBT at h
  simp only [Option.bind_eq_some] at h
  obtain ⟨g1, _, g2, _, hs2⟩ := h
  simp only [Option.some.injEq] at hs2
  subst hs2
  exact ⟨rfl, rfl⟩

theorem depth_UpdateTLAS {cfg : Config} {s s2 : State} (hinv : TLASInv cfg s)
    (h : UpdateTLAS cfg s = some s2) : DepthFrame s s2 := by
  cases htlas : s.m_pTLAS with
  | none =>
    cases hsrb : s.m_pRayTracingSRB with
    | none =>
      rw [UpdateTLAS_needs_srb cfg s htlas hsrb] at h
      cases h
    | some srb =>
      rw [UpdateTLAS_create cfg s srb htlas hsrb] at h
      simp only [Option.some.injEq] at h
      subst h
      exact ⟨rfl, rfl⟩
  | some tlas =>
    rw [UpdateTLAS_update cfg s tlas htlas (hinv.created tlas htlas).2] at h
    simp only [Option.some.injEq] at h
    subst h
    exact ⟨rfl, rfl⟩

/-- What a completed `Render` leaves: the state after `UpdateTLAS`, with the
two image variables set and six more calls issued. -/
theorem Render_eq {cfg : Config} {s s2 : State} (h : Render cfg s = some s2) :
    ∃ s1 rt srb srb2, UpdateTLAS cfg s = some s1 ∧ s1.m_pColorRT = some rt ∧
      s1.m_pRayTracingSRB = some srb ∧ s1.m_pImageBlitSRB = some srb2 ∧
      s2 = { s1 with
        m_pRayTracingSRB := some
          { srb with vars := srb.vars ++ [("SHADER_TYPE_RAY_GEN", "g_ColorBuffer")] }
        m_pImageBlitSRB := some
          { srb2 with vars := srb2.vars ++ [("SHADER_TYPE_PIXEL", "g_Texture")] }
        ctx := s1.ctx ++
          [Cmd.UpdateBuffer s1.m_ConstantsCB s1.m_Camera,
           Cmd.SetPipelineState "Ray tracing PSO",
           Cmd.TraceRays rt.Width rt.Height (s1.m_pSBT.map fun t => t.Name),
           Cmd.SetRenderTargets,
           Cmd.SetPipelineState "Image blit PSO",
           Cmd.Draw 3] } := by
  unfold Render at h
  simp only [Option.bind_eq_some] at h
  obtain ⟨s1, hs1, h⟩ := h
  cases hc : s1.m_pColorRT with
  | none => simp [State.emit, hc] at h
  | some rt =>
    cases hr : s1.m_pRayTracingSRB with
    | none => simp [State.emit, hc, State.setRayTracingVar, hr] at h
    | some srb =>
      cases hb : s1.m_pImageBlitSRB with
      | none => simp [State.emit, hc, State.setRayTracingVar, hr, hb] at h
      | some srb2 =>
        refine ⟨s1, rt, srb, srb2, hs1, hc, hr, hb, ?_⟩
        simp only [State.emit, hc, State.setRayTracingVar, hr, hb, Option.some_bind,
          Option.some.injEq] at h
        rw [← h]
        simp [hc]

theorem depth_Render {cfg : Config} {s s2 : State} (hinv : TLASInv cfg s)
    (h : Render cfg s = some s2) : DepthFrame s s2 := by
  obtain ⟨s1, rt, srb, srb2, hu, _, _, _, rfl⟩ := Render_eq h
  have d := depth_UpdateTLAS hinv hu
  exact ⟨d.depth, d.recursion⟩

theorem depth_WindowResize (Width Height : Nat) (s : State) :
    DepthFrame s (WindowResize Width Height s) := by
  constructor <;>
    (simp only [Tutorial21.WindowResize]
     split_ifs <;> simp [State.emit])

/-- What a completed `Initialize` on a device with ray tracing does to the
two recursion members. -/
theorem Initialize_depth {cfg : Config} {s s2 : State} (hinv : TLASInv cfg s)
    (hcap : cfg.StandaloneShaders = true) (h : Initialize cfg s = some s2) :
    s2.m_MaxRecursionDepth = min s.m_MaxRecursionDepth cfg.DeviceMaxRecursionDepth ∧
      s2.MaxRecursion = ((min 6 s2.m_MaxRecursionDepth : Nat) : Int) := by
  unfold Initialize at h
  rw [if_neg (by rw [hcap]; simp)] at h
  simp only [Option.bind_eq_some] at h
  obtain ⟨s1, h1, ⟨s2a, b1⟩, h2, ⟨s3a, b2⟩, h3, s4, h4, s5, h5, s6, h6, h7⟩ := h
  simp only [Option.some.injEq] at h7
  subst h7
  have f00 : TLASFrame s (createConstantsCB cfg s) :=
    frame_update (frame_emit s _ (by rfl) (by rfl)) rfl rfl rfl rfl rfl rfl rfl
  have f0 := frame_trans (frame_trans f00 (frame_CreateGraphicsPSO _))
    (frame_CreateRayTracingPSO cfg _)
  have f1 := frame_trans f0 (frame_LoadTextures h1)
  have f2 : TLASFrame s { s2a with m_pCubeBLAS := some b1 } :=
    frame_update (frame_trans f1 (frame_CreateCubeBLAS h2)) rfl rfl rfl rfl rfl rfl rfl
  have f3 : TLASFrame s { s3a with m_pSmallCubeBLAS := some b2 } :=
    frame_update (frame_trans f2 (frame_CreateCubeBLAS h3)) rfl rfl rfl rfl rfl rfl rfl
  have f4 := frame_trans f3 (frame_CreateProceduralBLAS h4)
  have e0 : (CreateRayTracingPSO cfg (CreateGraphicsPSO (createConstantsCB cfg s))).m_MaxRecursionDepth =
      min s.m_MaxRecursionDepth cfg.DeviceMaxRecursionDepth := by
    simp only [CreateRayTracingPSO, foldl_emit_eq]
    simp [CreateGraphicsPSO, createConstantsCB, State.emit]
  have d1 := (depth_LoadTextures h1).depth
  have d2 := (depth_CreateCubeBLAS h2).depth
  have d3 := (depth_CreateCubeBLAS h3).depth
  have d4 := (depth_CreateProceduralBLAS h4).depth
  have d5 := (depth_UpdateTLAS (inv_of_frame hinv f4) h5).depth
  have d6 := (depth_CreateSBT h6).depth
  have e : s6.m_MaxRecursionDepth = min s.m_MaxRecursionDepth cfg.DeviceMaxRecursionDepth := by
    rw [d6, d5, d4]
    show s3a.m_MaxRecursionDepth = _
    rw [d3]
    show s2a.m_MaxRecursionDepth = _
    rw [d2, d1, e0]
  exact ⟨e, rfl⟩

theorem SliderInt_range (v v_min v_max : Int) (drag : Option Int) (h : v_min ≤ v_max)
    (hv : v_min ≤ v ∧ v ≤ v_max) :
    v_min ≤ SliderInt v v_min v_max drag ∧ SliderInt v v_min v_max drag ≤ v_max := by
  unfold SliderInt
  cases drag with
  | none => exact hv
  | some x =>
    simp only
    split_ifs <;> constructor <;> omega

theorem depth_step {cfg : Config} (D : Nat) (hD : 1 ≤ D)
    (hdev : D ≤ cfg.DeviceMaxRecursionDepth) (hcap : cfg.StandaloneShaders = true)
    {op : Op} {s s2 : State} (hinv : TLASInv cfg s)
    (hP : s.m_MaxRecursionDepth = D ∧ 1 ≤ s.MaxRecursion ∧ s.MaxRecursion ≤ (D : Int))
    (h : op.run cfg s = some s2) :
    s2.m_MaxRecursionDepth = D ∧ 1 ≤ s2.MaxRecursion ∧ s2.MaxRecursion ≤ (D : Int) := by
  have hframe : DepthFrame s s2 →
      s2.m_MaxRecursionDepth = D ∧ 1 ≤ s2.MaxRecursion ∧ s2.MaxRecursion ≤ (D : Int) := by
    intro d
    rw [d.depth, d.recursion]
    exact hP
  cases op with
  | Initialize =>
    obtain ⟨e1, e2⟩ := Initialize_depth hinv hcap h
    have e3 : s2.m_MaxRecursionDepth = D := by
      rw [e1, hP.1]
      exact Nat.min_eq_left hdev
    rw [e2, e3]
    refine ⟨rfl, ?_, ?_⟩ <;> omega
  | WindowResize w h2 =>
    simp only [Op.run, Option.some.injEq] at h
    subst h
    exact hframe (depth_WindowResize _ _ _)
  | UpdateUI inp =>
    simp only [Op.run, Option.some.injEq] at h
    subst h
    unfold Tutorial21.UpdateUI
    split
    · have hr := SliderInt_range s.MaxRecursion 1 (s.m_MaxRecursionDepth : Int)
        inp.RecursionDepth (by rw [hP.1]; omega) (by rw [hP.1]; exact hP.2)
      exact ⟨hP.1, hr.1, le_of_le_of_eq hr.2 (by rw [hP.1])⟩
    · exact hP
  | Render => exact hframe (depth_Render hinv h)
  | UpdateTLAS => exact hframe (depth_UpdateTLAS hinv h)

theorem depth_run {cfg : Config} (D : Nat) (hD : 1 ≤ D)
    (hdev : D ≤ cfg.DeviceMaxRecursionDepth) (hcap : cfg.StandaloneShaders = true)
    (ops : List Op) (s s2 : State) (hinv : TLASInv cfg s)
    (hP : s.m_MaxRecursionDepth = D ∧ 1 ≤ s.MaxRecursion ∧ s.MaxRecursion ≤ (D : Int))
    (h : runOps cfg ops s = some s2) :
    s2.m_MaxRecursionDepth = D ∧ 1 ≤ s2.MaxRecursion ∧ s2.MaxRecursion ≤ (D : Int) := by
  induction ops generalizing s with
  | nil =>
    simp only [runOps, Option.some.injEq] at h
    subst h
    exact hP
  | cons op ops ih =>
    simp only [runOps, Option.bind_eq_some] at h
    obtain ⟨s1, h1, h2⟩ := h
    exact ih s1 (inv_step hinv h1) (depth_step D hD hdev hcap hinv hP h1) h2

theorem exampleDeep_run :
    runOps exampleConfig (Op.Initialize :: [Op.UpdateUI exampleDepthDrag]) exampleFresh =
      some exampleDeep := by
  have h : (Initialize exampleConfig exampleFresh).isSome = true := by decide!
  simp only [runOps, Op.run]
  rw [eq_some_getD _ exampleFresh h]
  rfl

/-- C14 as stated fails: on a device that reports a maximum recursion depth
of 0, `Initialize` of the example sample (configured depth 8) leaves
`m_MaxRecursionDepth = 0` and `m_Constants.MaxRecursion = 0`, which is below
1. -/
theorem C14_zero_depth_counterexample :
    ∃ s, Initialize zeroDepthConfig exampleFresh = some s ∧
      s.m_MaxRecursionDepth =
        min exampleFresh.m_MaxRecursionDepth zeroDepthConfig.DeviceMaxRecursionDepth ∧
      s.MaxRecursion = 0 ∧ ¬ (1 ≤ s.MaxRecursion ∧ s.MaxRecursion ≤ (s.m_MaxRecursionDepth : Int)) :=
  ⟨initializeResult zeroDepthConfig exampleFresh,
    Initialize_fresh zeroDepthConfig exampleFresh rfl rfl rfl, rfl, rfl, by decide⟩

/-- C14, amended: when the configured depth and the depth reported by the
device are both at least 1, `Initialize` on a device with ray tracing sets
`m_MaxRecursionDepth` to the minimum of the two and `m_Constants.MaxRecursion`
to `min(6, m_MaxRecursionDepth)`, and in every state of a run that starts
with `Initialize` on a fresh sample `m_MaxRecursionDepth` is that minimum and
`m_Constants.MaxRecursion` lies in `[1, m_MaxRecursionDepth]`; `WindowResize`,
`UpdateTLAS` and `Render` leave it alone and `UpdateUI` stores the slider
value of the range `[1, m_MaxRecursionDepth]`. -/
theorem C14_recursion_depth (cfg : Config) (s0 : State) (ops : List Op) (s : State)
    (hfresh : Fresh s0) (hcap : cfg.StandaloneShaders = true)
    (hconf : 1 ≤ s0.m_MaxRecursionDepth) (hdevice : 1 ≤ cfg.DeviceMaxRecursionDepth)
    (hrun : runOps cfg (Op.Initialize :: ops) s0 = some s) :
    (∃ s1, Initialize cfg s0 = some s1 ∧
      s1.m_MaxRecursionDepth = min s0.m_MaxRecursionDepth cfg.DeviceMaxRecursionDepth ∧
      s1.MaxRecursion = ((min 6 s1.m_MaxRecursionDepth : Nat) : Int)) ∧
    s.m_MaxRecursionDepth = min s0.m_MaxRecursionDepth cfg.DeviceMaxRecursionDepth ∧
    1 ≤ s.MaxRecursion ∧ s.MaxRecursion ≤ (s.m_MaxRecursionDepth : Int) ∧
    (∀ Width Height, (WindowResize Width Height s).MaxRecursion = s.MaxRecursion) ∧
    (∀ s2, UpdateTLAS cfg s = some s2 → s2.MaxRecursion = s.MaxRecursion) ∧
    (∀ s2, Render cfg s = some s2 → s2.MaxRecursion = s.MaxRecursion) ∧
    (∀ inp, (UpdateUI inp s).MaxRecursion =
      if inp.Begin then
        SliderInt s.MaxRecursion 1 (s.m_MaxRecursionDepth : Int) inp.RecursionDepth
      else s.MaxRecursion) := by
  have hinv0 := inv_of_fresh cfg s0 hfresh
  have hinv := inv_run cfg _ s0 s hinv0 hrun
  simp only [runOps, Option.bind_eq_some] at hrun
  obtain ⟨s1, h1, h2⟩ := hrun
  have h1b : Initialize cfg s0 = some s1 := h1
  obtain ⟨e1, e2⟩ := Initialize_depth hinv0 hcap h1b
  have hinv1 : TLASInv cfg s1 := inv_step hinv0 h1
  have hD : 1 ≤ min s0.m_MaxRecursionDepth cfg.DeviceMaxRecursionDepth := by omega
  have hP : s1.m_MaxRecursionDepth = min s0.m_MaxRecursionDepth cfg.DeviceMaxRecursionDepth ∧
      1 ≤ s1.MaxRecursion ∧
      s1.MaxRecursion ≤ ((min s0.m_MaxRecursionDepth cfg.DeviceMaxRecursionDepth : Nat) : Int) := by
    rw [e2, e1]
    refine ⟨rfl, ?_, ?_⟩ <;> omega
  obtain ⟨r1, r2, r3⟩ := depth_run _ hD (Nat.min_le_right _ _) hcap ops s1 s hinv1 hP h2
  refine ⟨⟨s1, h1b, e1, e2⟩, r1, r2, by rw [r1]; exact r3, ?_, ?_, ?_, ?_⟩
  · intro Width Height
    exact (depth_WindowResize Width Height s).recursion
  · intro s2 hs2
    exact (depth_UpdateTLAS hinv hs2).recursion
  · intro s2 hs2
    exact (depth_Render hinv hs2).recursion
  · intro inp
    unfold Tutorial21.UpdateUI
    split <;> rfl

/-- C14 amended, checked on the example sample after `Initialize` and a drag of the recursion-depth slider. -/
theorem C14_recursion_depth_witness :
    (∃ s1, Initialize exampleConfig exampleFresh = some s1 ∧
      s1.m_MaxRecursionDepth = min exampleFresh.m_MaxRecursionDepth exampleConfig.DeviceMaxRecursionDepth ∧
      s1.MaxRecursion = ((min 6 s1.m_MaxRecursionDepth : Nat) : Int)) ∧
    exampleDeep.m_MaxRecursionDepth = min exampleFresh.m_MaxRecursionDepth exampleConfig.DeviceMaxRecursionDepth ∧
    1 ≤ exampleDeep.MaxRecursion ∧ exampleDeep.MaxRecursion ≤ (exampleDeep.m_MaxRecursionDepth : Int) ∧
    (∀ Width Height, (WindowResize Width Height exampleDeep).MaxRecursion = exampleDeep.MaxRecursion) ∧
    (∀ s2, UpdateTLAS exampleConfig exampleDeep = some s2 → s2.MaxRecursion = exampleDeep.MaxRecursion) ∧
    (∀ s2, Render exampleConfig exampleDeep = some s2 → s2.MaxRecursion = exampleDeep.MaxRecursion) ∧
    (∀ inp, (UpdateUI inp exampleDeep).MaxRecursion =
      if inp.Begin then
        SliderInt exampleDeep.MaxRecursion 1 (exampleDeep.m_MaxRecursionDepth : Int) inp.RecursionDepth
      else exampleDeep.MaxRecursion) :=
  C14_recursion_depth exampleConfig exampleFresh [Op.UpdateUI exampleDepthDrag] exampleDeep
    exampleFresh_fresh rfl (by decide) (by decide) exampleDeep_run

/-- C15: `CreateRayTracingPSO` sets `m_MaxRecursionDepth` to the minimum of
its value and the depth reported by the device and declares, in the one
pipeline it creates, that minimum modulo 256; for every configured depth and
every reported depth the declared value is at most the reported depth. -/
theorem C15_declared_depth (cfg : Config) (s : State) :
    ∃ pso, (CreateRayTracingPSO cfg s).m_pRayTracingPSO = some pso ∧
      (CreateRayTracingPSO cfg s).ctx =
        s.ctx ++ rayTracingShaders.map (fun sh => Cmd.CreateShader sh.1 sh.2) ++
          [Cmd.CreateRayTracingPipelineState pso] ∧
      (CreateRayTracingPSO cfg s).m_MaxRecursionDepth =
        min s.m_MaxRecursionDepth cfg.DeviceMaxRecursionDepth ∧
      pso.MaxRecursionDepth = min s.m_MaxRecursionDepth cfg.DeviceMaxRecursionDepth % 256 ∧
      pso.MaxRecursionDepth ≤ cfg.DeviceMaxRecursionDepth := by
  refine ⟨declaredPSO cfg s, ?_, ?_, ?_, rfl, ?_⟩
  · simp only [CreateRayTracingPSO, foldl_emit_eq]
    simp [declaredPSO, State.emit]
  · simp only [CreateRayTracingPSO, foldl_emit_eq]
    simp [declaredPSO, State.emit]
  · simp only [CreateRayTracingPSO, foldl_emit_eq]
    simp [State.emit]
  · exact Nat.le_trans (Nat.mod_le _ _) (Nat.min_le_right _ _)

/-! ## Claim C16: unsupported device and order of creation -/

theorem filter_isCreation_initCalls (cfg : Config) (s : State) :
    (initCalls cfg s).filter Cmd.isCreation =
      [Cmd.CreateGraphicsPipelineState "Image blit PSO",
       Cmd.CreateRayTracingPipelineState (declaredPSO cfg s),
       Cmd.CreateBLAS (cubeBLAS cfg "Cube BLAS"),
       Cmd.CreateBLAS (cubeBLAS cfg "SmallCube BLAS"),
       Cmd.CreateBLAS proceduralBLAS] := by
  have htex : ((List.range cfg.NumTextures).map
      (fun tex => Cmd.CreateTextureFromFile ("DGLogo" ++ toString tex ++ ".png"))).filter
        Cmd.isCreation = [] := by
    rw [List.filter_eq_nil_iff]
    intro c hc
    simp only [List.mem_map] at hc
    obtain ⟨tex, _, rfl⟩ := hc
    simp [Cmd.isCreation]
  simp only [initCalls, List.filter_append, htex]
  simp [cubeBLASCalls, proceduralBLASCalls, rayTracingShaders, Cmd.isCreation, List.filter]

theorem filter_isCreation_createBuffers (cfg : Config) (s : State) :
    (createBuffersResult cfg s).ctx.filter Cmd.isCreation = s.ctx.filter Cmd.isCreation := by
  simp only [createBuffersResult]
  split_ifs <;> simp [List.filter_append, Cmd.isCreation, List.filter]

/-- C16: on a device without stand-alone ray-tracing shaders `Initialize`
returns with all members as they were and the report of the unsupported
feature as its only call, so that from a fresh sample no buffer, pipeline,
texture, BLAS, TLAS or binding table exists; on a device with them
`Initialize` of a fresh sample returns and its creation calls are, in this
order: the graphics pipeline, the ray-tracing pipeline, the two cube BLASes,
the procedural BLAS, the TLAS and the binding table. -/
theorem C16_unsupported_device (cfg : Config) (s0 : State) (hfresh : Fresh s0) :
    (cfg.StandaloneShaders = false →
      ∃ s, Initialize cfg s0 = some s ∧
        s = s0.emit (Cmd.Unsupported "Ray tracing shaders are not supported by device") ∧
        s.ctx = [Cmd.Unsupported "Ray tracing shaders are not supported by device"] ∧
        s.m_ConstantsCB = none ∧ s.m_pImageBlitPSO = none ∧ s.m_pRayTracingPSO = none ∧
        s.m_CubeAttribsCB = none ∧ s.m_BoxAttribsCB = none ∧ s.m_pCubeBLAS = none ∧
        s.m_pSmallCubeBLAS = none ∧ s.m_pProceduralBLAS = none ∧ s.m_pTLAS = none ∧
        s.m_ScratchBuffer = none ∧ s.m_InstanceBuffer = none ∧ s.m_pSBT = none ∧
        s.m_pColorRT = none) ∧
    (cfg.StandaloneShaders = true →
      ∃ s, Initialize cfg s0 = some s ∧
        s.ctx.filter Cmd.isCreation =
          [Cmd.CreateGraphicsPipelineState "Image blit PSO",
           Cmd.CreateRayTracingPipelineState (declaredPSO cfg s0),
           Cmd.CreateBLAS (cubeBLAS cfg "Cube BLAS"),
           Cmd.CreateBLAS (cubeBLAS cfg "SmallCube BLAS"),
           Cmd.CreateBLAS proceduralBLAS,
           Cmd.CreateTLAS { Name := "TLAS", MaxInstanceCount := cfg.NumInstances },
           Cmd.CreateSBT "SBT"] ∧
        s.m_pImageBlitPSO = some "Image blit PSO" ∧
        s.m_pRayTracingPSO = some (declaredPSO cfg s0) ∧
        s.m_pCubeBLAS = some (cubeBLAS cfg "Cube BLAS") ∧
        s.m_pSmallCubeBLAS = some (cubeBLAS cfg "SmallCube BLAS") ∧
        s.m_pProceduralBLAS = some proceduralBLAS ∧
        s.m_pTLAS.isSome = true ∧ s.m_pSBT.isSome = true) := by
  obtain ⟨h1, h2, h3, h4, h5, h6, h7, h8, h9, h10, h11, h12, h13, h14, h15, _, _, _, _, _,
    hctx⟩ := hfresh
  constructor
  · intro hcap
    refine ⟨_, ?_, rfl, ?_, h1, h2, h4, h6, h7, h8, h9, h10, h11, h12, h13, h14, h15⟩
    · unfold Initialize
      rw [if_pos hcap]
    · show s0.ctx ++ _ = _
      rw [hctx]
      rfl
  · intro hcap
    refine ⟨initializeResult cfg s0, Initialize_fresh cfg s0 hcap h6 h11, ?_, rfl, rfl, rfl, rfl,
      rfl, rfl, rfl⟩
    show ((createBuffersResult cfg (createTLASResult cfg (initResources cfg s0) initSRB)).ctx ++
      [Cmd.BuildTLAS _] ++ [Cmd.CreateSBT "SBT"] ++ [Cmd.UpdateSBT]).filter Cmd.isCreation = _
    rw [List.filter_append, List.filter_append, List.filter_append,
      filter_isCreation_createBuffers]
    show ((s0.ctx ++ initCalls cfg s0 ++ [Cmd.CreateTLAS _]).filter Cmd.isCreation ++ _ ++ _ ++ _) = _
    rw [List.filter_append, List.filter_append, filter_isCreation_initCalls, hctx]
    simp [Cmd.isCreation, List.filter]

/-- C16, checked on the fresh example sample with a device without and a
device with stand-alone ray-tracing shaders. -/
theorem C16_unsupported_device_witness :
    (∃ s, Initialize unsupportedConfig exampleFresh = some s ∧
        s = exampleFresh.emit
          (Cmd.Unsupported "Ray tracing shaders are not supported by device") ∧
        s.ctx = [Cmd.Unsupported "Ray tracing shaders are not supported by device"] ∧
        s.m_ConstantsCB = none ∧ s.m_pImageBlitPSO = none ∧ s.m_pRayTracingPSO = none ∧
        s.m_CubeAttribsCB = none ∧ s.m_BoxAttribsCB = none ∧ s.m_pCubeBLAS = none ∧
        s.m_pSmallCubeBLAS = none ∧ s.m_pProceduralBLAS = none ∧ s.m_pTLAS = none ∧
        s.m_ScratchBuffer = none ∧ s.m_InstanceBuffer = none ∧ s.m_pSBT = none ∧
        s.m_pColorRT = none) ∧
    (∃ s, Initialize exampleConfig exampleFresh = some s ∧
        s.ctx.filter Cmd.isCreation =
          [Cmd.CreateGraphicsPipelineState "Image blit PSO",
           Cmd.CreateRayTracingPipelineState (declaredPSO exampleConfig exampleFresh),
           Cmd.CreateBLAS (cubeBLAS exampleConfig "Cube BLAS"),
           Cmd.CreateBLAS (cubeBLAS exampleConfig "SmallCube BLAS"),
           Cmd.CreateBLAS proceduralBLAS,
           Cmd.CreateTLAS { Name := "TLAS", MaxInstanceCount := exampleConfig.NumInstances },
           Cmd.CreateSBT "SBT"] ∧
        s.m_pImageBlitPSO = some "Image blit PSO" ∧
        s.m_pRayTracingPSO = some (declaredPSO exampleConfig exampleFresh) ∧
        s.m_pCubeBLAS = some (cubeBLAS exampleConfig "Cube BLAS") ∧
        s.m_pSmallCubeBLAS = some (cubeBLAS exampleConfig "SmallCube BLAS") ∧
        s.m_pProceduralBLAS = some proceduralBLAS ∧
        s.m_pTLAS.isSome = true ∧ s.m_pSBT.isSome = true) :=
  ⟨(C16_unsupported_device unsupportedConfig exampleFresh exampleFresh_fresh).1 rfl,
    (C16_unsupported_device exampleConfig exampleFresh exampleFresh_fresh).2 rfl⟩

/-! ## Claim C17: the calls of a frame -/

/-- The calls that the buffer creation of `UpdateTLAS` issues in state `s`. -/
theorem createBuffersResult_ctx (cfg : Config) (s : State) :
    ∃ pre, (createBuffersResult cfg s).ctx = s.ctx ++ pre ∧
      (∀ c ∈ pre, ∃ desc, c = Cmd.CreateBuffer desc []) ∧
      (s.m_ScratchBuffer ≠ none → s.m_InstanceBuffer ≠ none → pre = []) := by
  refine ⟨(if s.m_ScratchBuffer = none then [Cmd.CreateBuffer (scratchBufferDesc cfg) []] else []) ++
    (if s.m_InstanceBuffer = none then [Cmd.CreateBuffer (instanceBufferDesc cfg) []] else []),
    ?_, ?_, ?_⟩
  · simp [createBuffersResult, List.append_assoc]
  · intro c hc
    simp only [List.mem_append] at hc
    rcases hc with hc | hc
    · split_ifs at hc
      · simp only [List.mem_singleton] at hc
        exact ⟨_, hc⟩
      · simp at hc
    · split_ifs at hc
      · simp only [List.mem_singleton] at hc
        exact ⟨_, hc⟩
      · simp at hc
  · intro h1 h2
    simp [h1, h2]

/-- The calls of one completed `UpdateTLAS`, and the members that the frame
uses afterwards. -/
theorem UpdateTLAS_ctx {cfg : Config} {s s1 : State} (hinv : TLASInv cfg s)
    (h : UpdateTLAS cfg s = some s1) :
    ∃ pre a, s1.ctx = s.ctx ++ pre ++ [Cmd.BuildTLAS a] ∧
      (∀ c ∈ pre, (∃ desc, c = Cmd.CreateTLAS desc) ∨ (∃ desc, c = Cmd.CreateBuffer desc [])) ∧
      (s.m_pTLAS ≠ none → s.m_ScratchBuffer ≠ none → s.m_InstanceBuffer ≠ none → pre = []) ∧
      a.Update = s.m_pTLAS.isSome ∧ a.InstanceCount = cfg.NumInstances ∧
      a.pInstances.length = cfg.NumInstances ∧
      s1.m_ConstantsCB = s.m_ConstantsCB ∧ s1.m_Camera = s.m_Camera ∧
      s1.m_pSBT = s.m_pSBT ∧ s1.m_pColorRT = s.m_pColorRT := by
  cases htlas : s.m_pTLAS with
  | none =>
    cases hsrb : s.m_pRayTracingSRB with
    | none =>
      rw [UpdateTLAS_needs_srb cfg s htlas hsrb] at h
      cases h
    | some srb =>
      rw [UpdateTLAS_create cfg s srb htlas hsrb] at h
      simp only [Option.some.injEq] at h
      subst h
      obtain ⟨pre, hpre, hall, _⟩ := createBuffersResult_ctx cfg (createTLASResult cfg s srb)
      refine ⟨Cmd.CreateTLAS { Name := "TLAS", MaxInstanceCount := cfg.NumInstances } :: pre,
        buildAttribs cfg false (createBuffersResult cfg (createTLASResult cfg s srb)),
        ?_, ?_, ?_, rfl, rfl, instanceList_length _ _, rfl, rfl, rfl, rfl⟩
      · show (createBuffersResult cfg (createTLASResult cfg s srb)).ctx ++ _ = _
        rw [hpre]
        simp [createTLASResult]
      · intro c hc
        rcases List.mem_cons.mp hc with rfl | hc
        · exact Or.inl ⟨_, rfl⟩
        · exact Or.inr (hall c hc)
      · intro hn
        exact absurd rfl hn
  | some tlas =>
    rw [UpdateTLAS_update cfg s tlas htlas (hinv.created tlas htlas).2] at h
    simp only [Option.some.injEq] at h
    subst h
    obtain ⟨pre, hpre, hall, hnil⟩ := createBuffersResult_ctx cfg s
    refine ⟨pre, buildAttribs cfg true (createBuffersResult cfg s), ?_, ?_, ?_, rfl, rfl,
      instanceList_length _ _, rfl, rfl, rfl, rfl⟩
    · show (createBuffersResult cfg s).ctx ++ _ = _
      rw [hpre]
    · intro c hc
      exact Or.inr (hall c hc)
    · intro _ h1 h2
      exact hnil h1 h2

theorem exampleResized_run :
    runOps exampleConfig [Op.Initialize, Op.WindowResize 800 600] exampleFresh =
      some exampleResized := by
  have h : (Initialize exampleConfig exampleFresh).isSome = true := by decide!
  simp only [runOps, Op.run]
  rw [eq_some_getD _ exampleFresh h]
  rfl

theorem exampleResized_srb : exampleResized.m_pRayTracingSRB ≠ none := by decide!

theorem exampleResized_blit : exampleResized.m_pImageBlitSRB ≠ none := by decide!

theorem exampleResized_color : exampleResized.m_pColorRT = some exampleColorRT := by decide!

/-- C17: in every state of a run from a fresh sample in which the two
binding objects and the colour image exist, `Render` returns and issues, after
the calls already made, in this order: the calls of `UpdateTLAS`, ending with
its one `BuildTLAS` (before it only the creation of a missing TLAS or
buffer, none when they exist); `UpdateBuffer` of the constants buffer with the
current camera; `SetPipelineState` of the ray-tracing pipeline and one
`TraceRays` with the width and height of the colour image and the binding
table; `SetRenderTargets`, `SetPipelineState` of the blit pipeline and one
`Draw`. -/
theorem C17_frame_sequence (cfg : Config) (s0 : State) (ops : List Op) (s : State)
    (rt : TextureDesc) (hfresh : Fresh s0) (hrun : runOps cfg ops s0 = some s)
    (hrts : s.m_pRayTracingSRB ≠ none) (hblit : s.m_pImageBlitSRB ≠ none)
    (hc : s.m_pColorRT = some rt) :
    ∃ s1 s2 pre a, UpdateTLAS cfg s = some s1 ∧ Render cfg s = some s2 ∧
      s1.ctx = s.ctx ++ pre ++ [Cmd.BuildTLAS a] ∧
      (∀ c ∈ pre, (∃ desc, c = Cmd.CreateTLAS desc) ∨ (∃ desc, c = Cmd.CreateBuffer desc [])) ∧
      (s.m_pTLAS ≠ none → s.m_ScratchBuffer ≠ none → s.m_InstanceBuffer ≠ none → pre = []) ∧
      a.Update = s.m_pTLAS.isSome ∧ a.InstanceCount = cfg.NumInstances ∧
      s2.ctx = s.ctx ++ pre ++
        [Cmd.BuildTLAS a,
         Cmd.UpdateBuffer s.m_ConstantsCB s.m_Camera,
         Cmd.SetPipelineState "Ray tracing PSO",
         Cmd.TraceRays rt.Width rt.Height (s.m_pSBT.map fun t => t.Name),
         Cmd.SetRenderTargets,
         Cmd.SetPipelineState "Image blit PSO",
         Cmd.Draw 3] := by
  have hinv := inv_run cfg ops s0 s (inv_of_fresh cfg s0 hfresh) hrun
  obtain ⟨s2, h2, _, _⟩ := Render_total cfg s hinv ⟨hrts, hblit⟩ (by rw [hc]; simp)
  obtain ⟨s1, rt1, srb, srb2, hu, hc1, _, _, rfl⟩ := Render_eq h2
  obtain ⟨pre, a, e1, e2, e3, e4, e5, _, k1, k2, k3, k4⟩ := UpdateTLAS_ctx hinv hu
  have hrt : rt1 = rt := by
    rw [k4, hc] at hc1
    exact (Option.some.inj hc1).symm
  subst hrt
  refine ⟨s1, _, pre, a, hu, h2, e1, e2, e3, e4, e5, ?_⟩
  show s1.ctx ++ _ = _
  rw [e1, k1, k2, k3]
  simp

/-- C17, checked on the example sample after `Initialize` and `WindowResize(800, 600)`. -/
theorem C17_frame_sequence_witness :
    ∃ s1 s2 pre a, UpdateTLAS exampleConfig exampleResized = some s1 ∧ Render exampleConfig exampleResized = some s2 ∧
      s1.ctx = exampleResized.ctx ++ pre ++ [Cmd.BuildTLAS a] ∧
      (∀ c ∈ pre, (∃ desc, c = Cmd.CreateTLAS desc) ∨ (∃ desc, c = Cmd.CreateBuffer desc [])) ∧
      (exampleResized.m_pTLAS ≠ none → exampleResized.m_ScratchBuffer ≠ none → exampleResized.m_InstanceBuffer ≠ none → pre = []) ∧
      a.Update = exampleResized.m_pTLAS.isSome ∧ a.InstanceCount = exampleConfig.NumInstances ∧
      s2.ctx = exampleResized.ctx ++ pre ++
        [Cmd.BuildTLAS a,
         Cmd.UpdateBuffer exampleResized.m_ConstantsCB exampleResized.m_Camera,
         Cmd.SetPipelineState "Ray tracing PSO",
         Cmd.TraceRays exampleColorRT.Width exampleColorRT.Height (exampleResized.m_pSBT.map fun t => t.Name),
         Cmd.SetRenderTargets,
         Cmd.SetPipelineState "Image blit PSO",
         Cmd.Draw 3] :=
  C17_frame_sequence exampleConfig exampleFresh [Op.Initialize, Op.WindowResize 800 600]
    exampleResized exampleColorRT exampleFresh_fresh exampleResized_run exampleResized_srb
    exampleResized_blit exampleResized_color

/-! ## Claim C18: window resize -/

theorem aspect_error (Width Height : Nat) (hw : 0 < Width) (hh : 0 < Height)
    (hw2 : Width < 2 ^ 24) (hh2 : Height < 2 ^ 24) :
    roundFloat (roundFloat (Width : ℚ) / roundFloat (Height : ℚ)) =
        roundFloat ((Width : ℚ) / (Height : ℚ)) ∧
      |roundFloat ((Width : ℚ) / (Height : ℚ)) - (Width : ℚ) / (Height : ℚ)| ≤
        (Width : ℚ) / (Height : ℚ) / 2 ^ 23 := by
  rw [roundFloat_natCast Width hw2, roundFloat_natCast Height hh2]
  refine ⟨rfl, ?_⟩
  have hW : (1 : ℚ) ≤ (Width : ℚ) := by exact_mod_cast hw
  have hH : (0 : ℚ) < (Height : ℚ) := by exact_mod_cast hh
  have hH2 : (Height : ℚ) ≤ 2 ^ 24 := by exact_mod_cast Nat.le_of_lt hh2
  have hq : (1 : ℚ) / 2 ^ 24 ≤ (Width : ℚ) / (Height : ℚ) := by
    rw [div_le_div_iff₀ (by positivity) hH]
    nlinarith
  have e := roundFloat_error ((Width : ℚ) / (Height : ℚ))
  rw [abs_of_nonneg (by positivity : (0 : ℚ) ≤ (Width : ℚ) / (Height : ℚ))] at e
  generalize (Width : ℚ) / (Height : ℚ) = q at hq e
  norm_num at hq e ⊢
  linarith

/-- C18 as stated fails: after `WindowResize(800, 600)` the aspect ratio is
the single-precision quotient `11184811/8388608`, not `800 / 600`. -/
theorem C18_aspect_counterexample :
    (WindowResize 800 600 exampleInitialized).AspectRatio = some (11184811 / 8388608) ∧
      (11184811 / 8388608 : ℚ) ≠ ((800 : Nat) : ℚ) / ((600 : Nat) : ℚ) ∧
      (WindowResize 800 600 exampleInitialized).AspectRatio ≠
        some (((800 : Nat) : ℚ) / ((600 : Nat) : ℚ)) := by
  have h : (WindowResize 800 600 exampleInitialized).AspectRatio =
      some (11184811 / 8388608) := by decide!
  refine ⟨h, by norm_num, ?_⟩
  rw [h]
  norm_num

/-- C18, amended: `WindowResize(Width, Height)` with `Width > 0` and
`Height > 0` leaves a colour image of exactly that width and height and the
projection set with the aspect ratio `float(Width) / float(Height)` computed in
single precision, which for sizes below `2^24` is the `float` nearest to
`Width / Height` and differs from it by at most `(Width / Height) / 2^23`: an
image that already has that size is kept and no call is issued, otherwise the
image is replaced by a new image "Color buffer" of that size, created by the
one call issued. With `Width = 0` or `Height = 0` the state stays as it is. In
every case the BLASes, the TLAS, the scratch and instance buffers, the stored
transforms and material ids and the active counts are unchanged. -/
theorem C18_window_resize (Width Height : Nat) (s : State) :
    (0 < Width → 0 < Height →
      (∃ t, (WindowResize Width Height s).m_pColorRT = some t ∧
        t.Width = Width ∧ t.Height = Height) ∧
      (WindowResize Width Height s).AspectRatio =
        some (roundFloat (roundFloat (Width : ℚ) / roundFloat (Height : ℚ))) ∧
      (Width < 2 ^ 24 → Height < 2 ^ 24 →
        roundFloat (roundFloat (Width : ℚ) / roundFloat (Height : ℚ)) =
          roundFloat ((Width : ℚ) / (Height : ℚ)) ∧
        |roundFloat ((Width : ℚ) / (Height : ℚ)) - (Width : ℚ) / (Height : ℚ)| ≤
          (Width : ℚ) / (Height : ℚ) / 2 ^ 23) ∧
      ((∃ t, s.m_pColorRT = some t ∧ t.Width = Width ∧ t.Height = Height) →
        (WindowResize Width Height s).m_pColorRT = s.m_pColorRT ∧
        (WindowResize Width Height s).ctx = s.ctx) ∧
      (¬ (∃ t, s.m_pColorRT = some t ∧ t.Width = Width ∧ t.Height = Height) →
        (WindowResize Width Height s).m_pColorRT =
          some { Name := "Color buffer", Width := Width, Height := Height } ∧
        (WindowResize Width Height s).ctx = s.ctx ++
          [Cmd.CreateTexture { Name := "Color buffer", Width := Width, Height := Height }])) ∧
    (Width = 0 ∨ Height = 0 → WindowResize Width Height s = s) ∧
    (WindowResize Width Height s).m_pCubeBLAS = s.m_pCubeBLAS ∧
    (WindowResize Width Height s).m_pSmallCubeBLAS = s.m_pSmallCubeBLAS ∧
    (WindowResize Width Height s).m_pProceduralBLAS = s.m_pProceduralBLAS ∧
    (WindowResize Width Height s).m_pTLAS = s.m_pTLAS ∧
    (WindowResize Width Height s).m_ScratchBuffer = s.m_ScratchBuffer ∧
    (WindowResize Width Height s).m_InstanceBuffer = s.m_InstanceBuffer ∧
    (WindowResize Width Height s).m_SmallSphereTransforms = s.m_SmallSphereTransforms ∧
    (WindowResize Width Height s).m_SmallCubeTransforms = s.m_SmallCubeTransforms ∧
    (WindowResize Width Height s).m_cubesCustomIds = s.m_cubesCustomIds ∧
    (WindowResize Width Height s).m_NumActiveSmallSpheres = s.m_NumActiveSmallSpheres ∧
    (WindowResize Width Height s).m_NumActiveSmallCubes = s.m_NumActiveSmallCubes := by
  refine ⟨?_, ?_, ?_⟩
  · intro hw hh
    have hz : ¬ (Width = 0 ∨ Height = 0) := by omega
    have ha := aspect_error Width Height hw hh
    cases hrt : s.m_pColorRT with
    | none =>
      simp [Tutorial21.WindowResize, hz, hrt, State.emit]
      exact ha
    | some t =>
      by_cases hsize : t.Width = Width ∧ t.Height = Height
      · simp [Tutorial21.WindowResize, hz, hrt, hsize]
        exact ha
      · simp [Tutorial21.WindowResize, hz, hrt, hsize, State.emit]
        exact ha
  · intro hz
    simp [Tutorial21.WindowResize, hz]
  · simp only [Tutorial21.WindowResize]
    split_ifs <;> simp [State.emit]

/-- C18, amended, checked on the example sample after `Initialize`: a resize
to 800 x 600 and a resize to width 0. -/
theorem C18_window_resize_witness :
    ((∃ t, (WindowResize 800 600 exampleInitialized).m_pColorRT = some t ∧
        t.Width = 800 ∧ t.Height = 600) ∧
      (WindowResize 800 600 exampleInitialized).AspectRatio =
        some (roundFloat (roundFloat ((800 : Nat) : ℚ) / roundFloat ((600 : Nat) : ℚ))) ∧
      (800 < 2 ^ 24 → 600 < 2 ^ 24 →
        roundFloat (roundFloat ((800 : Nat) : ℚ) / roundFloat ((600 : Nat) : ℚ)) =
          roundFloat (((800 : Nat) : ℚ) / ((600 : Nat) : ℚ)) ∧
        |roundFloat (((800 : Nat) : ℚ) / ((600 : Nat) : ℚ)) -
            ((800 : Nat) : ℚ) / ((600 : Nat) : ℚ)| ≤
          ((800 : Nat) : ℚ) / ((600 : Nat) : ℚ) / 2 ^ 23) ∧
      ((∃ t, exampleInitialized.m_pColorRT = some t ∧ t.Width = 800 ∧ t.Height = 600) →
        (WindowResize 800 600 exampleInitialized).m_pColorRT = exampleInitialized.m_pColorRT ∧
        (WindowResize 800 600 exampleInitialized).ctx = exampleInitialized.ctx) ∧
      (¬ (∃ t, exampleInitialized.m_pColorRT = some t ∧ t.Width = 800 ∧ t.Height = 600) →
        (WindowResize 800 600 exampleInitialized).m_pColorRT =
          some { Name := "Color buffer", Width := 800, Height := 600 } ∧
        (WindowResize 800 600 exampleInitialized).ctx = exampleInitialized.ctx ++
          [Cmd.CreateTexture { Name := "Color buffer", Width := 800, Height := 600 }])) ∧
    WindowResize 0 600 exampleInitialized = exampleInitialized :=
  ⟨(C18_window_resize 800 600 exampleInitialized).1 (by decide) (by decide),
    (C18_window_resize 0 600 exampleInitialized).2.1 (Or.inl rfl)⟩

/-! ## Claim C19: the procedural BLAS -/

/-- C19 as stated fails: `CreateProceduralBLAS`, run on the example sample,
stores two boxes in the buffer but describes the BLAS with `MaxBoxCount = 1`
and builds it with `BoxCount = 1`, not with two boxes. -/
theorem C19_one_box_counterexample :
    ∃ s a, CreateProceduralBLAS exampleConfig exampleReady = some s ∧
      Boxes.length = 2 ∧
      s.m_pProceduralBLAS =
        some { Name := "Procedural BLAS", Geometry := BLASGeometry.Boxes "Box" 1 } ∧
      s.ctx.getLast? = some (Cmd.BuildBLAS a) ∧ a.BoxCount = 1 ∧ a.BoxCount ≠ 2 := by
  refine ⟨(CreateProceduralBLAS exampleConfig exampleReady).getD exampleReady,
    { pBLAS := some proceduralBLAS, BoxDataCount := 1, BoxCount := 1 }, ?_, rfl, ?_, ?_, rfl,
    by decide⟩
  · exact eq_some_getD _ _ (by decide!)
  · decide!
  · decide!

/-- C19, amended: `CreateProceduralBLAS` returns whenever the ray-tracing
binding object exists. It creates the box buffer with two axis-aligned boxes
around the origin, of half-extents 1.5 and 0.5, and a bounding-box-only BLAS
that is described with `MaxBoxCount = 1` and built with one box data set of
`BoxCount = 1` and with no triangle data. -/
theorem C19_procedural_blas (cfg : Config) (s : State) (hsrb : s.m_pRayTracingSRB ≠ none) :
    ∃ s2, CreateProceduralBLAS cfg s = some s2 ∧
      Boxes = [⟨-3 / 2, -3 / 2, -3 / 2, 3 / 2, 3 / 2, 3 / 2⟩,
               ⟨-1 / 2, -1 / 2, -1 / 2, 1 / 2, 1 / 2, 1 / 2⟩] ∧
      s2.m_BoxAttribsCB = some { Name := "AABB Buffer", Size := 2 * cfg.SizeofBoxAttribs } ∧
      s2.m_pProceduralBLAS =
        some { Name := "Procedural BLAS", Geometry := BLASGeometry.Boxes "Box" 1 } ∧
      s2.ctx = s.ctx ++
        [Cmd.CreateBuffer { Name := "AABB Buffer", Size := 2 * cfg.SizeofBoxAttribs } Boxes,
         Cmd.CreateBLAS { Name := "Procedural BLAS", Geometry := BLASGeometry.Boxes "Box" 1 },
         Cmd.CreateBuffer { Name := "BLAS Scratch Buffer", Size := cfg.BLASScratchBuild } [],
         Cmd.BuildBLAS
           { pBLAS := some { Name := "Procedural BLAS", Geometry := BLASGeometry.Boxes "Box" 1 }
             TriangleDataCount := 0
             PrimitiveCount := 0
             BoxDataCount := 1
             BoxCount := 1 }] := by
  obtain ⟨srb, hs⟩ := Option.ne_none_iff_exists'.mp hsrb
  have hb : Boxes = [⟨-3 / 2, -3 / 2, -3 / 2, 3 / 2, 3 / 2, 3 / 2⟩,
      ⟨-1 / 2, -1 / 2, -1 / 2, 1 / 2, 1 / 2, 1 / 2⟩] := by
    simp only [Boxes, List.cons.injEq, BoxAttribs.mk.injEq, and_true]
    norm_num
  have hl : Boxes.length = 2 := rfl
  have hrun : CreateProceduralBLAS cfg s = some
      { s with
        m_BoxAttribsCB := some
          { Name := "AABB Buffer", Size := Boxes.length * cfg.SizeofBoxAttribs }
        m_pRayTracingSRB := some
          { srb with vars := srb.vars ++ [("SHADER_TYPE_RAY_INTERSECTION", "g_BoxAttribs")] }
        m_pProceduralBLAS := some proceduralBLAS
        ctx := s.ctx ++ proceduralBLASCalls cfg } := by
    simp [CreateProceduralBLAS, State.setRayTracingVar, State.emit, hs, proceduralBLASCalls,
      proceduralBLAS]
  refine ⟨_, hrun, hb, ?_, rfl, ?_⟩
  · simp [hl]
  · simp [hl, proceduralBLASCalls, proceduralBLAS]

/-- C19 amended, checked on the example state with the binding object. -/
theorem C19_procedural_blas_witness :
    ∃ s2, CreateProceduralBLAS exampleConfig exampleReady = some s2 ∧
      Boxes = [⟨-3 / 2, -3 / 2, -3 / 2, 3 / 2, 3 / 2, 3 / 2⟩,
               ⟨-1 / 2, -1 / 2, -1 / 2, 1 / 2, 1 / 2, 1 / 2⟩] ∧
      s2.m_BoxAttribsCB =
        some { Name := "AABB Buffer", Size := 2 * exampleConfig.SizeofBoxAttribs } ∧
      s2.m_pProceduralBLAS =
        some { Name := "Procedural BLAS", Geometry := BLASGeometry.Boxes "Box" 1 } ∧
      s2.ctx = exampleReady.ctx ++
        [Cmd.CreateBuffer { Name := "AABB Buffer", Size := 2 * exampleConfig.SizeofBoxAttribs }
           Boxes,
         Cmd.CreateBLAS { Name := "Procedural BLAS", Geometry := BLASGeometry.Boxes "Box" 1 },
         Cmd.CreateBuffer
           { Name := "BLAS Scratch Buffer", Size := exampleConfig.BLASScratchBuild } [],
         Cmd.BuildBLAS
           { pBLAS := some { Name := "Procedural BLAS", Geometry := BLASGeometry.Boxes "Box" 1 }
             TriangleDataCount := 0
             PrimitiveCount := 0
             BoxDataCount := 1
             BoxCount := 1 }] :=
  C19_procedural_blas exampleConfig exampleReady exampleReady_srb

/-! ## Claim C20: cube hit groups -/

theorem cubeHitGroup_iff (id : Nat) :
    (cubeHitGroup id = "CubePrimaryHit" ↔ id = 1) ∧
    (cubeHitGroup id = "GlassPrimaryHit" ↔ id ≠ 1) := by
  have d : ("GlassPrimaryHit" : String) ≠ "CubePrimaryHit" := by decide
  unfold cubeHitGroup
  by_cases h0 : id = 0
  · subst h0
    simp [d]
  · by_cases h1 : id = 1
    · subst h1
      simp [d.symm]
    · simp [h0, h1, d]

/-- C20: `CreateSBT` returns and binds for small cube `i`, by its stored
name and for the primary ray, the hit group `cubeHitGroup id` of its stored
material id `id = m_cubesCustomIds[i]`: `GlassPrimaryHit` for id 0,
`CubePrimaryHit` for id 1, `GlassPrimaryHit` for id 2 and every other id,
so `CubePrimaryHit` iff the id is 1. The three big cubes are bound to
`GlassPrimaryHit` and the ground to `GroundHit` in every state. -/
theorem C20_cube_hit_groups (s : State)
    (h : s.m_CubeInstanceNames.length ≤ s.m_cubesCustomIds.length) :
    ∃ s2 sbt, CreateSBT s = some s2 ∧ s2.m_pSBT = some sbt ∧
      (∀ i name id, s.m_CubeInstanceNames[i]? = some name → s.m_cubesCustomIds[i]? = some id →
        sbt.bindings[8 + 2 * s.m_SphereInstanceNames.length + i]? = some
          (SBTBinding.BindHitGroupForInstance name RayIndex.PRIMARY_RAY_INDEX
            (some (cubeHitGroup id)))) ∧
      sbt.bindings.length =
        8 + 2 * s.m_SphereInstanceNames.length + s.m_CubeInstanceNames.length ∧
      cubeHitGroup 0 = "GlassPrimaryHit" ∧ cubeHitGroup 1 = "CubePrimaryHit" ∧
      cubeHitGroup 2 = "GlassPrimaryHit" ∧
      (∀ id, (cubeHitGroup id = "CubePrimaryHit" ↔ id = 1) ∧
        (cubeHitGroup id = "GlassPrimaryHit" ↔ id ≠ 1)) ∧
      sbt.bindings[3]? = some (SBTBinding.BindHitGroupForInstance "Cube Instance 1"
        RayIndex.PRIMARY_RAY_INDEX (some "GlassPrimaryHit")) ∧
      sbt.bindings[4]? = some (SBTBinding.BindHitGroupForInstance "Cube Instance 2"
        RayIndex.PRIMARY_RAY_INDEX (some "GlassPrimaryHit")) ∧
      sbt.bindings[5]? = some (SBTBinding.BindHitGroupForInstance "Cube Instance 3"
        RayIndex.PRIMARY_RAY_INDEX (some "GlassPrimaryHit")) ∧
      sbt.bindings[6]? = some (SBTBinding.BindHitGroupForInstance "Ground Instance"
        RayIndex.PRIMARY_RAY_INDEX (some "GroundHit")) := by
  have hl : ((List.range s.m_SphereInstanceNames.length).flatMap
      (sphereBindingsOf s s.rngDrawn)).length = 2 * s.m_SphereInstanceNames.length :=
    flatMap_pair_length _ _ _
  have hfix : ∀ k, k < 8 → (sbtBindings s)[k]? = fixedBindings[k]? := by
    intro k hk
    unfold sbtBindings
    rw [List.getElem?_append_left (by rw [List.length_append, fixedBindings_length]; omega),
      List.getElem?_append_left (by rw [fixedBindings_length]; exact hk)]
  refine ⟨createSBTResult s, { Name := "SBT", bindings := sbtBindings s }, CreateSBT_spec s h,
    rfl, ?_, ?_, rfl, rfl, rfl, cubeHitGroup_iff, ?_, ?_, ?_, ?_⟩
  · intro i name id hname hid
    have hi : i < s.m_CubeInstanceNames.length := by
      by_contra hc
      rw [List.getElem?_eq_none (not_lt.mp hc)] at hname
      exact Option.noConfusion hname
    show (sbtBindings s)[8 + 2 * s.m_SphereInstanceNames.length + i]? = _
    unfold sbtBindings
    rw [List.getElem?_append_right
      (by rw [List.length_append, fixedBindings_length, hl]; omega)]
    rw [List.length_append, fixedBindings_length, hl]
    have e : 8 + 2 * s.m_SphereInstanceNames.length + i -
        (8 + 2 * s.m_SphereInstanceNames.length) = i := by omega
    rw [e]
    simp [hi, cubeBindingOf, hname, hid]
  · show (sbtBindings s).length = _
    unfold sbtBindings
    rw [List.length_append, List.length_append, fixedBindings_length, hl]
    simp
  · exact hfix 3 (by omega)
  · exact hfix 4 (by omega)
  · exact hfix 5 (by omega)
  · exact hfix 6 (by omega)

/-- C20, checked on the example sample after `Initialize`. -/
theorem C20_cube_hit_groups_witness :
    ∃ s2 sbt, CreateSBT exampleInitialized = some s2 ∧ s2.m_pSBT = some sbt ∧
      (∀ i name id, exampleInitialized.m_CubeInstanceNames[i]? = some name → exampleInitialized.m_cubesCustomIds[i]? = some id →
        sbt.bindings[8 + 2 * exampleInitialized.m_SphereInstanceNames.length + i]? = some
          (SBTBinding.BindHitGroupForInstance name RayIndex.PRIMARY_RAY_INDEX
            (some (cubeHitGroup id)))) ∧
      sbt.bindings.length =
        8 + 2 * exampleInitialized.m_SphereInstanceNames.length + exampleInitialized.m_CubeInstanceNames.length ∧
      cubeHitGroup 0 = "GlassPrimaryHit" ∧ cubeHitGroup 1 = "CubePrimaryHit" ∧
      cubeHitGroup 2 = "GlassPrimaryHit" ∧
      (∀ id, (cubeHitGroup id = "CubePrimaryHit" ↔ id = 1) ∧
        (cubeHitGroup id = "GlassPrimaryHit" ↔ id ≠ 1)) ∧
      sbt.bindings[3]? = some (SBTBinding.BindHitGroupForInstance "Cube Instance 1"
        RayIndex.PRIMARY_RAY_INDEX (some "GlassPrimaryHit")) ∧
      sbt.bindings[4]? = some (SBTBinding.BindHitGroupForInstance "Cube Instance 2"
        RayIndex.PRIMARY_RAY_INDEX (some "GlassPrimaryHit")) ∧
      sbt.bindings[5]? = some (SBTBinding.BindHitGroupForInstance "Cube Instance 3"
        RayIndex.PRIMARY_RAY_INDEX (some "GlassPrimaryHit")) ∧
      sbt.bindings[6]? = some (SBTBinding.BindHitGroupForInstance "Ground Instance"
        RayIndex.PRIMARY_RAY_INDEX (some "GroundHit")) :=
  C20_cube_hit_groups exampleInitialized exampleInitialized_cubes

/-! ## Claim C21: instance names are unique -/

/-! `std::to_string` is modelled by `toString` on `Nat`; the decimal
representation determines the number. -/

theorem digitChar_val (d : Nat) (h : d < 10) : (Nat.digitChar d).toNat - 48 = d := by
  interval_cases d <;> rfl

theorem decodeDigits_snoc (pre : List Char) (c : Char) :
    decodeDigits (pre ++ [c]) = 10 * decodeDigits pre + (c.toNat - 48) := by
  simp [decodeDigits, List.foldl_append]

theorem toDigitsCore_decode (fuel n : Nat) (ds : List Char) (h : n < fuel) :
    ∃ pre, Nat.toDigitsCore 10 fuel n ds = pre ++ ds ∧ decodeDigits pre = n := by
  induction fuel generalizing n ds with
  | zero => exact absurd h (Nat.not_lt_zero n)
  | succ fuel ih =>
    have hd := digitChar_val (n % 10) (Nat.mod_lt n (by decide))
    by_cases h0 : n / 10 = 0
    · refine ⟨[Nat.digitChar (n % 10)], ?_, ?_⟩
      · simp [Nat.toDigitsCore, h0]
      · have hlt : n < 10 := by omega
        have e := decodeDigits_snoc [] (Nat.digitChar (n % 10))
        simp only [List.nil_append] at e
        rw [e, hd]
        simp [decodeDigits]
        omega
    · obtain ⟨pre, hpre, hdec⟩ := ih (n / 10) (Nat.digitChar (n % 10) :: ds) (by omega)
      refine ⟨pre ++ [Nat.digitChar (n % 10)], ?_, ?_⟩
      · simp [Nat.toDigitsCore, h0, hpre]
      · rw [decodeDigits_snoc, hdec, hd]
        omega

theorem decodeDigits_toDigits (n : Nat) : decodeDigits (Nat.toDigits 10 n) = n := by
  obtain ⟨pre, hpre, hdec⟩ := toDigitsCore_decode (n + 1) n [] (Nat.lt_succ_self n)
  unfold Nat.toDigits
  rw [hpre, List.append_nil, hdec]

theorem toString_nat_injective (n m : Nat) (h : toString n = toString m) : n = m := by
  have h1 : (Nat.toDigits 10 n).asString = (Nat.toDigits 10 m).asString := h
  have h2 : Nat.toDigits 10 n = Nat.toDigits 10 m := congrArg String.data h1
  rw [← decodeDigits_toDigits n, ← decodeDigits_toDigits m, h2]

theorem string_append_left_cancel (p x y : String) (h : p ++ x = p ++ y) : x = y := by
  have h1 := congrArg String.data h
  rw [String.data_append, String.data_append] at h1
  exact String.ext (List.append_cancel_left h1)

theorem numbered_name_injective (p : String) (n m : Nat)
    (h : p ++ toString n = p ++ toString m) : n = m :=
  toString_nat_injective n m (string_append_left_cancel p _ _ h)

/-- The form of a completed `UpdateTLAS` in a state of a run: the set-up and
the build ran in a state `sX` with placed vectors, which has the structures of
the state the call started in. -/
theorem UpdateTLAS_form (cfg : Config) (s : State) (hinv : TLASInv cfg s)
    (hsrb : s.m_pRayTracingSRB ≠ none) :
    ∃ sX tlas upd, UpdateTLAS cfg s = some (buildTLASResult cfg upd sX tlas) ∧
      builds (buildTLASResult cfg upd sX tlas).ctx = builds s.ctx ++ [buildAttribs cfg upd sX] ∧
      Placed cfg sX ∧ sX.m_pCubeBLAS = s.m_pCubeBLAS ∧
      sX.m_pSmallCubeBLAS = s.m_pSmallCubeBLAS ∧ sX.m_pProceduralBLAS = s.m_pProceduralBLAS ∧
      sX.m_NumActiveSmallSpheres =
        (if s.m_pTLAS = none ∧ s.m_MaxSmallSpheres = 0 then (cfg.NumSmallSpheres : Int)
         else s.m_NumActiveSmallSpheres) := by
  cases htlas : s.m_pTLAS with
  | none =>
    obtain ⟨srb, hs⟩ := Option.ne_none_iff_exists'.mp hsrb
    refine ⟨createBuffersResult cfg (createTLASResult cfg s srb), _, false,
      UpdateTLAS_create cfg s srb htlas hs, ?_, ?_, rfl, rfl, rfl, ?_⟩
    · simp only [buildTLASResult, builds_append,
        (builds_createBuffersResult cfg (createTLASResult cfg s srb)).1]
      simp [createTLASResult, builds_append, builds]
    · constructor <;> simp [createBuffersResult, createTLASResult, resize_length]
    · simp [createBuffersResult, createTLASResult]
  | some tlas =>
    have hpl := (hinv.created tlas htlas).2
    refine ⟨createBuffersResult cfg s, tlas, true, UpdateTLAS_update cfg s tlas htlas hpl,
      builds_update cfg s tlas, ?_, rfl, rfl, rfl, ?_⟩
    · exact ⟨hpl.sphereTransforms, hpl.cubeTransforms, hpl.cubeIds, hpl.sphereNames,
        hpl.cubeNames⟩
    · simp [createBuffersResult]

theorem instanceList_names (cfg : Config) (s : State) :
    (instanceList cfg s).map (fun inst => inst.InstanceName) =
      [some "Ground Instance", some "Cube Instance 1", some "Cube Instance 2",
        some "Cube Instance 3"] ++
      (List.range cfg.NumSmallSpheres).map
        (fun i => some ("Sphere Instance " ++ toString (4 + i))) ++
      (List.range cfg.NumSmallCubes).map
        (fun i => some ("Cube Instance " ++ toString (4 + cfg.NumSmallSpheres + i))) := by
  simp only [instanceList, List.map_append, List.map_map]
  rfl

theorem cube_name_ne_ground (u : String) : "Cube Instance " ++ u ≠ "Ground Instance" := by
  intro h
  have e1 : (("Cube Instance " : String).data ++ u.data).head? = some 'C' := rfl
  have e2 : ("Ground Instance" : String).data.head? = some 'G' := rfl
  rw [← String.data_append, h, e2] at e1
  exact absurd e1 (by decide)

theorem small_cube_ne_big (n : Nat) (hn : 4 ≤ n) :
    "Cube Instance " ++ toString n ∉
      ["Cube Instance 1", "Cube Instance 2", "Cube Instance 3"] := by
  have e1 : ("Cube Instance 1" : String) = "Cube Instance " ++ toString 1 := by decide
  have e2 : ("Cube Instance 2" : String) = "Cube Instance " ++ toString 2 := by decide
  have e3 : ("Cube Instance 3" : String) = "Cube Instance " ++ toString 3 := by decide
  intro h
  simp only [List.mem_cons, List.mem_singleton, List.not_mem_nil, or_false] at h
  rcases h with h | h | h
  · rw [e1] at h
    have := numbered_name_injective _ _ _ h
    omega
  · rw [e2] at h
    have := numbered_name_injective _ _ _ h
    omega
  · rw [e3] at h
    have := numbered_name_injective _ _ _ h
    omega

/-- The instance names that `UpdateTLAS` produces are pairwise distinct. -/
theorem instanceNames_nodup (cfg : Config) :
    ([some "Ground Instance", some "Cube Instance 1", some "Cube Instance 2",
        some "Cube Instance 3"] ++
      (List.range cfg.NumSmallSpheres).map
        (fun i => some ("Sphere Instance " ++ toString (4 + i))) ++
      (List.range cfg.NumSmallCubes).map
        (fun i => some ("Cube Instance " ++ toString (4 + cfg.NumSmallSpheres + i)))).Nodup := by
  have hsph : ((List.range cfg.NumSmallSpheres).map
      (fun i => some ("Sphere Instance " ++ toString (4 + i)))).Nodup := by
    apply List.Nodup.map _ (List.nodup_range _)
    intro i j hij
    have := numbered_name_injective _ _ _ (Option.some.inj hij)
    omega
  have hcub : ((List.range cfg.NumSmallCubes).map
      (fun i => some ("Cube Instance " ++ toString (4 + cfg.NumSmallSpheres + i)))).Nodup := by
    apply List.Nodup.map _ (List.nodup_range _)
    intro i j hij
    have := numbered_name_injective _ _ _ (Option.some.inj hij)
    omega
  have hfix : ([some "Ground Instance", some "Cube Instance 1", some "Cube Instance 2",
      some "Cube Instance 3"] : List (Option String)).Nodup := by decide
  rw [List.nodup_append, List.nodup_append]
  refine ⟨⟨hfix, hsph, ?_⟩, hcub, ?_⟩
  · intro x hx hy
    simp only [List.mem_map, List.mem_range] at hy
    obtain ⟨i, _, rfl⟩ := hy
    simp only [List.mem_cons, List.mem_singleton, List.not_mem_nil, or_false,
      Option.some.injEq] at hx
    rcases hx with h | h | h | h
    · exact sphere_name_ne_ground _ h
    · exact sphere_name_ne_cube _ "1" h
    · exact sphere_name_ne_cube _ "2" h
    · exact sphere_name_ne_cube _ "3" h
  · intro x hx hy
    simp only [List.mem_map, List.mem_range] at hy
    obtain ⟨i, _, rfl⟩ := hy
    simp only [List.mem_append, List.mem_map, List.mem_range, List.mem_cons, List.mem_singleton,
      List.not_mem_nil, or_false, Option.some.injEq] at hx
    rcases hx with (h | h | h | h) | ⟨j, _, h⟩
    · exact cube_name_ne_ground _ h
    · exact small_cube_ne_big (4 + cfg.NumSmallSpheres + i) (by omega)
        (by rw [h]; exact List.mem_cons_self _ _)
    · exact small_cube_ne_big (4 + cfg.NumSmallSpheres + i) (by omega)
        (by rw [h]; exact List.mem_cons_of_mem _ (List.mem_cons_self _ _))
    · exact small_cube_ne_big (4 + cfg.NumSmallSpheres + i) (by omega)
        (by rw [h]; exact List.mem_cons_of_mem _ (List.mem_cons_of_mem _ (List.mem_cons_self _ _)))
    · exact sphere_name_ne_cube _ _ h

theorem nodup_index_unique {α : Type} (l : List α) (h : l.Nodup) (x : α) (j k : Nat)
    (hj : l[j]? = some x) (hk : l[k]? = some x) : k = j := by
  obtain ⟨hj1, hj2⟩ := List.getElem?_eq_some_iff.mp hj
  obtain ⟨hk1, hk2⟩ := List.getElem?_eq_some_iff.mp hk
  exact (List.Nodup.getElem_inj_iff h).mp (hk2.trans hj2.symm)

/-- C21: in every state of a run from a fresh sample in which the
ray-tracing binding object exists, `UpdateTLAS` returns and the names of the
`4 + N_spheres + N_cubes` instances it passes are "Ground Instance",
"Cube Instance 1" to "Cube Instance 3", "Sphere Instance n" for `n = 4 + i`
and "Cube Instance n" for `n = 4 + N_spheres + i`, pairwise distinct; no small
cube has the name of a big cube; and `CreateSBT`, run next, returns with a
table in which every name bound by `BindHitGroupForInstance` is the name of
exactly one of the instances. -/
theorem C21_instance_names_unique (cfg : Config) (s0 : State) (ops : List Op) (s : State)
    (hfresh : Fresh s0) (hrun : runOps cfg ops s0 = some s)
    (hsrb : s.m_pRayTracingSRB ≠ none) :
    ∃ s2 s3 a sbt, UpdateTLAS cfg s = some s2 ∧ builds s2.ctx = builds s.ctx ++ [a] ∧
      a.pInstances.length = 4 + cfg.NumSmallSpheres + cfg.NumSmallCubes ∧
      a.pInstances.map (fun inst => inst.InstanceName) =
        [some "Ground Instance", some "Cube Instance 1", some "Cube Instance 2",
          some "Cube Instance 3"] ++
        (List.range cfg.NumSmallSpheres).map
          (fun i => some ("Sphere Instance " ++ toString (4 + i))) ++
        (List.range cfg.NumSmallCubes).map
          (fun i => some ("Cube Instance " ++ toString (4 + cfg.NumSmallSpheres + i))) ∧
      (a.pInstances.map (fun inst => inst.InstanceName)).Nodup ∧
      (∀ i, i < cfg.NumSmallCubes →
        "Cube Instance " ++ toString (4 + cfg.NumSmallSpheres + i) ∉
          ["Cube Instance 1", "Cube Instance 2", "Cube Instance 3"]) ∧
      CreateSBT s2 = some s3 ∧ s3.m_pSBT = some sbt ∧
      ∀ name ray g, SBTBinding.BindHitGroupForInstance name ray g ∈ sbt.bindings →
        ∃ j : Nat, (a.pInstances.map (fun inst => inst.InstanceName))[j]? = some (some name) ∧
          ∀ k : Nat,
            (a.pInstances.map (fun inst => inst.InstanceName))[k]? = some (some name) →
            k = j := by
  have hinv := inv_run cfg ops s0 s (inv_of_fresh cfg s0 hfresh) hrun
  obtain ⟨sX, tlas, upd, hupd, hb, hpl, _, _, _, _⟩ := UpdateTLAS_form cfg s hinv hsrb
  have hnames := instanceList_names cfg sX
  have hnodup : ((instanceList cfg sX).map (fun inst => inst.InstanceName)).Nodup := by
    rw [hnames]
    exact instanceNames_nodup cfg
  have hlen : (buildTLASResult cfg upd sX tlas).m_CubeInstanceNames.length ≤
      (buildTLASResult cfg upd sX tlas).m_cubesCustomIds.length := by
    show (cubeNames cfg).length ≤ sX.m_cubesCustomIds.length
    rw [hpl.cubeIds]
    simp [cubeNames]
  have hmem := mem_sbtBindings_placed cfg (buildTLASResult cfg upd sX tlas) rfl rfl
  refine ⟨_, _, buildAttribs cfg upd sX, { Name := "SBT", bindings := sbtBindings _ }, hupd, hb,
    instanceList_length _ _, hnames, hnodup, ?_, CreateSBT_spec _ hlen, rfl, ?_⟩
  · intro i _
    exact small_cube_ne_big _ (by omega)
  · intro name ray g hg
    have hin : some name ∈ (instanceList cfg sX).map (fun inst => inst.InstanceName) →
        ∃ j : Nat, ((instanceList cfg sX).map (fun inst => inst.InstanceName))[j]? =
            some (some name) ∧
          ∀ k : Nat, ((instanceList cfg sX).map (fun inst => inst.InstanceName))[k]? =
            some (some name) → k = j := by
      intro hm
      obtain ⟨j, hj⟩ := List.getElem?_of_mem hm
      exact ⟨j, hj, fun k hk => nodup_index_unique _ hnodup _ j k hj hk⟩
    apply hin
    rw [hnames]
    simp only [List.mem_append, List.mem_map, List.mem_range, List.mem_cons, List.mem_singleton,
      List.not_mem_nil, or_false, Option.some.injEq]
    rcases (hmem _).mp hg with h | ⟨i, hi, h | h⟩ | ⟨i, hi, h⟩
    · simp only [fixedBindings, List.mem_cons, List.mem_singleton, List.not_mem_nil, or_false,
        SBTBinding.BindHitGroupForInstance.injEq, false_or, reduceCtorEq] at h
      rcases h with ⟨rfl, _, _⟩ | ⟨rfl, _, _⟩ | ⟨rfl, _, _⟩ | ⟨rfl, _, _⟩
      · exact Or.inl (Or.inl (Or.inr (Or.inl rfl)))
      · exact Or.inl (Or.inl (Or.inr (Or.inr (Or.inl rfl))))
      · exact Or.inl (Or.inl (Or.inr (Or.inr (Or.inr rfl))))
      · exact Or.inl (Or.inl (Or.inl rfl))
    · simp only [SBTBinding.BindHitGroupForInstance.injEq] at h
      exact Or.inl (Or.inr ⟨i, hi, h.1.symm⟩)
    · simp only [SBTBinding.BindHitGroupForInstance.injEq] at h
      exact Or.inl (Or.inr ⟨i, hi, h.1.symm⟩)
    · simp only [SBTBinding.BindHitGroupForInstance.injEq] at h
      exact Or.inr ⟨i, hi, h.1.symm⟩

/-- Witness for C21 on the example sample after `Initialize`. -/
theorem C21_instance_names_unique_witness :
    ∃ s2 s3 a sbt, UpdateTLAS exampleConfig exampleInitialized = some s2 ∧ builds s2.ctx = builds exampleInitialized.ctx ++ [a] ∧
      a.pInstances.length = 4 + exampleConfig.NumSmallSpheres + exampleConfig.NumSmallCubes ∧
      a.pInstances.map (fun inst => inst.InstanceName) =
        [some "Ground Instance", some "Cube Instance 1", some "Cube Instance 2",
          some "Cube Instance 3"] ++
        (List.range exampleConfig.NumSmallSpheres).map
          (fun i => some ("Sphere Instance " ++ toString (4 + i))) ++
        (List.range exampleConfig.NumSmallCubes).map
          (fun i => some ("Cube Instance " ++ toString (4 + exampleConfig.NumSmallSpheres + i))) ∧
      (a.pInstances.map (fun inst => inst.InstanceName)).Nodup ∧
      (∀ i, i < exampleConfig.NumSmallCubes →
        "Cube Instance " ++ toString (4 + exampleConfig.NumSmallSpheres + i) ∉
          ["Cube Instance 1", "Cube Instance 2", "Cube Instance 3"]) ∧
      CreateSBT s2 = some s3 ∧ s3.m_pSBT = some sbt ∧
      ∀ name ray g, SBTBinding.BindHitGroupForInstance name ray g ∈ sbt.bindings →
        ∃ j : Nat, (a.pInstances.map (fun inst => inst.InstanceName))[j]? = some (some name) ∧
          ∀ k : Nat,
            (a.pInstances.map (fun inst => inst.InstanceName))[k]? = some (some name) →
            k = j :=
  C21_instance_names_unique exampleConfig exampleFresh [Op.Initialize] exampleInitialized
    exampleFresh_fresh exampleInitialized_run exampleInitialized_srb

/-! ## Claim C22: layout of the instance array -/

theorem take_map_range {α : Type} (f : Nat → α) (n m : Nat) (h : m ≤ n) :
    ((List.range n).map f).take m = (List.range m).map f := by
  rw [← List.map_take, List.take_range, Nat.min_eq_left h]

theorem instanceList_take_main (cfg : Config) (s : State) :
    (instanceList cfg s).take 4 = mainInstanceList cfg s := by
  have h4 : (mainInstanceList cfg s).length = 4 := rfl
  unfold instanceList
  rw [List.append_assoc, ← h4, List.take_left]

theorem instanceList_take_spheres (cfg : Config) (s : State) (m : Nat)
    (h : m ≤ cfg.NumSmallSpheres) :
    (instanceList cfg s).take (4 + m) =
      mainInstanceList cfg s ++ (List.range m).map (sphereInstanceOf cfg s 4) := by
  have h4 : (mainInstanceList cfg s).length = 4 := rfl
  unfold instanceList
  rw [List.append_assoc, ← h4, List.take_append,
    List.take_append_of_le_length (by simp; exact h), take_map_range _ _ _ h]

theorem instanceList_take_cubes (cfg : Config) (s : State) (m : Nat)
    (h : m ≤ cfg.NumSmallCubes) :
    (instanceList cfg s).take (4 + cfg.NumSmallSpheres + m) =
      mainInstanceList cfg s ++ (List.range cfg.NumSmallSpheres).map (sphereInstanceOf cfg s 4) ++
        (List.range m).map (cubeInstanceOf cfg s (4 + cfg.NumSmallSpheres)) := by
  have hl : (mainInstanceList cfg s ++
      (List.range cfg.NumSmallSpheres).map (sphereInstanceOf cfg s 4)).length =
      4 + cfg.NumSmallSpheres := by
    simp [mainInstanceList]
    omega
  unfold instanceList
  rw [← hl, List.take_append, take_map_range _ _ _ h]

theorem mainInstances_prefix (cfg : Config) (s : State) :
    mainInstances cfg s (List.replicate cfg.NumInstances ({} : TLASBuildInstanceData)) =
      some ((instanceList cfg s).take 4 ++
        List.replicate (cfg.NumInstances - 4) ({} : TLASBuildInstanceData)) := by
  have hN : cfg.NumInstances = 4 + (cfg.NumInstances - 4) := by
    unfold Config.NumInstances
    omega
  rw [instanceList_take_main]
  nth_rewrite 1 [hN]
  exact mainInstances_spec cfg s _

theorem sphereLoop_prefix (cfg : Config) (s : State) (hp : Placed cfg s) (m : Nat)
    (hm : m ≤ cfg.NumSmallSpheres) :
    ∃ names, forRange m (sphereInstance cfg s)
        { idx := 4
          Instances := (instanceList cfg s).take 4 ++
            List.replicate (cfg.NumInstances - 4) ({} : TLASBuildInstanceData)
          names := s.m_SphereInstanceNames } =
      some
        { idx := 4 + m
          Instances := (instanceList cfg s).take (4 + m) ++
            List.replicate (cfg.NumInstances - (4 + m)) ({} : TLASBuildInstanceData)
          names := names } := by
  have hs := sphereLoop_spec cfg s (mainInstanceList cfg s) (cfg.NumInstances - 4)
    s.m_SphereInstanceNames m (by rw [hp.sphereNames]; exact hm)
    (by rw [hp.sphereTransforms]; exact hm) (by unfold Config.NumInstances; omega)
  have h4 : (mainInstanceList cfg s).length = 4 := rfl
  rw [h4] at hs
  rw [instanceList_take_main, instanceList_take_spheres _ _ _ hm]
  have e : cfg.NumInstances - (4 + m) = cfg.NumInstances - 4 - m := by omega
  rw [e]
  exact ⟨_, hs⟩

theorem cubeLoop_prefix (cfg : Config) (s : State) (hp : Placed cfg s) (m : Nat)
    (hm : m ≤ cfg.NumSmallCubes) :
    ∃ names, forRange m (cubeInstance cfg s)
        { idx := 4 + cfg.NumSmallSpheres
          Instances := (instanceList cfg s).take (4 + cfg.NumSmallSpheres) ++
            List.replicate (cfg.NumInstances - (4 + cfg.NumSmallSpheres))
              ({} : TLASBuildInstanceData)
          names := s.m_CubeInstanceNames } =
      some
        { idx := 4 + cfg.NumSmallSpheres + m
          Instances := (instanceList cfg s).take (4 + cfg.NumSmallSpheres + m) ++
            List.replicate (cfg.NumInstances - (4 + cfg.NumSmallSpheres + m))
              ({} : TLASBuildInstanceData)
          names := names } := by
  have hc := cubeLoop_spec cfg s
    (mainInstanceList cfg s ++ (List.range cfg.NumSmallSpheres).map (sphereInstanceOf cfg s 4))
    (cfg.NumInstances - (4 + cfg.NumSmallSpheres)) s.m_CubeInstanceNames m
    (by rw [hp.cubeNames]; exact hm) (by rw [hp.cubeTransforms]; exact hm)
    (by rw [hp.cubeIds]; exact hm) (by unfold Config.NumInstances; omega)
  have hl : (mainInstanceList cfg s ++
      (List.range cfg.NumSmallSpheres).map (sphereInstanceOf cfg s 4)).length =
      4 + cfg.NumSmallSpheres := by
    simp [mainInstanceList]
    omega
  rw [hl] at hc
  rw [instanceList_take_spheres _ _ _ (Nat.le_refl _), instanceList_take_cubes _ _ _ hm]
  have e : cfg.NumInstances - (4 + cfg.NumSmallSpheres + m) =
      cfg.NumInstances - (4 + cfg.NumSmallSpheres) - m := by omega
  rw [e]
  exact ⟨_, hc⟩

/-- The stages of `UpdateTLAS` in a state of a run: the block `if (!m_pTLAS)`
leaves `sT`, the buffer creation leaves `sX`, and the set-up and the build run
in `sX`. -/
theorem UpdateTLAS_stages (cfg : Config) (s : State) (hinv : TLASInv cfg s)
    (hsrb : s.m_pRayTracingSRB ≠ none) :
    ∃ sT sX tlas upd,
      (s.m_pTLAS = none → createTLAS cfg s = some sT) ∧ (s.m_pTLAS ≠ none → sT = s) ∧
      createBuffers cfg cfg.NumInstances sT = some sX ∧
      (setupInstances cfg cfg.NumInstances sX).map Prod.fst = some (instanceList cfg sX) ∧
      UpdateTLAS cfg s = some (buildTLASResult cfg upd sX tlas) ∧
      builds (buildTLASResult cfg upd sX tlas).ctx = builds s.ctx ++ [buildAttribs cfg upd sX] ∧
      Placed cfg sX ∧ sX.m_pCubeBLAS = s.m_pCubeBLAS ∧
      sX.m_pSmallCubeBLAS = s.m_pSmallCubeBLAS ∧ sX.m_pProceduralBLAS = s.m_pProceduralBLAS := by
  cases htlas : s.m_pTLAS with
  | none =>
    obtain ⟨srb, hs⟩ := Option.ne_none_iff_exists'.mp hsrb
    have hpl : Placed cfg (createBuffersResult cfg (createTLASResult cfg s srb)) := by
      constructor <;> simp [createBuffersResult, createTLASResult, resize_length]
    refine ⟨createTLASResult cfg s srb, createBuffersResult cfg (createTLASResult cfg s srb), _,
      false, fun _ => createTLAS_spec cfg s srb hs, fun h => absurd rfl h,
      createBuffers_spec cfg _ _ rfl, ?_, UpdateTLAS_create cfg s srb htlas hs, ?_, hpl,
      rfl, rfl, rfl⟩
    · rw [setupInstances_spec cfg _ hpl]
      rfl
    · simp only [buildTLASResult, builds_append,
        (builds_createBuffersResult cfg (createTLASResult cfg s srb)).1]
      simp [createTLASResult, builds_append, builds]
  | some tlas =>
    have hpl := (hinv.created tlas htlas).2
    have hpl2 : Placed cfg (createBuffersResult cfg s) :=
      ⟨hpl.sphereTransforms, hpl.cubeTransforms, hpl.cubeIds, hpl.sphereNames, hpl.cubeNames⟩
    refine ⟨s, createBuffersResult cfg s, tlas, true, (fun h => by cases h), fun _ => rfl,
      createBuffers_spec cfg s tlas htlas, ?_, UpdateTLAS_update cfg s tlas htlas hpl,
      builds_update cfg s tlas, hpl2, rfl, rfl, rfl⟩
    rw [setupInstances_spec cfg _ hpl2]
    rfl

/-- C22: in every state of a run from a fresh sample in which the
ray-tracing binding object exists, `UpdateTLAS` returns, so that no access to
the instance array or to the stored name, transform and material-id vectors is
out of range (these vectors have `N_spheres` and `N_cubes` elements when the
set-up starts), and it passes `NumInstances = 4 + N_spheres + N_cubes`
instances. The set-up fills the array left to right: the fixed assignments fill
slots 0 to 3 of the blank array, after `m` rounds of the sphere loop the
running index is `4 + m` and slots below it hold their final value while the
rest is blank, after `m` rounds of the cube loop the running index is
`4 + N_spheres + m` likewise, and it ends at `NumInstances`. Slot 0 is the
ground and slots 1 to 3 the big cubes with custom ids 0, 1, 2, on the big-cube
BLAS with mask `OPAQUE_GEOM_MASK`; slot `4 + i` is sphere `i` on the procedural
BLAS with custom id 1; slot `4 + N_spheres + i` is small cube `i` on the
small-cube BLAS with custom id `m_cubesCustomIds[i]`. -/
theorem C22_instance_layout (cfg : Config) (s0 : State) (ops : List Op) (s : State)
    (hfresh : Fresh s0) (hrun : runOps cfg ops s0 = some s)
    (hsrb : s.m_pRayTracingSRB ≠ none) :
    ∃ s2 sT sX a, UpdateTLAS cfg s = some s2 ∧ builds s2.ctx = builds s.ctx ++ [a] ∧
      a.InstanceCount = cfg.NumInstances ∧ a.pInstances.length = cfg.NumInstances ∧
      (s.m_pTLAS = none → createTLAS cfg s = some sT) ∧ (s.m_pTLAS ≠ none → sT = s) ∧
      createBuffers cfg cfg.NumInstances sT = some sX ∧
      (setupInstances cfg cfg.NumInstances sX).map Prod.fst = some a.pInstances ∧
      sX.m_SphereInstanceNames.length = cfg.NumSmallSpheres ∧
      sX.m_SmallSphereTransforms.length = cfg.NumSmallSpheres ∧
      sX.m_CubeInstanceNames.length = cfg.NumSmallCubes ∧
      sX.m_SmallCubeTransforms.length = cfg.NumSmallCubes ∧
      sX.m_cubesCustomIds.length = cfg.NumSmallCubes ∧
      mainInstances cfg sX (List.replicate cfg.NumInstances ({} : TLASBuildInstanceData)) =
        some (a.pInstances.take 4 ++
          List.replicate (cfg.NumInstances - 4) ({} : TLASBuildInstanceData)) ∧
      (∀ m, m ≤ cfg.NumSmallSpheres →
        ∃ names, forRange m (sphereInstance cfg sX)
            { idx := 4
              Instances := a.pInstances.take 4 ++
                List.replicate (cfg.NumInstances - 4) ({} : TLASBuildInstanceData)
              names := sX.m_SphereInstanceNames } =
          some
            { idx := 4 + m
              Instances := a.pInstances.take (4 + m) ++
                List.replicate (cfg.NumInstances - (4 + m)) ({} : TLASBuildInstanceData)
              names := names }) ∧
      (∀ m, m ≤ cfg.NumSmallCubes →
        ∃ names, forRange m (cubeInstance cfg sX)
            { idx := 4 + cfg.NumSmallSpheres
              Instances := a.pInstances.take (4 + cfg.NumSmallSpheres) ++
                List.replicate (cfg.NumInstances - (4 + cfg.NumSmallSpheres))
                  ({} : TLASBuildInstanceData)
              names := sX.m_CubeInstanceNames } =
          some
            { idx := 4 + cfg.NumSmallSpheres + m
              Instances := a.pInstances.take (4 + cfg.NumSmallSpheres + m) ++
                List.replicate (cfg.NumInstances - (4 + cfg.NumSmallSpheres + m))
                  ({} : TLASBuildInstanceData)
              names := names }) ∧
      4 + cfg.NumSmallSpheres + cfg.NumSmallCubes = cfg.NumInstances ∧
      (a.pInstances.take 4).map
          (fun inst => (inst.InstanceName, inst.CustomId, inst.pBLAS, inst.Mask)) =
        [(some "Ground Instance", 0, s.m_pCubeBLAS, cfg.OPAQUE_GEOM_MASK),
          (some "Cube Instance 1", 0, s.m_pCubeBLAS, cfg.OPAQUE_GEOM_MASK),
          (some "Cube Instance 2", 1, s.m_pCubeBLAS, cfg.OPAQUE_GEOM_MASK),
          (some "Cube Instance 3", 2, s.m_pCubeBLAS, cfg.OPAQUE_GEOM_MASK)] ∧
      (∀ i, i < cfg.NumSmallSpheres →
        ∃ inst, a.pInstances[4 + i]? = some inst ∧
          inst.InstanceName = some ("Sphere Instance " ++ toString (4 + i)) ∧
          inst.CustomId = 1 ∧ inst.pBLAS = s.m_pProceduralBLAS ∧
          sX.m_SmallSphereTransforms[i]? = some inst.Transform) ∧
      (∀ i, i < cfg.NumSmallCubes →
        ∃ inst, a.pInstances[4 + cfg.NumSmallSpheres + i]? = some inst ∧
          inst.InstanceName =
            some ("Cube Instance " ++ toString (4 + cfg.NumSmallSpheres + i)) ∧
          sX.m_cubesCustomIds[i]? = some inst.CustomId ∧
          s2.m_cubesCustomIds = sX.m_cubesCustomIds ∧
          inst.pBLAS = s.m_pSmallCubeBLAS ∧
          sX.m_SmallCubeTransforms[i]? = some inst.Transform) := by
  have hinv := inv_run cfg ops s0 s (inv_of_fresh cfg s0 hfresh) hrun
  obtain ⟨sT, sX, tlas, upd, h1, h2, h3, h4, hupd, hb, hpl, e1, e2, e3⟩ :=
    UpdateTLAS_stages cfg s hinv hsrb
  refine ⟨_, sT, sX, buildAttribs cfg upd sX, hupd, hb, rfl, instanceList_length _ _, h1, h2, h3,
    h4, hpl.sphereNames, hpl.sphereTransforms, hpl.cubeNames, hpl.cubeTransforms, hpl.cubeIds,
    mainInstances_prefix cfg sX, sphereLoop_prefix cfg sX hpl, cubeLoop_prefix cfg sX hpl, rfl,
    ?_, ?_, ?_⟩
  · show ((instanceList cfg sX).take 4).map _ = _
    rw [instanceList_take_main, ← e1]
    rfl
  · intro i hi
    refine ⟨_, instanceList_sphere cfg sX i hi, rfl, rfl, e3, ?_⟩
    have hlt : i < sX.m_SmallSphereTransforms.length := by rw [hpl.sphereTransforms]; exact hi
    simp [sphereInstanceOf, List.getElem?_eq_getElem hlt]
  · intro i hi
    have hlt : i < sX.m_SmallCubeTransforms.length := by rw [hpl.cubeTransforms]; exact hi
    have hlt2 : i < sX.m_cubesCustomIds.length := by rw [hpl.cubeIds]; exact hi
    refine ⟨_, instanceList_cube cfg sX i hi, rfl, ?_, rfl, e2, ?_⟩
    · simp [cubeInstanceOf, List.getElem?_eq_getElem hlt2]
    · simp [cubeInstanceOf, List.getElem?_eq_getElem hlt]

/-- Witness for C22 on the example sample after `Initialize`. -/
theorem C22_instance_layout_witness :
    ∃ s2 sT sX a, UpdateTLAS exampleConfig exampleInitialized = some s2 ∧ builds s2.ctx = builds exampleInitialized.ctx ++ [a] ∧
      a.InstanceCount = exampleConfig.NumInstances ∧ a.pInstances.length = exampleConfig.NumInstances ∧
      (exampleInitialized.m_pTLAS = none → createTLAS exampleConfig exampleInitialized = some sT) ∧ (exampleInitialized.m_pTLAS ≠ none → sT = exampleInitialized) ∧
      createBuffers exampleConfig exampleConfig.NumInstances sT = some sX ∧
      (setupInstances exampleConfig exampleConfig.NumInstances sX).map Prod.fst = some a.pInstances ∧
      sX.m_SphereInstanceNames.length = exampleConfig.NumSmallSpheres ∧
      sX.m_SmallSphereTransforms.length = exampleConfig.NumSmallSpheres ∧
      sX.m_CubeInstanceNames.length = exampleConfig.NumSmallCubes ∧
      sX.m_SmallCubeTransforms.length = exampleConfig.NumSmallCubes ∧
      sX.m_cubesCustomIds.length = exampleConfig.NumSmallCubes ∧
      mainInstances exampleConfig sX (List.replicate exampleConfig.NumInstances ({} : TLASBuildInstanceData)) =
        some (a.pInstances.take 4 ++
          List.replicate (exampleConfig.NumInstances - 4) ({} : TLASBuildInstanceData)) ∧
      (∀ m, m ≤ exampleConfig.NumSmallSpheres →
        ∃ names, forRange m (sphereInstance exampleConfig sX)
            { idx := 4
              Instances := a.pInstances.take 4 ++
                List.replicate (exampleConfig.NumInstances - 4) ({} : TLASBuildInstanceData)
              names := sX.m_SphereInstanceNames } =
          some
            { idx := 4 + m
              Instances := a.pInstances.take (4 + m) ++
                List.replicate (exampleConfig.NumInstances - (4 + m)) ({} : TLASBuildInstanceData)
              names := names }) ∧
      (∀ m, m ≤ exampleConfig.NumSmallCubes →
        ∃ names, forRange m (cubeInstance exampleConfig sX)
            { idx := 4 + exampleConfig.NumSmallSpheres
              Instances := a.pInstances.take (4 + exampleConfig.NumSmallSpheres) ++
                List.replicate (exampleConfig.NumInstances - (4 + exampleConfig.NumSmallSpheres))
                  ({} : TLASBuildInstanceData)
              names := sX.m_CubeInstanceNames } =
          some
            { idx := 4 + exampleConfig.NumSmallSpheres + m
              Instances := a.pInstances.take (4 + exampleConfig.NumSmallSpheres + m) ++
                List.replicate (exampleConfig.NumInstances - (4 + exampleConfig.NumSmallSpheres + m))
                  ({} : TLASBuildInstanceData)
              names := names }) ∧
      4 + exampleConfig.NumSmallSpheres + exampleConfig.NumSmallCubes = exampleConfig.NumInstances ∧
      (a.pInstances.take 4).map
          (fun inst => (inst.InstanceName, inst.CustomId, inst.pBLAS, inst.Mask)) =
        [(some "Ground Instance", 0, exampleInitialized.m_pCubeBLAS, exampleConfig.OPAQUE_GEOM_MASK),
          (some "Cube Instance 1", 0, exampleInitialized.m_pCubeBLAS, exampleConfig.OPAQUE_GEOM_MASK),
          (some "Cube Instance 2", 1, exampleInitialized.m_pCubeBLAS, exampleConfig.OPAQUE_GEOM_MASK),
          (some "Cube Instance 3", 2, exampleInitialized.m_pCubeBLAS, exampleConfig.OPAQUE_GEOM_MASK)] ∧
      (∀ i, i < exampleConfig.NumSmallSpheres →
        ∃ inst, a.pInstances[4 + i]? = some inst ∧
          inst.InstanceName = some ("Sphere Instance " ++ toString (4 + i)) ∧
          inst.CustomId = 1 ∧ inst.pBLAS = exampleInitialized.m_pProceduralBLAS ∧
          sX.m_SmallSphereTransforms[i]? = some inst.Transform) ∧
      (∀ i, i < exampleConfig.NumSmallCubes →
        ∃ inst, a.pInstances[4 + exampleConfig.NumSmallSpheres + i]? = some inst ∧
          inst.InstanceName =
            some ("Cube Instance " ++ toString (4 + exampleConfig.NumSmallSpheres + i)) ∧
          sX.m_cubesCustomIds[i]? = some inst.CustomId ∧
          s2.m_cubesCustomIds = sX.m_cubesCustomIds ∧
          inst.pBLAS = exampleInitialized.m_pSmallCubeBLAS ∧
          sX.m_SmallCubeTransforms[i]? = some inst.Transform) :=
  C22_instance_layout exampleConfig exampleFresh [Op.Initialize] exampleInitialized
    exampleFresh_fresh exampleInitialized_run exampleInitialized_srb

/-! ## Claim C23: recursion depth and the declared limit -/

theorem pso_setRayTracingVar {s s2 : State} {stage name : String}
    (h : s.setRayTracingVar stage name = some s2) :
    s2.m_pRayTracingPSO = s.m_pRayTracingPSO := by
  obtain ⟨srb, _, rfl⟩ := setRayTracingVar_some h
  rfl

theorem pso_LoadTextures {cfg : Config} {s s2 : State}
    (h : LoadTextures cfg s = some s2) : s2.m_pRayTracingPSO = s.m_pRayTracingPSO := by
  unfold Tutorial21.LoadTextures at h
  rw [foldl_emit_eq] at h
  simp only [Option.bind_eq_some] at h
  obtain ⟨s1, hs1, hs2⟩ := h
  have d1 := pso_setRayTracingVar hs1
  have d2 := pso_setRayTracingVar hs2
  exact d2.trans d1

theorem pso_CreateCubeBLAS {cfg : Config} {cubeSize : ℚ} {s s2 : State}
    {blas : IBottomLevelAS} (h : CreateCubeBLAS cfg cubeSize s = some (s2, blas)) :
    s2.m_pRayTracingPSO = s.m_pRayTracingPSO := by
  unfold Tutorial21.CreateCubeBLAS at h
  simp only [Option.bind_eq_some] at h
  obtain ⟨s1, hs1, hs2⟩ := h
  have h1 : s1.m_pRayTracingPSO = s.m_pRayTracingPSO := by
    cases hcb : s.m_CubeAttribsCB with
    | some cb =>
      simp only [hcb, Option.some.injEq] at hs1
      subst hs1
      rfl
    | none =>
      simp only [hcb] at hs1
      have d := pso_setRayTracingVar hs1
      exact d
  simp only [Option.some.injEq, Prod.mk.injEq] at hs2
  obtain ⟨rfl, _⟩ := hs2
  exact h1

theorem pso_CreateProceduralBLAS {cfg : Config} {s s2 : State}
    (h : CreateProceduralBLAS cfg s = some s2) : s2.m_pRayTracingPSO = s.m_pRayTracingPSO := by
  unfold Tutorial21.CreateProceduralBLAS at h
  simp only [Option.bind_eq_some] at h
  obtain ⟨s1, hs1, hs2⟩ := h
  simp only [Option.some.injEq] at hs2
  subst hs2
  have d := pso_setRayTracingVar hs1
  exact d

theorem pso_CreateSBT {s s2 : State} (h : CreateSBT s = some s2) :
    s2.m_pRayTracingPSO = s.m_pRayTracingPSO := by
  unfold Tutorial21.CreateSBT at h
  simp only [Option.bind_eq_some] at h
  obtain ⟨g1, _, g2, _, hs2⟩ := h
  simp only [Option.some.injEq] at hs2
  subst hs2
  rfl

theorem pso_UpdateTLAS {cfg : Config} {s s2 : State} (hinv : TLASInv cfg s)
    (h : UpdateTLAS cfg s = some s2) : s2.m_pRayTracingPSO = s.m_pRayTracingPSO := by
  cases htlas : s.m_pTLAS with
  | none =>
    cases hsrb : s.m_pRayTracingSRB with
    | none =>
      rw [UpdateTLAS_needs_srb cfg s htlas hsrb] at h
      cases h
    | some srb =>
      rw [UpdateTLAS_create cfg s srb htlas hsrb] at h
      simp only [Option.some.injEq] at h
      subst h
      rfl
  | some tlas =>
    rw [UpdateTLAS_update cfg s tlas htlas (hinv.created tlas htlas).2] at h
    simp only [Option.some.injEq] at h
    subst h
    rfl

theorem pso_Render {cfg : Config} {s s2 : State} (hinv : TLASInv cfg s)
    (h : Render cfg s = some s2) : s2.m_pRayTracingPSO = s.m_pRayTracingPSO := by
  obtain ⟨s1, rt, srb, srb2, hu, _, _, _, rfl⟩ := Render_eq h
  have d := pso_UpdateTLAS hinv hu
  exact d

theorem pso_WindowResize (Width Height : Nat) (s : State) :
    (WindowResize Width Height s).m_pRayTracingPSO = s.m_pRayTracingPSO := by
  simp only [Tutorial21.WindowResize]
  split_ifs <;> simp [State.emit]

theorem pso_UpdateUI (inp : UIInput) (s : State) :
    (UpdateUI inp s).m_pRayTracingPSO = s.m_pRayTracingPSO := by
  unfold Tutorial21.UpdateUI
  split <;> rfl

/-- The pipeline that a completed `Initialize` on a device with ray tracing
leaves declares the clamped depth, narrowed to 8 bits. -/
theorem Initialize_pso {cfg : Config} {s s2 : State} (hinv : TLASInv cfg s)
    (hcap : cfg.StandaloneShaders = true) (h : Initialize cfg s = some s2) :
    ∃ pso, s2.m_pRayTracingPSO = some pso ∧
      pso.MaxRecursionDepth = min s.m_MaxRecursionDepth cfg.DeviceMaxRecursionDepth % 256 := by
  unfold Initialize at h
  rw [if_neg (by rw [hcap]; simp)] at h
  simp only [Option.bind_eq_some] at h
  obtain ⟨s1, h1, ⟨s2a, b1⟩, h2, ⟨s3a, b2⟩, h3, s4, h4, s5, h5, s6, h6, h7⟩ := h
  simp only [Option.some.injEq] at h7
  subst h7
  have f00 : TLASFrame s (createConstantsCB cfg s) :=
    frame_update (frame_emit s _ (by rfl) (by rfl)) rfl rfl rfl rfl rfl rfl rfl
  have f0 := frame_trans (frame_trans f00 (frame_CreateGraphicsPSO _))
    (frame_CreateRayTracingPSO cfg _)
  have f1 := frame_trans f0 (frame_LoadTextures h1)
  have f2 : TLASFrame s { s2a with m_pCubeBLAS := some b1 } :=
    frame_update (frame_trans f1 (frame_CreateCubeBLAS h2)) rfl rfl rfl rfl rfl rfl rfl
  have f3 : TLASFrame s { s3a with m_pSmallCubeBLAS := some b2 } :=
    frame_update (frame_trans f2 (frame_CreateCubeBLAS h3)) rfl rfl rfl rfl rfl rfl rfl
  have f4 := frame_trans f3 (frame_CreateProceduralBLAS h4)
  have e0 : (CreateRayTracingPSO cfg (CreateGraphicsPSO (createConstantsCB cfg s))).m_pRayTracingPSO =
      some (declaredPSO cfg s) := by
    simp only [CreateRayTracingPSO, foldl_emit_eq]
    simp [CreateGraphicsPSO, createConstantsCB, State.emit, declaredPSO]
  have d1 := pso_LoadTextures h1
  have d2 := pso_CreateCubeBLAS h2
  have d3 := pso_CreateCubeBLAS h3
  have d4 := pso_CreateProceduralBLAS h4
  have d5 := pso_UpdateTLAS (inv_of_frame hinv f4) h5
  have d6 := pso_CreateSBT h6
  refine ⟨declaredPSO cfg s, ?_, rfl⟩
  show s6.m_pRayTracingPSO = _
  rw [d6, d5, d4]
  show s3a.m_pRayTracingPSO = _
  rw [d3]
  show s2a.m_pRayTracingPSO = _
  rw [d2, d1, e0]

theorem declared_step {cfg : Config} (D : Nat)
    (hdev : D ≤ cfg.DeviceMaxRecursionDepth) (hcap : cfg.StandaloneShaders = true)
    {op : Op} {s s2 : State} (hinv : TLASInv cfg s) (hP : s.m_MaxRecursionDepth = D)
    (hpso : ∃ pso, s.m_pRayTracingPSO = some pso ∧ pso.MaxRecursionDepth = D % 256)
    (h : op.run cfg s = some s2) :
    ∃ pso, s2.m_pRayTracingPSO = some pso ∧ pso.MaxRecursionDepth = D % 256 := by
  cases op with
  | Initialize =>
    obtain ⟨pso, e1, e2⟩ := Initialize_pso hinv hcap h
    refine ⟨pso, e1, ?_⟩
    rw [e2, hP, Nat.min_eq_left hdev]
  | WindowResize w h2 =>
    simp only [Op.run, Option.some.injEq] at h
    subst h
    rw [pso_WindowResize]
    exact hpso
  | UpdateUI inp =>
    simp only [Op.run, Option.some.injEq] at h
    subst h
    rw [pso_UpdateUI]
    exact hpso
  | Render =>
    rw [pso_Render hinv h]
    exact hpso
  | UpdateTLAS =>
    rw [pso_UpdateTLAS hinv h]
    exact hpso

theorem declared_run {cfg : Config} (D : Nat) (hD : 1 ≤ D)
    (hdev : D ≤ cfg.DeviceMaxRecursionDepth) (hcap : cfg.StandaloneShaders = true)
    (ops : List Op) (s s2 : State) (hinv : TLASInv cfg s)
    (hP : s.m_MaxRecursionDepth = D ∧ 1 ≤ s.MaxRecursion ∧ s.MaxRecursion ≤ (D : Int))
    (hpso : ∃ pso, s.m_pRayTracingPSO = some pso ∧ pso.MaxRecursionDepth = D % 256)
    (h : runOps cfg ops s = some s2) :
    ∃ pso, s2.m_pRayTracingPSO = some pso ∧ pso.MaxRecursionDepth = D % 256 := by
  induction ops generalizing s with
  | nil =>
    simp only [runOps, Option.some.injEq] at h
    subst h
    exact hpso
  | cons op ops ih =>
    simp only [runOps, Option.bind_eq_some] at h
    obtain ⟨s1, h1, h2⟩ := h
    exact ih s1 (inv_step hinv h1) (depth_step D hD hdev hcap hinv hP h1)
      (declared_step D hdev hcap hinv hP.1 hpso h1) h2

/-- When the configured depth and the depth reported by the device are at
least 1 and their minimum is below 256, in every state of a run that starts
with `Initialize` on a fresh sample the pipeline declares that minimum and
`m_Constants.MaxRecursion` is at most the declared depth. -/
theorem recursion_within_declared (cfg : Config) (s0 : State) (ops : List Op) (s : State)
    (hfresh : Fresh s0) (hcap : cfg.StandaloneShaders = true)
    (hconf : 1 ≤ s0.m_MaxRecursionDepth) (hdevice : 1 ≤ cfg.DeviceMaxRecursionDepth)
    (hsmall : min s0.m_MaxRecursionDepth cfg.DeviceMaxRecursionDepth < 256)
    (hrun : runOps cfg (Op.Initialize :: ops) s0 = some s) :
    ∃ pso, s.m_pRayTracingPSO = some pso ∧
      pso.MaxRecursionDepth = min s0.m_MaxRecursionDepth cfg.DeviceMaxRecursionDepth ∧
      s.MaxRecursion ≤ (pso.MaxRecursionDepth : Int) := by
  have hinv0 := inv_of_fresh cfg s0 hfresh
  simp only [runOps, Option.bind_eq_some] at hrun
  obtain ⟨s1, h1, h2⟩ := hrun
  have h1b : Initialize cfg s0 = some s1 := h1
  obtain ⟨e1, e2⟩ := Initialize_depth hinv0 hcap h1b
  obtain ⟨pso1, p1, p2⟩ := Initialize_pso hinv0 hcap h1b
  have hinv1 : TLASInv cfg s1 := inv_step hinv0 h1
  have hD : 1 ≤ min s0.m_MaxRecursionDepth cfg.DeviceMaxRecursionDepth := by
    rw [Nat.le_min]
    exact ⟨hconf, hdevice⟩
  have hP : s1.m_MaxRecursionDepth = min s0.m_MaxRecursionDepth cfg.DeviceMaxRecursionDepth ∧
      1 ≤ s1.MaxRecursion ∧
      s1.MaxRecursion ≤ ((min s0.m_MaxRecursionDepth cfg.DeviceMaxRecursionDepth : Nat) : Int) := by
    rw [e2, e1]
    refine ⟨rfl, ?_, ?_⟩ <;> omega
  have hd := depth_run _ hD (Nat.min_le_right _ _) hcap ops s1 s hinv1 hP h2
  obtain ⟨pso, q1, q2⟩ := declared_run _ hD (Nat.min_le_right _ _) hcap ops s1 s hinv1 hP
    ⟨pso1, p1, p2⟩ h2
  rw [Nat.mod_eq_of_lt hsmall] at q2
  refine ⟨pso, q1, q2, ?_⟩
  rw [q2]
  exact hd.2.2


end Tutorial21
